import Mathlib

/-!
Social networking system: Token Issuer, Data Gateway, Session Manager, Fanout
Dispatcher.

A shallow embedding of the request handlers of `AuthServer.cpp`,
`BasicServer.cpp`, `UserServer.cpp` and `PushServer.cpp`, and the properties
checked against them.

Conventions of the embedding.

* A C++ `std::string` is a Lean `String`; a `char` is a Lean `Char` whose code
  point stands for the byte value.  A UTF-8 string has a byte outside `0..127`
  exactly when one of its characters has a code point above `127`.
* `unordered_map<string, T>` is an association list with distinct keys, kept in
  insertion order; `find`, `operator[]`, `insert`, `erase` are the functions
  `List.lookup`, `map_index`, `map_insert`, `map_erase` below.  Where the result
  of a loop over a map depends on the order of the visit, the order is
  `map_iteration`.
* An `http_request` is seen after `uri::split_path(uri::decode(path))`: its list
  of path segments, and the members of its JSON body.
* `message.reply(...)` followed by `return` is the value returned by the handler.
-/

namespace SocialNetwork

/-! ## Shared vocabulary -/

/-- The numeric HTTP status code (`web::http::status_code`). -/
abbrev status_code := Nat

namespace status_codes
abbrev OK : status_code := 200
abbrev Created : status_code := 201
abbrev Accepted : status_code := 202
abbrev NoContent : status_code := 204
abbrev BadRequest : status_code := 400
abbrev Forbidden : status_code := 403
abbrev NotFound : status_code := 404
abbrev InternalError : status_code := 500
abbrev ServiceUnavailable : status_code := 503
end status_codes

/-- The type `prop_str_vals_t = vector<pair<string,string>>`. -/
abbrev prop_str_vals_t := List (String × String)

/-- A `web::json::value`, as far as the servers build or inspect one: the null
value `value {}`, an object of string members, or an array of such objects. -/
inductive value where
  | null : value
  | object (fields : List (String × String)) : value
  | array (items : List (List (String × String))) : value
deriving DecidableEq, Repr

/-- Reading `m[k]` on an `unordered_map<string,string>`: the stored value, or the
empty string that `operator[]` default-constructs for a missing key. -/
def map_index (m : List (String × String)) (k : String) : String :=
  (m.lookup k).getD ""

/-- The assignment `m[k] = v`: overwrite the entry of `k`, or add one. -/
def map_assign {β : Type} (m : List (String × β)) (k : String) (v : β) : List (String × β) :=
  if (m.lookup k).isSome then m.map (fun p => if p.1 == k then (k, v) else p)
  else m ++ [(k, v)]

/-- The call `m.insert({k, v})`: adds the entry only when `k` has none. -/
def map_insert {β : Type} (m : List (String × β)) (k : String) (v : β) : List (String × β) :=
  if (m.lookup k).isSome then m else m ++ [(k, v)]

/-- The call `m.erase(k)`. -/
def map_erase {β : Type} (m : List (String × β)) (k : String) : List (String × β) :=
  m.filter (fun p => !(p.1 == k))

/-- An incoming request: the path segments and the members of the JSON object in
its body, values in string form (no member when there is no JSON body). -/
structure http_request where
  paths : List String
  json_body : List (String × String)
deriving DecidableEq, Repr

/-- The body of a request as a map: `results[v.first] = ...` for each member. -/
def get_json_body (message : http_request) : List (String × String) :=
  message.json_body.foldl (fun results v => map_assign results v.1 v.2) []

/-- A reply: status code and JSON body (`value.null` when none is given). -/
structure http_response where
  status : status_code
  body : value
deriving DecidableEq, Repr

/-! ## The storage collaborator -/

/-- A table entity: its keys and its properties (all string valued). -/
structure table_entity where
  partition_key : String
  row_key : String
  properties : List (String × String)
deriving DecidableEq, Repr

/-- The arguments of `cloud_table::get_shared_access_signature`: the policy
(expiry, permissions) and the inclusive key range the signature is valid for. -/
structure shared_access_signature where
  expiry : Nat
  permissions : Nat
  start_partition_key : String
  start_row_key : String
  end_partition_key : String
  end_row_key : String
deriving DecidableEq, Repr

/-- The bit `table_shared_access_policy::permissions::read`. -/
abbrev permissions_read : Nat := 1

/-- The bit `table_shared_access_policy::permissions::update`. -/
abbrev permissions_update : Nat := 32

/-- The storage account the servers talk to: its tables by name, its clock, the
signing of a shared access signature into a token string (`none` when the
service raises a `storage_exception`) and the policy a token string carries. -/
structure storage_account where
  tables : List (String × List table_entity)
  utc_now : Nat
  sas_sign : shared_access_signature → Option String
  sas_decode : String → Option shared_access_signature

/-- A handle on a table that may not exist (`table_cache.lookup_table`). -/
abbrev cloud_table := Option (List table_entity)

def lookup_table (acct : storage_account) (name : String) : cloud_table :=
  acct.tables.lookup name

/-- The test `table.exists()`. -/
def table_exists (t : cloud_table) : Bool := t.isSome

/-- The entity stored under a key, if any. -/
def find_entity (t : cloud_table) (pk rk : String) : Option table_entity :=
  (t.getD []).find? (fun e => e.partition_key == pk && e.row_key == rk)

/-- The result of executing a table operation. -/
structure table_result where
  http_status_code : status_code
  entity : table_entity
deriving DecidableEq, Repr

/-- The call `table.execute(table_operation::retrieve_entity(pk, rk))`. -/
def retrieve_entity (t : cloud_table) (pk rk : String) : table_result :=
  match find_entity t pk rk with
  | some e => ⟨status_codes.OK, e⟩
  | none => ⟨status_codes.NotFound, ⟨"", "", []⟩⟩

/-- The interval `utility::datetime::from_days(d)`, in ticks of 100 ns. -/
def datetime_from_days (d : Nat) : Nat := d * 24 * 60 * 60 * 10000000

/-- What a handler asked of the storage collaborator. -/
inductive storage_op where
  | retrieve (table pk rk : String) : storage_op
  | get_sas (table : String) (sas : shared_access_signature) : storage_op
deriving DecidableEq, Repr

/-- True for a request to mint a token. -/
def storage_op.is_get_sas : storage_op → Bool
  | .get_sas _ _ => true
  | _ => false

/-- True for a read of an entity. -/
def storage_op.is_retrieve : storage_op → Bool
  | .retrieve _ _ _ => true
  | _ => false

/-! ## AuthServer.cpp -/

namespace AuthServer

def auth_table_name : String := "AuthTable"
def auth_table_userid_partition : String := "Userid"
def auth_table_password_prop : String := "Password"
def auth_table_partition_prop : String := "DataPartition"
def auth_table_row_prop : String := "DataRow"
def data_table_name : String := "DataTable"
def get_read_token_op : String := "GetReadToken"
def get_update_token_op : String := "GetUpdateToken"
def get_update_data : String := "GetUpdateData"

/-- All values are strings in this embedding, so the conversion keeps each pair. -/
def get_string_properties (properties : List (String × String)) : prop_str_vals_t :=
  properties.map (fun v => (v.1, v.2))

/-- The loop `for (char c : s) if (c > 127 || c < 0) ...`: some byte of `s` is
outside `0..127`. -/
def has_non_ascii7 (s : String) : Bool :=
  s.data.any (fun c => decide (127 < c.toNat))

/-- The signature `do_get_token` asks the collaborator for. -/
def token_request (acct : storage_account) (partition row : String) (permissions : Nat) :
    shared_access_signature :=
  ⟨acct.utc_now + datetime_from_days 1, permissions, partition, row, partition, row⟩

/-- Ask for a token for 24 hours of access to the single entity
`(partition, row)`; a `storage_exception` is caught and gives `InternalError`. -/
def do_get_token (acct : storage_account) (partition row : String) (permissions : Nat) :
    status_code × String :=
  match acct.sas_sign (token_request acct partition row permissions) with
  | some limited_access_token => (status_codes.OK, limited_access_token)
  | none => (status_codes.InternalError, "")

/-- The loop `for (value : values) if (value.first == key) x = value.second`
started from `x = " "`. -/
def scan_property (values : prop_str_vals_t) (key : String) : String :=
  values.foldl (fun x v => if v.1 == key then v.2 else x) " "

/-- Top-level routine for GET requests of the Token Issuer.  Returns the reply and
the operations performed on the storage collaborator, in order. -/
def handle_get (acct : storage_account) (message : http_request) :
    http_response × List storage_op :=
  let paths := message.paths
  let auth_table := lookup_table acct auth_table_name
  if !table_exists auth_table then (⟨status_codes.NotFound, value.null⟩, [])
  else
  let data_table := lookup_table acct data_table_name
  if !table_exists data_table then (⟨status_codes.NotFound, value.null⟩, [])
  else
  let properties := get_json_body message
  if paths.length != 2 then (⟨status_codes.BadRequest, value.null⟩, [])
  else if properties.length != 1 then (⟨status_codes.BadRequest, value.null⟩, [])
  else if map_index properties auth_table_password_prop == "" then
    (⟨status_codes.BadRequest, value.null⟩, [])
  else if has_non_ascii7 (map_index properties auth_table_password_prop) then
    (⟨status_codes.BadRequest, value.null⟩, [])
  else
  let password := map_index properties auth_table_password_prop
  -- paths has exactly two segments here
  let userid := paths.getD 1 ""
  let retrieve_result := retrieve_entity auth_table auth_table_userid_partition userid
  let log := [storage_op.retrieve auth_table_name auth_table_userid_partition userid]
  if retrieve_result.http_status_code == status_codes.NotFound then
    (⟨status_codes.NotFound, value.null⟩, log)
  else
  let values := get_string_properties retrieve_result.entity.properties
  if values.length == 3 then
    if values.any (fun v => v.1 == auth_table_password_prop && v.2 != password) then
      (⟨status_codes.NotFound, value.null⟩, log)
    else
    let partition := scan_property values auth_table_partition_prop
    let row := scan_property values auth_table_row_prop
    let op := paths.getD 0 ""
    if op == get_update_token_op then
      let permissions := permissions_read ||| permissions_update
      let result := do_get_token acct partition row permissions
      (⟨result.1, value.object [("token", result.2)]⟩,
        log ++ [storage_op.get_sas data_table_name (token_request acct partition row permissions)])
    else if op == get_read_token_op then
      let permissions := permissions_read
      let result := do_get_token acct partition row permissions
      (⟨result.1, value.object [("token", result.2)]⟩,
        log ++ [storage_op.get_sas data_table_name (token_request acct partition row permissions)])
    else if op == get_update_data then
      let permissions := permissions_read ||| permissions_update
      let result := do_get_token acct partition row permissions
      (⟨result.1, value.object [("token", result.2), (auth_table_partition_prop, partition),
          (auth_table_row_prop, row)]⟩,
        log ++ [storage_op.get_sas data_table_name (token_request acct partition row permissions)])
    else (⟨status_codes.BadRequest, value.null⟩, log)
  else (⟨status_codes.NotFound, value.null⟩, log)

end AuthServer

/-! ## Outcomes of a handler and table updates -/

/-- How a handler invocation ends: with a reply, with an exception leaving the
handler (`raised`), or in undefined behaviour because `paths[i]` was read beyond
the end of the vector (`out_of_range`). -/
inductive outcome where
  | replied (response : http_response) : outcome
  | raised : outcome
  | out_of_range : outcome
deriving DecidableEq, Repr

/-- The reply status of an outcome, if there is a reply. -/
def outcome.status : outcome → Option status_code
  | .replied r => some r.status
  | _ => none

/-- Replace (or add) the table stored under a name. -/
def set_table (acct : storage_account) (name : String) (t : List table_entity) :
    storage_account :=
  ⟨map_assign acct.tables name t, acct.utc_now, acct.sas_sign, acct.sas_decode⟩

/-- Merge semantics on properties: named properties are overwritten, the others
are kept. -/
def merge_properties (old new : List (String × String)) : List (String × String) :=
  new.foldl (fun acc v => map_assign acc v.1 v.2) old

/-- The operation `table_operation::insert_or_merge_entity(entity)`. -/
def insert_or_merge_entity (t : List table_entity) (e : table_entity) : List table_entity :=
  if t.any (fun x => x.partition_key == e.partition_key && x.row_key == e.row_key) then
    t.map (fun x =>
      if x.partition_key == e.partition_key && x.row_key == e.row_key
      then ⟨x.partition_key, x.row_key, merge_properties x.properties e.properties⟩ else x)
  else t ++ [e]

/-- The strict lexicographic order on sequences of characters. -/
def chars_lt : List Char → List Char → Bool
  | [], [] => false
  | [], _ :: _ => true
  | _ :: _, [] => false
  | a :: as, b :: bs => decide (a < b) || (a == b && chars_lt as bs)

/-- The strict order on strings, comparing the characters in turn. -/
def str_lt (a b : String) : Bool := chars_lt a.data b.data

/-- Order on keys used for the range of a shared access signature: partition
keys first, row keys next. -/
def key_le (a b : String × String) : Bool :=
  str_lt a.1 b.1 || (a.1 == b.1 && !str_lt b.2 a.2)

/-- Modelled from the spec: the storage collaborator's answer to "is this token
valid for this coordinate and this operation" (the check itself is made by the
storage service, which is not part of the repository).  The token must carry a
policy, not be expired, grant the permission asked for and cover the coordinate. -/
def token_authorizes (acct : storage_account) (token : String) (permission : Nat)
    (pk rk : String) : Bool :=
  match acct.sas_decode token with
  | none => false
  | some sas =>
    decide (acct.utc_now < sas.expiry) &&
    (sas.permissions &&& permission == permission) &&
    key_le (sas.start_partition_key, sas.start_row_key) (pk, rk) &&
    key_le (pk, rk) (sas.end_partition_key, sas.end_row_key)

/-! ## BasicServer.cpp -/

namespace BasicServer

def create_table : String := "CreateTableAdmin"
def delete_table : String := "DeleteTableAdmin"
def update_entity : String := "UpdateEntityAdmin"
def delete_entity : String := "DeleteEntityAdmin"
def update_property : String := "UpdatePropertyAdmin"
def add_property : String := "AddPropertyAdmin"
def read_entity : String := "ReadEntityAdmin"
def update_entity_auth : String := "UpdateEntityAuth"
def read_entity_auth : String := "ReadEntityAuth"

/-- All values are strings in this embedding: the properties are appended to the
given vector unchanged. -/
def get_properties (properties : List (String × String))
    (values : List (String × String)) : List (String × String) :=
  values ++ properties.map (fun v => (v.1, v.2))

/-- Modelled from the spec: `read_with_token` of ServerUtils (missing from the
sources).  The operation is attempted with the token as credential: fewer than
five path components give BadRequest, an authorization failure (wrong coordinate,
insufficient permission, expired or unknown token) gives Forbidden, a coordinate
that does not exist gives NotFound, otherwise OK with the entity. -/
def read_with_token (acct : storage_account) (message : http_request) :
    status_code × table_entity :=
  match message.paths with
  | _ :: tname :: token :: pk :: rk :: _ =>
    if !token_authorizes acct token permissions_read pk rk then
      (status_codes.Forbidden, ⟨"", "", []⟩)
    else
      match find_entity (lookup_table acct tname) pk rk with
      | some e => (status_codes.OK, e)
      | none => (status_codes.NotFound, ⟨"", "", []⟩)
  | _ => (status_codes.BadRequest, ⟨"", "", []⟩)

/-- Modelled from the spec: `update_with_token` of ServerUtils (missing from the
sources).  Same checks as the read, with the update permission; on success the
supplied properties are merged into the existing entity.  The result is the
status code and the table contents afterwards; `Except.error c` stands for a
`storage_exception` whose result carries the status `c`. -/
def update_with_token (acct : storage_account) (message : http_request)
    (props : List (String × String)) : Except status_code status_code × storage_account :=
  match message.paths with
  | _ :: tname :: token :: pk :: rk :: _ =>
    if !token_authorizes acct token permissions_update pk rk then
      (.ok status_codes.Forbidden, acct)
    else
      match find_entity (lookup_table acct tname) pk rk with
      | some _ =>
        (.ok status_codes.OK,
          set_table acct tname
            (insert_or_merge_entity ((lookup_table acct tname).getD []) ⟨pk, rk, props⟩))
      | none => (.ok status_codes.NotFound, acct)
  | _ => (.ok status_codes.BadRequest, acct)

/-- One entity of a query result as the server renders it: Partition, Row and all
its properties. -/
def entity_keys (e : table_entity) : List (String × String) :=
  get_properties e.properties [("Partition", e.partition_key), ("Row", e.row_key)]

/-- The loop over the requested property names of the "all specified properties"
query: `contains_property` after the loop, starting from its previous value. -/
def contains_all (v : List String) (keys : List (String × String)) (contains_property : Bool) :
    Bool :=
  match v with
  | [] => contains_property
  | vi :: rest =>
    if keys.any (fun k => k.1 == vi) then contains_all rest keys true else false

/-- The loop over the table of the "all specified properties" query: the rendered
entities pushed to `key_vec`, threading `contains_property` between entities. -/
def collect_containing (v : List String) :
    List table_entity → Bool → List (List (String × String))
  | [], _ => []
  | e :: rest, contains_property =>
    let c := contains_all v (entity_keys e) contains_property
    if c then entity_keys e :: collect_containing v rest c
    else collect_containing v rest c

/-- Top-level routine for GET requests of the Data Gateway. -/
def handle_get (acct : storage_account) (message : http_request) : outcome :=
  let paths := message.paths
  if paths.length < 2 then .replied ⟨status_codes.BadRequest, value.null⟩
  else
  -- at least two segments: paths[0] and paths[1] are in range
  let op := paths.getD 0 ""
  let table := lookup_table acct (paths.getD 1 "")
  if !table_exists table then .replied ⟨status_codes.NotFound, value.null⟩
  else
  if op == read_entity_auth then
    let read_entity := read_with_token acct message
    if paths.length < 5 then .replied ⟨status_codes.BadRequest, value.null⟩
    else if read_entity.1 != status_codes.OK then .replied ⟨read_entity.1, value.null⟩
    else
      let values := get_properties read_entity.2.properties []
      if values.length > 0 then .replied ⟨status_codes.OK, value.object values⟩
      else .replied ⟨status_codes.OK, value.null⟩
  else if paths.length == 4 && paths.getD 3 "" == "*" then
    .replied ⟨status_codes.OK,
      value.array (((table.getD []).filter (fun e => e.partition_key == paths.getD 2 "")).map
        entity_keys)⟩
  else
  let properties1 := get_json_body message
  if properties1.length > 0 && paths.length == 2 then
    let v := (properties1.filter (fun p => p.2 == "*")).map Prod.fst
    .replied ⟨status_codes.OK, value.array (collect_containing v (table.getD []) false)⟩
  else if paths.length == 2 && op == read_entity then
    .replied ⟨status_codes.OK, value.array ((table.getD []).map entity_keys)⟩
  else if paths.length != 4 && op != read_entity then
    .replied ⟨status_codes.BadRequest, value.null⟩
  else
  match paths[2]?, paths[3]? with
  | some pk, some rk =>
    let retrieve_result := retrieve_entity table pk rk
    if retrieve_result.http_status_code == status_codes.NotFound then
      .replied ⟨status_codes.NotFound, value.null⟩
    else
      let values := get_properties retrieve_result.entity.properties []
      if values.length > 0 then .replied ⟨status_codes.OK, value.object values⟩
      else .replied ⟨status_codes.OK, value.null⟩
  | _, _ => .out_of_range

/-- The order in which a loop visits the entries of an `unordered_map`.  The
language leaves it unspecified; the order taken here is that of the GNU library
for a map of a few strings, the most recent insertion first. -/
def map_iteration {β : Type} (m : List (String × β)) : List (String × β) := m.reverse

/-- The loop of AddPropertyAdmin: `property_name`, `property_value` after
`for (auto& x : json_body)`, starting from empty strings: the entry visited
last. -/
def last_member (json_body : List (String × String)) : String × String :=
  (map_iteration json_body).foldl (fun _ x => (x.1, x.2)) ("", "")

/-- The loop of UpdatePropertyAdmin, from `json_body.begin()`: the first entry
visited whose name is not empty. -/
def first_named_member (json_body : List (String × String)) : String × String :=
  ((map_iteration json_body).find? (fun x => x.1 != "")).getD ("", "")

/-- Top-level routine for PUT requests of the Data Gateway.  Returns the outcome
(the first reply sent) and the storage account afterwards. -/
def handle_put (acct : storage_account) (message : http_request) : outcome × storage_account :=
  let paths := message.paths
  let json_body := get_json_body message
  match paths[1]? with
  | none => (.out_of_range, acct)
  | some table_name =>
  let table := lookup_table acct table_name
  if !table_exists table then (.replied ⟨status_codes.NotFound, value.null⟩, acct)
  else
  if paths.length < 2 then (.replied ⟨status_codes.BadRequest, value.null⟩, acct)
  else
  let op := paths.getD 0 ""
  if op == update_entity_auth then
    if paths.length < 5 then (.replied ⟨status_codes.BadRequest, value.null⟩, acct)
    else
      match update_with_token acct message json_body with
      | (.ok result, acct1) => (.replied ⟨result, value.null⟩, acct1)
      | (.error c, acct1) =>
        -- the catch block replies and the handler runs on; with five segments
        -- and this operation name no later branch changes the table, and the
        -- later reply comes after this one
        if c == status_codes.Forbidden then (.replied ⟨status_codes.Forbidden, value.null⟩, acct1)
        else (.replied ⟨status_codes.InternalError, value.null⟩, acct1)
  else if paths.length == 2 && op == add_property then
    if json_body.length > 0 then
      let property := last_member json_body
      (.replied ⟨status_codes.OK, value.null⟩,
        set_table acct table_name
          ((table.getD []).map (fun e =>
            ⟨e.partition_key, e.row_key, map_assign e.properties property.1 property.2⟩)))
    else (.replied ⟨status_codes.BadRequest, value.null⟩, acct)
  else if paths.length == 2 && op == update_property then
    if op == update_property && json_body.length > 0 then
      let property := first_named_member json_body
      (.replied ⟨status_codes.OK, value.null⟩,
        set_table acct table_name
          ((table.getD []).map (fun e =>
            if e.properties.any (fun p => p.1 == property.1)
            then ⟨e.partition_key, e.row_key, map_assign e.properties property.1 property.2⟩
            else e)))
    else (.replied ⟨status_codes.BadRequest, value.null⟩, acct)
  else if paths.length < 4 then (.replied ⟨status_codes.BadRequest, value.null⟩, acct)
  else
  -- at least four segments: paths[2] and paths[3] are in range
  let entity : table_entity := ⟨paths.getD 2 "", paths.getD 3 "", []⟩
  if op == update_entity then
    let entity1 : table_entity :=
      ⟨entity.partition_key, entity.row_key, merge_properties entity.properties json_body⟩
    (.replied ⟨status_codes.OK, value.null⟩,
      set_table acct table_name (insert_or_merge_entity (table.getD []) entity1))
  else (.replied ⟨status_codes.BadRequest, value.null⟩, acct)

end BasicServer

/-! ## Requests sent to other services -/

/-- The HTTP methods (`web::http::methods`). -/
inductive method where
  | GET : method
  | POST : method
  | PUT : method
  | DEL : method
deriving DecidableEq, Repr

/-- A call of the client routine `do_request`. -/
structure request_sent where
  http_method : method
  uri_string : String
  req_body : value
deriving DecidableEq, Repr

/-- The exceptions a call of `do_request` may raise. -/
inductive request_exception where
  | uri_exception : request_exception
  | http_exception : request_exception
deriving DecidableEq, Repr

/-- The client routine `do_request` over a world of type `σ`: the status code and
JSON body of the response, or the exception raised, and the world afterwards. -/
abbrev do_request_t (σ : Type) :=
  method → String → value → σ → Except request_exception (status_code × value) × σ

/-- The other services seen from outside: what they answer to a call, given the
calls made before it. -/
abbrev responder := List request_sent → request_sent →
  Except request_exception (status_code × value)

/-- The routine `do_request` against a responder, recording every call. -/
def do_request_logged (respond : responder) : do_request_t (List request_sent) :=
  fun m uri body log => (respond log ⟨m, uri, body⟩, log ++ [⟨m, uri, body⟩])

/-- Modelled from the spec: `build_json_value` of ClientUtils (missing from the
sources), a JSON object with the single member given. -/
def build_json_value (name val : String) : value := value.object [(name, val)]

/-- Modelled from the spec: `unpack_json_object` of ClientUtils (missing from the
sources), the members of a JSON object as a map of strings. -/
def unpack_json_object : value → List (String × String)
  | .object fields => fields.foldl (fun results v => map_assign results v.1 v.2) []
  | _ => []

/-- Split a sequence of characters at every occurrence of a separator. -/
def split_on (sep : Char) : List Char → List (List Char)
  | [] => [[]]
  | c :: cs =>
    if c = sep then [] :: split_on sep cs
    else
      match split_on sep cs with
      | [] => [[c]]
      | w :: ws => (c :: w) :: ws

/-- Modelled from the spec: `parse_friends_list` of ServerUtils (missing from the
sources).  The empty string denotes no entry; otherwise entries are separated by
a bar and the two fields of an entry by the first semicolon. -/
def parse_friends_list (friends_list : String) : List (String × String) :=
  if friends_list == "" then []
  else (split_on '|' friends_list.data).map (fun f =>
    (String.mk (f.takeWhile (fun c => c != ';')),
     String.mk ((f.dropWhile (fun c => c != ';')).drop 1)))

/-- Modelled from the spec: `friends_list_to_string` of ServerUtils (missing from
the sources): `country;name` entries joined by a bar. -/
def friends_list_to_string (list : List (String × String)) : String :=
  "|".intercalate (list.map (fun p => p.1 ++ ";" ++ p.2))

/-! ## UserServer.cpp -/

namespace UserServer

def basic_url : String := "http://localhost:34568/"
def auth_url : String := "http://localhost:34570/"
def user_url : String := "http://localhost:34572/"
def push_url : String := "http://localhost:34574/"

def update_entity : String := "UpdateEntityAdmin"
def read_entity : String := "ReadEntityAdmin"
def update_entity_auth : String := "UpdateEntityAuth"
def read_entity_auth : String := "ReadEntityAuth"

def auth_table_password_prop : String := "Password"
def auth_table_partition_prop : String := "DataPartition"
def auth_table_row_prop : String := "DataRow"
def data_table_name : String := "DataTable"
def get_update_data : String := "GetUpdateData"

def sign_on : String := "SignOn"
def sign_off : String := "SignOff"
def add_friend : String := "AddFriend"
def unfriend : String := "UnFriend"
def update_status : String := "UpdateStatus"
def read_friend_list : String := "ReadFriendList"

def friends : String := "Friends"
def status : String := "Status"
def updates : String := "Updates"

def push_status : String := "PushStatus"

/-- The global `active_users`: userid to (token, data partition, data row). -/
abbrev session_table := List (String × (String × String × String))

/-- Adds the user to the list of active users (`unordered_map::insert`). -/
def add_user (active_users : session_table) (userid token data_partition data_row : String) :
    session_table :=
  map_insert active_users userid (token, data_partition, data_row)

/-- The tuple of the user, through `active_users.at(userid)`. -/
def get_user (active_users : session_table) (userid : String) :
    Option (String × String × String) :=
  active_users.lookup userid

/-- Removes the user from the list of active users. -/
def remove_user (active_users : session_table) (userid : String) : session_table :=
  map_erase active_users userid

/-- The test of the loop over the characters of the userid: the character is
outside `A-Z` and `a-z`. -/
def not_alphabetical (c : Char) : Bool :=
  !((decide (65 ≤ c.toNat) && decide (c.toNat ≤ 90)) ||
    (decide (97 ≤ c.toNat) && decide (c.toNat ≤ 122)))

/-- What a handler returns: its outcome, the session table and the world of the
other services afterwards. -/
abbrev handled (σ : Type) := outcome × session_table × σ

/-- A reply without a body. -/
def reply (code : status_code) : outcome := .replied ⟨code, value.null⟩

/-- The SignOn block of `handle_post`, entered with `paths[1] = username`.  The
first component is `none` when the block ends without a reply. -/
def sign_on_block {σ : Type} (do_request : do_request_t σ) (message : http_request)
    (username : String) (active_users : session_table) (w : σ) :
    Option outcome × session_table × σ :=
  let orig_properties := get_json_body message
  if orig_properties.length != 1 then (some (reply status_codes.NotFound), active_users, w)
  else if map_index orig_properties auth_table_password_prop == "" then
    (some (reply status_codes.NotFound), active_users, w)
  else if username.data.any not_alphabetical then
    (some (reply status_codes.NotFound), active_users, w)
  else
  let password := map_index orig_properties auth_table_password_prop
  let password_json := build_json_value auth_table_password_prop password
  match do_request method.GET (auth_url ++ get_update_data ++ "/" ++ username) password_json w with
  | (.error _, w1) => (some .raised, active_users, w1)
  | (.ok auth_result, w1) =>
  if auth_result.1 == status_codes.NotFound || auth_result.1 == status_codes.BadRequest then
    (some (reply status_codes.NotFound), active_users, w1)
  else
  let data_properties := unpack_json_object auth_result.2
  let token := map_index data_properties "token"
  let partition := map_index data_properties auth_table_partition_prop
  let row := map_index data_properties auth_table_row_prop
  match do_request method.GET
      (basic_url ++ read_entity ++ "/" ++ data_table_name ++ "/" ++ partition ++ "/" ++ row)
      value.null w1 with
  | (.error _, w2) => (some .raised, active_users, w2)
  | (.ok basic_result, w2) =>
  if basic_result.1 == status_codes.NotFound then
    (some (reply status_codes.NotFound), active_users, w2)
  else
  let active_users1 :=
    if (active_users.lookup username).isNone then add_user active_users username token partition row
    else active_users
  if auth_result.1 == status_codes.OK && basic_result.1 == status_codes.OK then
    (some (reply status_codes.OK), active_users1, w2)
  else (none, active_users1, w2)

/-- Top-level routine for POST requests of the Session Manager. -/
def handle_post {σ : Type} (do_request : do_request_t σ) (message : http_request)
    (active_users : session_table) (w : σ) : handled σ :=
  let paths := message.paths
  if paths.length < 2 then (reply status_codes.BadRequest, active_users, w)
  else
  -- at least two segments: paths[0] and paths[1] are in range
  let op := paths.getD 0 ""
  let username := paths.getD 1 ""
  let after_sign_on :=
    if op == sign_on then sign_on_block do_request message username active_users w
    else (none, active_users, w)
  match after_sign_on with
  | (some out, active_users1, w1) => (out, active_users1, w1)
  | (none, active_users1, w1) =>
    if op == sign_off then
      if (active_users1.lookup username).isNone then
        (reply status_codes.NotFound, active_users1, w1)
      else (reply status_codes.OK, remove_user active_users1 username, w1)
    else (reply status_codes.BadRequest, active_users1, w1)

/-- The authorized read of the caller's entity that every friend-list and status
operation starts with. -/
def read_own_entity {σ : Type} (do_request : do_request_t σ)
    (user_properties : String × String × String) (w : σ) :
    Except request_exception (status_code × value) × σ :=
  do_request method.GET
    (basic_url ++ read_entity_auth ++ "/" ++ data_table_name ++ "/" ++ user_properties.1 ++ "/"
      ++ user_properties.2.1 ++ "/" ++ user_properties.2.2)
    value.null w

/-- Top-level routine for GET requests of the Session Manager. -/
def handle_get {σ : Type} (do_request : do_request_t σ) (message : http_request)
    (active_users : session_table) (w : σ) : handled σ :=
  let paths := message.paths
  match paths[0]? with
  | none => (.out_of_range, active_users, w)
  | some op =>
  if op == read_friend_list then
    match paths[1]? with
    | none => (.out_of_range, active_users, w)
    | some username =>
    match get_user active_users username with
    | none => (reply status_codes.Forbidden, active_users, w)
    | some user_properties =>
    match read_own_entity do_request user_properties w with
    | (.error _, w1) => (.raised, active_users, w1)
    | (.ok signed_on_result, w1) =>
    if signed_on_result.1 == status_codes.BadRequest
        || signed_on_result.1 == status_codes.NotFound then
      (reply status_codes.NotFound, active_users, w1)
    else
    let data_properties := unpack_json_object signed_on_result.2
    let actual_friends := map_index data_properties friends
    if signed_on_result.1 == status_codes.OK then
      (.replied ⟨status_codes.OK, build_json_value friends actual_friends⟩, active_users, w1)
    else (reply status_codes.BadRequest, active_users, w1)
  else (reply status_codes.BadRequest, active_users, w)

/-- The loop of UnFriend: erase the first entry equal to the pair; `none` when no
entry is equal to it. -/
def erase_first_match (friend_country friend_name : String) :
    List (String × String) → Option (List (String × String))
  | [] => none
  | f :: rest =>
    if f.1 == friend_country && f.2 == friend_name then some rest
    else (erase_first_match friend_country friend_name rest).map (fun r => f :: r)

/-- The write of one property of the caller's entity through the Data Gateway. -/
def write_own_property {σ : Type} (do_request : do_request_t σ)
    (user_properties : String × String × String) (body : value) (w : σ) :
    Except request_exception (status_code × value) × σ :=
  do_request method.PUT
    (basic_url ++ update_entity ++ "/" ++ data_table_name ++ "/" ++ user_properties.2.1 ++ "/"
      ++ user_properties.2.2)
    body w

/-- The AddFriend block of `handle_put` once the three operands are read. -/
def add_friend_block {σ : Type} (do_request : do_request_t σ)
    (user_name friend_country friend_name : String)
    (active_users : session_table) (w : σ) : handled σ :=
  match get_user active_users user_name with
  | none => (reply status_codes.Forbidden, active_users, w)
  | some user_properties =>
  match read_own_entity do_request user_properties w with
  | (.error _, w1) => (.raised, active_users, w1)
  | (.ok signed_on_result, w1) =>
  if signed_on_result.1 == status_codes.BadRequest
      || signed_on_result.1 == status_codes.NotFound then
    (reply status_codes.NotFound, active_users, w1)
  else
  let data_properties := unpack_json_object signed_on_result.2
  let friend_list := map_index data_properties friends
  let friend_vector := parse_friends_list friend_list
  if friend_vector.any (fun f => f.1 == friend_country && f.2 == friend_name) then
    (reply status_codes.OK, active_users, w1)
  else
  let friend_vector1 := friend_vector ++ [(friend_country, friend_name)]
  let updates_friend := build_json_value friends (friends_list_to_string friend_vector1)
  match write_own_property do_request user_properties updates_friend w1 with
  | (.error _, w2) => (.raised, active_users, w2)
  | (.ok friend_result, w2) =>
  if friend_result.1 == status_codes.OK then (reply status_codes.OK, active_users, w2)
  -- the block ends without a reply; no later block matches this operation name
  else (reply status_codes.BadRequest, active_users, w2)

/-- The UnFriend block of `handle_put` once the three operands are read. -/
def unfriend_block {σ : Type} (do_request : do_request_t σ)
    (user_name friend_country friend_name : String)
    (active_users : session_table) (w : σ) : handled σ :=
  match get_user active_users user_name with
  | none => (reply status_codes.Forbidden, active_users, w)
  | some user_properties =>
  match read_own_entity do_request user_properties w with
  | (.error _, w1) => (.raised, active_users, w1)
  | (.ok signed_on_result, w1) =>
  if signed_on_result.1 == status_codes.BadRequest
      || signed_on_result.1 == status_codes.NotFound then
    (reply status_codes.NotFound, active_users, w1)
  else
  let data_properties := unpack_json_object signed_on_result.2
  let friend_list := map_index data_properties friends
  let friend_vector := parse_friends_list friend_list
  match erase_first_match friend_country friend_name friend_vector with
  | none => (reply status_codes.OK, active_users, w1)
  | some friend_vector1 =>
  let updates_friend := build_json_value friends (friends_list_to_string friend_vector1)
  match write_own_property do_request user_properties updates_friend w1 with
  | (.error _, w2) => (.raised, active_users, w2)
  | (.ok friend_result, w2) =>
  if friend_result.1 == status_codes.OK then (reply status_codes.OK, active_users, w2)
  -- the block ends without a reply; no later block matches this operation name
  else (reply status_codes.BadRequest, active_users, w2)

/-- The UpdateStatus block of `handle_put` once the two operands are read. -/
def update_status_block {σ : Type} (do_request : do_request_t σ)
    (user_name status_up : String) (active_users : session_table) (w : σ) : handled σ :=
  match get_user active_users user_name with
  | none => (reply status_codes.Forbidden, active_users, w)
  | some user_properties =>
  match read_own_entity do_request user_properties w with
  | (.error _, w1) => (.raised, active_users, w1)
  | (.ok signed_on_result, w1) =>
  if signed_on_result.1 == status_codes.BadRequest
      || signed_on_result.1 == status_codes.NotFound then
    (reply status_codes.NotFound, active_users, w1)
  else
  let data_properties := unpack_json_object signed_on_result.2
  let update_stat := build_json_value status status_up
  let friends_json := build_json_value friends (map_index data_properties friends)
  let update_string := map_index data_properties updates ++ (status_up ++ "\n")
  let updateString := build_json_value updates update_string
  match write_own_property do_request user_properties updateString w1 with
  | (.error _, w2) => (.raised, active_users, w2)
  | (.ok _, w2) =>
  match write_own_property do_request user_properties update_stat w2 with
  | (.error _, w3) => (.raised, active_users, w3)
  | (.ok update_stat_res, w3) =>
  match do_request method.POST
      (push_url ++ push_status ++ "/" ++ user_properties.2.1 ++ "/" ++ user_properties.2.2
        ++ "/" ++ status_up)
      friends_json w3 with
  | (.error .uri_exception, w4) => (reply status_codes.ServiceUnavailable, active_users, w4)
  | (.error .http_exception, w4) => (.raised, active_users, w4)
  | (.ok push_up_stat_res, w4) =>
  if update_stat_res.1 == status_codes.OK && push_up_stat_res.1 == status_codes.OK then
    (reply status_codes.OK, active_users, w4)
  else (reply status_codes.BadRequest, active_users, w4)

/-- Top-level routine for PUT requests of the Session Manager. -/
def handle_put {σ : Type} (do_request : do_request_t σ) (message : http_request)
    (active_users : session_table) (w : σ) : handled σ :=
  let paths := message.paths
  match paths[0]? with
  | none => (.out_of_range, active_users, w)
  | some op =>
  if op == add_friend then
    match paths[1]?, paths[2]?, paths[3]? with
    | some user_name, some friend_country, some friend_name =>
      add_friend_block do_request user_name friend_country friend_name active_users w
    | _, _, _ => (.out_of_range, active_users, w)
  else if op == unfriend then
    match paths[1]?, paths[2]?, paths[3]? with
    | some user_name, some friend_country, some friend_name =>
      unfriend_block do_request user_name friend_country friend_name active_users w
    | _, _, _ => (.out_of_range, active_users, w)
  else if op == update_status then
    match paths[1]?, paths[2]? with
    | some user_name, some status_up =>
      update_status_block do_request user_name status_up active_users w
    | _, _ => (.out_of_range, active_users, w)
  else (reply status_codes.BadRequest, active_users, w)

end UserServer

/-! ## The Session Manager wired to the Token Issuer -/

/-- The path of a URI relative to the base address of a listener: the characters
after the base, or `none` when the URI does not start with the base. -/
def drop_base : List Char → List Char → Option (List Char)
  | [], uri => some uri
  | _ :: _, [] => none
  | b :: base, c :: uri => if b = c then drop_base base uri else none

/-- The function `uri::split_path`: the non-empty segments between slashes. -/
def split_path (path : List Char) : List String :=
  ((split_on '/' path).filter (fun seg => !seg.isEmpty)).map String.mk

/-- The members of a JSON body sent with a request. -/
def json_members : value → List (String × String)
  | .object fields => fields
  | _ => []

/-- The routine `do_request` of the Session Manager when the Token Issuer is the
AuthServer over the storage account `acct` (it listens for GET only; any other
method is answered 405) and every other service is given by a responder. -/
def do_request_with_issuer (acct : storage_account) (others : responder) :
    do_request_t (List request_sent) :=
  fun m uri body log =>
    match drop_base UserServer.auth_url.data uri.data with
    | some path =>
      if m = method.GET then
        let response := (AuthServer.handle_get acct ⟨split_path path, json_members body⟩).1
        (.ok (response.status, response.body), log ++ [⟨m, uri, body⟩])
      else (.ok (405, value.null), log ++ [⟨m, uri, body⟩])
    | none => (others log ⟨m, uri, body⟩, log ++ [⟨m, uri, body⟩])

/-! ## Requests of the Session Manager and a store for the friend list -/

namespace UserServer

/-- The request `read_own_entity` sends for a session. -/
def read_request (user_properties : String × String × String) : request_sent :=
  ⟨method.GET,
   basic_url ++ read_entity_auth ++ "/" ++ data_table_name ++ "/" ++ user_properties.1 ++ "/"
     ++ user_properties.2.1 ++ "/" ++ user_properties.2.2,
   value.null⟩

/-- The request `write_own_property` sends for a session and a body. -/
def write_request (user_properties : String × String × String) (body : value) : request_sent :=
  ⟨method.PUT,
   basic_url ++ update_entity ++ "/" ++ data_table_name ++ "/" ++ user_properties.2.1 ++ "/"
     ++ user_properties.2.2,
   body⟩

/-- The request UpdateStatus sends to the Fanout Dispatcher. -/
def push_request (user_properties : String × String × String) (status_up : String)
    (friends_json : value) : request_sent :=
  ⟨method.POST,
   push_url ++ push_status ++ "/" ++ user_properties.2.1 ++ "/" ++ user_properties.2.2
     ++ "/" ++ status_up,
   friends_json⟩

/-- A Data Gateway reduced to the stored Friends value of the caller, with reads
and writes that succeed: a GET answers OK with that value, a PUT that names
Friends replaces it and answers OK. -/
def do_request_friends_store : do_request_t String :=
  fun m _ body stored =>
    match m with
    | .GET => (.ok (status_codes.OK, value.object [(friends, stored)]), stored)
    | .PUT => (.ok (status_codes.OK, value.null), ((json_members body).lookup friends).getD stored)
    | _ => (.ok (status_codes.BadRequest, value.null), stored)

end UserServer

/-- One entry of the friend list as characters: country, semicolon, name. -/
def friend_entry (p : String × String) : List Char := p.1.data ++ ';' :: p.2.data

/-- The characters of the encoding of a friend list: entries joined by bars. -/
def encode_chars : List (String × String) → List Char
  | [] => []
  | [p] => friend_entry p
  | p :: q :: rest => friend_entry p ++ '|' :: encode_chars (q :: rest)

/-- A pair the encoding can carry: no bar in either field and no semicolon in the
country. -/
def separator_free (p : String × String) : Prop :=
  '|' ∉ p.1.data ∧ ';' ∉ p.1.data ∧ '|' ∉ p.2.data

instance (p : String × String) : Decidable (separator_free p) := by
  unfold separator_free
  infer_instance

/-! ## PushServer.cpp -/

namespace PushServer

def basic_url : String := "http://localhost:34568/"
def update_entity : String := "UpdateEntityAdmin"
def read_entity : String := "ReadEntityAdmin"
def data_table_name : String := "DataTable"
def friends : String := "Friends"
def updates : String := "Updates"
def push_status : String := "PushStatus"

/-- The loop over the friends of `handle_post`: for each friend the Updates
property is read, the status and a newline are appended, and the result is
written back; `final_result` counts the friends processed.  The first component
is `none` when a call of `do_request` raises. -/
def push_loop {σ : Type} (do_request : do_request_t σ) (status : String) :
    List (String × String) → Nat → σ → Option Nat × σ
  | [], final_result, w => (some final_result, w)
  | f :: rest, final_result, w =>
    match do_request method.GET
        (basic_url ++ read_entity ++ "/" ++ data_table_name ++ "/" ++ f.1 ++ "/" ++ f.2)
        value.null w with
    | (.error _, w1) => (none, w1)
    | (.ok access_result, w1) =>
      let user_properties := unpack_json_object access_result.2
      let initial_update := map_index user_properties updates
      let new_update := initial_update ++ status ++ "\n"
      let updates_json := build_json_value updates new_update
      match do_request method.PUT
          (basic_url ++ update_entity ++ "/" ++ data_table_name ++ "/" ++ f.1 ++ "/" ++ f.2)
          updates_json w1 with
      | (.error _, w2) => (none, w2)
      | (.ok _, w2) => push_loop do_request status rest (final_result + 1) w2

/-- Top-level routine for POST requests of the Fanout Dispatcher. -/
def handle_post {σ : Type} (do_request : do_request_t σ) (message : http_request) (w : σ) :
    outcome × σ :=
  let paths := message.paths
  if paths.length < 4 then (.replied ⟨status_codes.BadRequest, value.null⟩, w)
  else
  -- at least four segments: paths[0] to paths[3] are in range
  let op := paths.getD 0 ""
  if op == push_status then
    let status := paths.getD 3 ""
    let properties := get_json_body message
    let actual_friends := parse_friends_list (map_index properties friends)
    match push_loop do_request status actual_friends 0 w with
    | (none, w1) => (.raised, w1)
    | (some final_result, w1) =>
      if final_result == actual_friends.length then
        (.replied ⟨status_codes.OK, value.null⟩, w1)
      else (.replied ⟨status_codes.BadRequest, value.null⟩, w1)
  else (.replied ⟨status_codes.BadRequest, value.null⟩, w)

end PushServer

/-! ## The Fanout Dispatcher wired to the Data Gateway -/

/-- The routine `do_request` when the Data Gateway is the BasicServer over a
storage account, for the two methods the Fanout Dispatcher uses.  A handler that
ends without a reply, a URI outside the gateway and the other methods are seen by
the caller as a raised exception. -/
def do_request_gateway : do_request_t storage_account :=
  fun m uri body acct =>
    match drop_base PushServer.basic_url.data uri.data with
    | none => (.error .http_exception, acct)
    | some path =>
      match m with
      | .GET =>
        match BasicServer.handle_get acct ⟨split_path path, json_members body⟩ with
        | .replied r => (.ok (r.status, r.body), acct)
        | _ => (.error .http_exception, acct)
      | .PUT =>
        match BasicServer.handle_put acct ⟨split_path path, json_members body⟩ with
        | (.replied r, acct1) => (.ok (r.status, r.body), acct1)
        | (_, acct1) => (.error .http_exception, acct1)
      | _ => (.error .http_exception, acct)

/-- A character that stands for itself in the path of a URI: a letter or a digit
of ASCII, or one of the marks listed.  The slash, the question mark, the hash,
the percent sign and the blank are not among them. -/
def uri_char (c : Char) : Bool := c.isAlphanum || "-._~!$&()*+,;=:@".data.contains c

/-- A string that stands as one path segment: not empty and made of characters
that stand for themselves. -/
def routable (seg : String) : Prop := seg ≠ "" ∧ ∀ c ∈ seg.data, uri_char c = true

instance (seg : String) : Decidable (routable seg) := by
  unfold routable
  infer_instance

/-- A friend whose coordinate stands as two path segments, the row not being the
wildcard of the partition query. -/
def routable_friend (f : String × String) : Prop :=
  routable f.1 ∧ routable f.2 ∧ f.2 ≠ "*"

instance (f : String × String) : Decidable (routable_friend f) := by
  unfold routable_friend
  infer_instance

/-- The status followed by a newline, a number of times. -/
def repeat_status (s : String) : Nat → String
  | 0 => ""
  | k + 1 => (s ++ "\n") ++ repeat_status s k

/-- The Updates value the Data Gateway returns for a coordinate: that of the
entity stored there, or the empty string. -/
def stored_updates (tbl : List table_entity) (pk rk : String) : String :=
  match find_entity (some tbl) pk rk with
  | some e => map_index (unpack_json_object (value.object e.properties)) PushServer.updates
  | none => ""

/-- The table after the status was pushed to one friend. -/
def pushed_one (s : String) (tbl : List table_entity) (f : String × String) :
    List table_entity :=
  insert_or_merge_entity tbl
    ⟨f.1, f.2, [(PushServer.updates, stored_updates tbl f.1 f.2 ++ s ++ "\n")]⟩

/-- The table after the status was pushed to the friends in turn. -/
def pushed_table (s : String) : List (String × String) → List table_entity → List table_entity
  | [], tbl => tbl
  | f :: rest, tbl => pushed_table s rest (pushed_one s tbl f)

/-! ## Sample data -/

namespace AuthServer

/-- A storage account with three credential records: a regular one for `amy`, one
for `bob` with three properties none of which is a password, and one for `cat`
with two properties only. -/
def sample_account : storage_account :=
  ⟨[("AuthTable",
      [⟨"Userid", "amy", [("Password", "pw"), ("DataPartition", "US"), ("DataRow", "Amy,A")]⟩,
       ⟨"Userid", "bob", [("A", "1"), ("B", "2"), ("C", "3")]⟩,
       ⟨"Userid", "cat", [("Password", "pw"), ("DataRow", "Cat,C")]⟩]),
    ("DataTable", [⟨"US", "Amy,A", [("Friends", ""), ("Status", ""), ("Updates", "")]⟩])],
   1000, fun _ => some "tok", fun _ => none⟩

/-- A token request for a user with a one-property body. -/
def sample_request (op userid password : String) : http_request :=
  ⟨[op, userid], [("Password", password)]⟩

end AuthServer

namespace UserServer

/-- Other services in which the Token Issuer fails to obtain a signature (it then
answers InternalError with an empty token and the coordinate of the record) and
the Data Gateway finds the entity. -/
def issuer_fails : responder :=
  fun _ req =>
    if req.uri_string = "http://localhost:34570/GetUpdateData/alice" then
      .ok (status_codes.InternalError,
        value.object [("token", ""), ("DataPartition", "US"), ("DataRow", "Alice,A")])
    else .ok (status_codes.OK, value.object [("Friends", ""), ("Status", ""), ("Updates", "")])

/-- Other services that accept the credentials of `alice` and hold her entity. -/
def all_fine : responder :=
  fun _ req =>
    if req.uri_string = "http://localhost:34570/GetUpdateData/alice" then
      .ok (status_codes.OK,
        value.object [("token", "tok2"), ("DataPartition", "US"), ("DataRow", "Alice,A")])
    else .ok (status_codes.OK, value.object [("Friends", ""), ("Status", ""), ("Updates", "")])

/-- A sign-on request of `alice`. -/
def alice_signs_on : http_request := ⟨["SignOn", "alice"], [("Password", "secret")]⟩

end UserServer

/-- The signature requested when `amy` asks for a read token at time 1000. -/
def amy_read_signature : shared_access_signature :=
  ⟨1000 + datetime_from_days 1, permissions_read, "US", "Amy,A", "US", "Amy,A"⟩

/-- The sample account with a collaborator that signs and recognises exactly the
read signature of `amy`. -/
def signing_account : storage_account :=
  ⟨AuthServer.sample_account.tables, 1000,
   fun sas => if sas = amy_read_signature then some "tokA" else none,
   fun tok => if tok = "tokA" then some amy_read_signature else none⟩

namespace UserServer

/-- The session table in which only `alice` is signed on. -/
def alice_session : session_table := [("alice", ("tok1", "US", "Alice,A"))]

/-- Other services whose every answer is OK with the entity of `alice`, her
friend list being the one given. -/
def gateway_with_friends (stored : String) : responder :=
  fun _ _ => .ok (status_codes.OK,
    value.object [("Friends", stored), ("Status", ""), ("Updates", "")])

/-- Other services that answer every GET with the given status and no body, and
everything else with OK. -/
def read_answers (code : status_code) : responder :=
  fun _ req =>
    if req.http_method = method.GET then .ok (code, value.null)
    else .ok (status_codes.OK, value.null)

/-- Other services that hold the entity of `alice` and answer OK, except that the
write of Updates is answered InternalError. -/
def updates_write_fails : responder :=
  fun _ req =>
    if req.http_method = method.GET then
      .ok (status_codes.OK, value.object [("Friends", "CA;Bob,B"), ("Status", ""), ("Updates", "")])
    else if req.req_body = value.object [("Updates", "hi\n")] then
      .ok (status_codes.InternalError, value.null)
    else .ok (status_codes.OK, value.null)

end UserServer

/-- A storage account whose DataTable holds the entities of Amy, Bob and an
entity at (CA, a). -/
def data_account : storage_account :=
  ⟨[("DataTable",
      [⟨"US", "Amy,A", [("Friends", "CA;Bob,B"), ("Status", ""), ("Updates", "old\n")]⟩,
       ⟨"CA", "Bob,B", [("Friends", ""), ("Status", "")]⟩,
       ⟨"CA", "a", [("Updates", "")]⟩])],
   1000, fun _ => none, fun _ => none⟩

namespace UserServer

/-- Other services in which the Data Gateway holds the entity of `alice` and
answers OK, and the Fanout Dispatcher is not listening: the call raises. -/
def dispatcher_down : responder :=
  fun _ req =>
    if req.http_method = method.GET then
      .ok (status_codes.OK, value.object [("Friends", "CA;Bob,B"), ("Status", ""), ("Updates", "")])
    else if req.http_method = method.POST then .error .http_exception
    else .ok (status_codes.OK, value.null)

/-- The same services, except that the call of the Fanout Dispatcher raises a
`uri_exception`. -/
def dispatcher_bad_uri : responder :=
  fun _ req =>
    if req.http_method = method.GET then
      .ok (status_codes.OK, value.object [("Friends", "CA;Bob,B"), ("Status", ""), ("Updates", "")])
    else if req.http_method = method.POST then .error .uri_exception
    else .ok (status_codes.OK, value.null)

end UserServer

namespace PushServer

/-- A Data Gateway that answers every request with the given status and no
body. -/
def gateway_answers (code : status_code) : responder :=
  fun _ _ => .ok (code, value.null)

end PushServer

/-! ## Theorems -/

namespace AuthServer

/-- What `handle_get` does once the tables exist and the request is well formed:
the credential record is read and decides the rest. -/
theorem handle_get_well_formed (acct : storage_account) (message : http_request)
    (op userid password : String)
    (hauth : table_exists (lookup_table acct auth_table_name) = true)
    (hdata : table_exists (lookup_table acct data_table_name) = true)
    (hpaths : message.paths = [op, userid])
    (hbody : get_json_body message = [(auth_table_password_prop, password)])
    (hne : password ≠ "") (hascii : has_non_ascii7 password = false) :
    handle_get acct message =
      (let retrieve_result :=
          retrieve_entity (lookup_table acct auth_table_name) auth_table_userid_partition userid
       let log := [storage_op.retrieve auth_table_name auth_table_userid_partition userid]
       if retrieve_result.http_status_code == status_codes.NotFound then
         (⟨status_codes.NotFound, value.null⟩, log)
       else
       let values := get_string_properties retrieve_result.entity.properties
       if values.length == 3 then
         if values.any (fun v => v.1 == auth_table_password_prop && v.2 != password) then
           (⟨status_codes.NotFound, value.null⟩, log)
         else
         let partition := scan_property values auth_table_partition_prop
         let row := scan_property values auth_table_row_prop
         if op == get_update_token_op then
           (⟨(do_get_token acct partition row (permissions_read ||| permissions_update)).1,
              value.object [("token",
                (do_get_token acct partition row (permissions_read ||| permissions_update)).2)]⟩,
            log ++ [storage_op.get_sas data_table_name
              (token_request acct partition row (permissions_read ||| permissions_update))])
         else if op == get_read_token_op then
           (⟨(do_get_token acct partition row permissions_read).1,
              value.object [("token", (do_get_token acct partition row permissions_read).2)]⟩,
            log ++ [storage_op.get_sas data_table_name
              (token_request acct partition row permissions_read)])
         else if op == get_update_data then
           (⟨(do_get_token acct partition row (permissions_read ||| permissions_update)).1,
              value.object [("token",
                (do_get_token acct partition row (permissions_read ||| permissions_update)).2),
                (auth_table_partition_prop, partition), (auth_table_row_prop, row)]⟩,
            log ++ [storage_op.get_sas data_table_name
              (token_request acct partition row (permissions_read ||| permissions_update))])
         else (⟨status_codes.BadRequest, value.null⟩, log)
       else (⟨status_codes.NotFound, value.null⟩, log)) := by
  have hidx : map_index [(auth_table_password_prop, password)] auth_table_password_prop
      = password := by
    simp [map_index, List.lookup]
  simp only [handle_get, hauth, hdata, hpaths, hbody, hidx, hascii]
  simp [hne]

/-- Claim C4: when AuthTable and DataTable exist and the path has two segments, a
request whose JSON body does not have exactly one property, or has no non-empty
Password property, or whose Password has a byte outside 0..127, is answered
BadRequest and nothing is asked of the storage collaborator (the credential
record is not read), whatever the credential table holds. -/
theorem bad_request_before_lookup (acct : storage_account) (message : http_request)
    (op userid : String)
    (hauth : table_exists (lookup_table acct auth_table_name) = true)
    (hdata : table_exists (lookup_table acct data_table_name) = true)
    (hpaths : message.paths = [op, userid])
    (hbad : (get_json_body message).length ≠ 1 ∨
      map_index (get_json_body message) auth_table_password_prop = "" ∨
      has_non_ascii7 (map_index (get_json_body message) auth_table_password_prop) = true) :
    handle_get acct message = (⟨status_codes.BadRequest, value.null⟩, []) := by
  simp only [handle_get, hauth, hdata, hpaths]
  rcases hbad with h | h | h
  · simp [h]
  · simp [h]
  · simp [h]

/-- Claim C3: for a well-formed request (two path segments, exactly one non-empty
7-bit-ASCII Password property), if no credential record exists for the userid, or
the record has a Password that differs from the supplied one, the reply is
NotFound and no token is requested; the operation name plays no part, so this
holds for GetReadToken, GetUpdateToken and GetUpdateData alike. -/
theorem wrong_credentials_not_found (acct : storage_account) (message : http_request)
    (op userid password : String)
    (hpaths : message.paths = [op, userid])
    (hbody : get_json_body message = [(auth_table_password_prop, password)])
    (hne : password ≠ "") (hascii : has_non_ascii7 password = false)
    (hcred : find_entity (lookup_table acct auth_table_name) auth_table_userid_partition userid
        = none ∨
      ∃ e v, find_entity (lookup_table acct auth_table_name) auth_table_userid_partition userid
        = some e ∧ (auth_table_password_prop, v) ∈ e.properties ∧ v ≠ password) :
    (handle_get acct message).1.status = status_codes.NotFound ∧
      ∀ o ∈ (handle_get acct message).2, o.is_get_sas = false := by
  by_cases hauth : table_exists (lookup_table acct auth_table_name) = true
  swap
  · simp [handle_get, hauth]
  by_cases hdata : table_exists (lookup_table acct data_table_name) = true
  swap
  · simp [handle_get, hauth, hdata]
  rw [handle_get_well_formed acct message op userid password hauth hdata hpaths hbody hne hascii]
  rcases hcred with h | ⟨e, v, h, hmem, hv⟩
  · simp [retrieve_entity, h, storage_op.is_get_sas]
  · have hany : (get_string_properties e.properties).any
        (fun w => w.1 == auth_table_password_prop && w.2 != password) = true := by
      simp only [get_string_properties, List.any_eq_true]
      exact ⟨(auth_table_password_prop, v), by simpa using hmem, by simp [hv]⟩
    simp only [retrieve_entity, h, hany]
    by_cases hlen : (get_string_properties e.properties).length = 3
    · simp [hlen, storage_op.is_get_sas]
    · simp [hlen, storage_op.is_get_sas]

/-- Claim C2, as amended: for a well-formed request whose userid has a credential
record whose number of properties is not three, the reply is NotFound and no
token is requested from the storage collaborator. -/
theorem record_size_not_three_not_found (acct : storage_account) (message : http_request)
    (op userid password : String) (e : table_entity)
    (hpaths : message.paths = [op, userid])
    (hbody : get_json_body message = [(auth_table_password_prop, password)])
    (hne : password ≠ "") (hascii : has_non_ascii7 password = false)
    (hrec : find_entity (lookup_table acct auth_table_name) auth_table_userid_partition userid
        = some e)
    (hsize : e.properties.length ≠ 3) :
    (handle_get acct message).1.status = status_codes.NotFound ∧
      ∀ o ∈ (handle_get acct message).2, o.is_get_sas = false := by
  by_cases hauth : table_exists (lookup_table acct auth_table_name) = true
  swap
  · simp [handle_get, hauth]
  by_cases hdata : table_exists (lookup_table acct data_table_name) = true
  swap
  · simp [handle_get, hauth, hdata]
  rw [handle_get_well_formed acct message op userid password hauth hdata hpaths hbody hne hascii]
  simp [retrieve_entity, hrec, get_string_properties, hsize, storage_op.is_get_sas]

/-- Instance of `bad_request_before_lookup`: a two-property body. -/
theorem bad_request_before_lookup_witness :
    handle_get sample_account ⟨["GetReadToken", "amy"], [("Password", "pw"), ("X", "y")]⟩
      = (⟨status_codes.BadRequest, value.null⟩, []) :=
  bad_request_before_lookup sample_account _ "GetReadToken" "amy"
    (by decide) (by decide) rfl (Or.inl (by decide))

/-- Instance of `wrong_credentials_not_found`: a wrong password for `amy`. -/
theorem wrong_credentials_not_found_witness :
    (handle_get sample_account (sample_request "GetUpdateData" "amy" "no")).1.status
        = status_codes.NotFound ∧
      ∀ o ∈ (handle_get sample_account (sample_request "GetUpdateData" "amy" "no")).2,
        o.is_get_sas = false :=
  wrong_credentials_not_found sample_account _ "GetUpdateData" "amy" "no" rfl (by decide)
    (by decide) (by decide)
    (Or.inr ⟨⟨"Userid", "amy", [("Password", "pw"), ("DataPartition", "US"), ("DataRow", "Amy,A")]⟩,
      "pw", by decide, by decide, by decide⟩)

/-- Claim C2 fails as stated: the credential record of `bob` has three properties
named A, B and C (no Password, no DataPartition, no DataRow), yet any password is
accepted: the reply is OK and a token is requested for the coordinate
`(" ", " ")`. -/
theorem three_unnamed_properties_get_token :
    find_entity (lookup_table sample_account auth_table_name) auth_table_userid_partition "bob"
        = some ⟨"Userid", "bob", [("A", "1"), ("B", "2"), ("C", "3")]⟩ ∧
      handle_get sample_account (sample_request "GetReadToken" "bob" "anything") =
        (⟨status_codes.OK, value.object [("token", "tok")]⟩,
         [storage_op.retrieve "AuthTable" "Userid" "bob",
          storage_op.get_sas "DataTable"
            ⟨1000 + datetime_from_days 1, permissions_read, " ", " ", " ", " "⟩]) := by
  decide

/-- Instance of `record_size_not_three_not_found`: the two-property record of `cat`. -/
theorem record_size_not_three_not_found_witness :
    (handle_get sample_account (sample_request "GetReadToken" "cat" "pw")).1.status
        = status_codes.NotFound ∧
      ∀ o ∈ (handle_get sample_account (sample_request "GetReadToken" "cat" "pw")).2,
        o.is_get_sas = false :=
  record_size_not_three_not_found sample_account _ "GetReadToken" "cat" "pw"
    ⟨"Userid", "cat", [("Password", "pw"), ("DataRow", "Cat,C")]⟩ rfl (by decide) (by decide)
    (by decide) (by decide) (by decide)

/-- A record made of the three expected properties, in any order, holds no
password other than its own and yields its own coordinate. -/
theorem scan_expected_record (values : prop_str_vals_t) (p P R : String)
    (hvals : values.Perm [(auth_table_password_prop, p), (auth_table_partition_prop, P),
      (auth_table_row_prop, R)]) :
    values.length = 3 ∧
      values.any (fun v => v.1 == auth_table_password_prop && v.2 != p) = false ∧
      scan_property values auth_table_partition_prop = P ∧
      scan_property values auth_table_row_prop = R := by
  have hlen := hvals.length_eq
  have h1 : (auth_table_password_prop, p) ∈ values := hvals.mem_iff.mpr (by simp)
  have h2 : (auth_table_partition_prop, P) ∈ values := hvals.mem_iff.mpr (by simp)
  have h3 : (auth_table_row_prop, R) ∈ values := hvals.mem_iff.mpr (by simp)
  match values, hlen, h1, h2, h3 with
  | [a, b, c], _, h1, h2, h3 =>
    simp only [List.mem_cons, List.mem_singleton, List.not_mem_nil, or_false] at h1 h2 h3
    have k1 : auth_table_password_prop ≠ auth_table_partition_prop := by decide
    have k2 : auth_table_password_prop ≠ auth_table_row_prop := by decide
    have k3 : auth_table_partition_prop ≠ auth_table_row_prop := by decide
    rcases h1 with h1 | h1 | h1 <;> rcases h2 with h2 | h2 | h2 <;>
      rcases h3 with h3 | h3 | h3 <;> subst_vars <;>
      first
        | (exfalso; simp_all [Prod.ext_iff]; done)
        | simp [scan_property, k1, k2, k3, k1.symm, k2.symm, k3.symm]

/-- The status `do_get_token` returns. -/
theorem do_get_token_status (acct : storage_account) (partition row : String) (perms : Nat) :
    (do_get_token acct partition row perms).1 =
      if (acct.sas_sign (token_request acct partition row perms)).isSome
      then status_codes.OK else status_codes.InternalError := by
  unfold do_get_token
  cases acct.sas_sign (token_request acct partition row perms) <;> rfl

/-- The token `do_get_token` returns. -/
theorem do_get_token_token (acct : storage_account) (partition row : String) (perms : Nat) :
    (do_get_token acct partition row perms).2 =
      (acct.sas_sign (token_request acct partition row perms)).getD "" := by
  unfold do_get_token
  cases acct.sas_sign (token_request acct partition row perms) <;> rfl

/-- The reply and the storage operations of `handle_get` for a record made of the
three expected properties and the right password. -/
theorem handle_get_expected_record (acct : storage_account) (message : http_request)
    (op userid p P R : String) (e : table_entity)
    (hauth : table_exists (lookup_table acct auth_table_name) = true)
    (hdata : table_exists (lookup_table acct data_table_name) = true)
    (hpaths : message.paths = [op, userid])
    (hbody : get_json_body message = [(auth_table_password_prop, p)])
    (hne : p ≠ "") (hascii : has_non_ascii7 p = false)
    (hrec : find_entity (lookup_table acct auth_table_name) auth_table_userid_partition userid
        = some e)
    (hprops : e.properties.Perm [(auth_table_password_prop, p), (auth_table_partition_prop, P),
      (auth_table_row_prop, R)])
    (hop : op = get_read_token_op ∨ op = get_update_token_op ∨ op = get_update_data) :
    handle_get acct message =
      (let sas : shared_access_signature :=
          ⟨acct.utc_now + datetime_from_days 1,
           if op = get_read_token_op then permissions_read
           else permissions_read ||| permissions_update,
           P, R, P, R⟩
       let status : status_code :=
          if (acct.sas_sign sas).isSome then status_codes.OK else status_codes.InternalError
       let token : String := (acct.sas_sign sas).getD ""
       (⟨status, value.object (("token", token) ::
            (if op = get_update_data
             then [(auth_table_partition_prop, P), (auth_table_row_prop, R)] else []))⟩,
        [storage_op.retrieve auth_table_name auth_table_userid_partition userid,
         storage_op.get_sas data_table_name sas])) := by
  rw [handle_get_well_formed acct message op userid p hauth hdata hpaths hbody hne hascii]
  have hv : (get_string_properties e.properties).Perm
      [(auth_table_password_prop, p), (auth_table_partition_prop, P),
        (auth_table_row_prop, R)] := by
    simpa [get_string_properties] using hprops
  obtain ⟨hlen, hany, hP, hR⟩ := scan_expected_record _ p P R hv
  simp only [retrieve_entity, hrec, hlen, hany, hP, hR]
  rcases hop with h | h | h <;> subst h <;>
    simp [do_get_token_status, do_get_token_token, token_request, get_read_token_op,
      get_update_token_op, get_update_data]

/-- Claim C5: for a credential record made of Password = p, DataPartition = P and
DataRow = R and a request supplying p, exactly one token is requested, for the
single coordinate (P, R) (start and end of the range), expiring one day after
the current time, with permission read for GetReadToken and read+update for
GetUpdateToken and GetUpdateData; the reply carries the outcome of that request
(OK and the token, or InternalError and an empty token when the collaborator
fails), and only GetUpdateData adds DataPartition = P and DataRow = R. -/
theorem token_scoped_to_coordinate (acct : storage_account) (message : http_request)
    (op userid p P R : String) (e : table_entity)
    (hauth : table_exists (lookup_table acct auth_table_name) = true)
    (hdata : table_exists (lookup_table acct data_table_name) = true)
    (hpaths : message.paths = [op, userid])
    (hbody : get_json_body message = [(auth_table_password_prop, p)])
    (hne : p ≠ "") (hascii : has_non_ascii7 p = false)
    (hrec : find_entity (lookup_table acct auth_table_name) auth_table_userid_partition userid
        = some e)
    (hprops : e.properties.Perm [(auth_table_password_prop, p), (auth_table_partition_prop, P),
      (auth_table_row_prop, R)])
    (hop : op = get_read_token_op ∨ op = get_update_token_op ∨ op = get_update_data) :
    handle_get acct message =
      (let sas : shared_access_signature :=
          ⟨acct.utc_now + datetime_from_days 1,
           if op = get_read_token_op then permissions_read
           else permissions_read ||| permissions_update,
           P, R, P, R⟩
       let status : status_code :=
          if (acct.sas_sign sas).isSome then status_codes.OK else status_codes.InternalError
       let token : String := (acct.sas_sign sas).getD ""
       (⟨status, value.object (("token", token) ::
            (if op = get_update_data
             then [(auth_table_partition_prop, P), (auth_table_row_prop, R)] else []))⟩,
        [storage_op.retrieve auth_table_name auth_table_userid_partition userid,
         storage_op.get_sas data_table_name sas])) :=
  handle_get_expected_record acct message op userid p P R e hauth hdata hpaths hbody hne hascii
    hrec hprops hop

/-- Instance of `token_scoped_to_coordinate`: `amy` asks for her update data. -/
theorem token_scoped_to_coordinate_witness :
    handle_get sample_account (sample_request "GetUpdateData" "amy" "pw") =
      (⟨status_codes.OK,
        value.object [("token", "tok"), ("DataPartition", "US"), ("DataRow", "Amy,A")]⟩,
       [storage_op.retrieve "AuthTable" "Userid" "amy",
        storage_op.get_sas "DataTable"
          ⟨1000 + 864000000000, permissions_read ||| permissions_update,
           "US", "Amy,A", "US", "Amy,A"⟩]) :=
  token_scoped_to_coordinate sample_account _ "GetUpdateData" "amy" "pw" "US" "Amy,A"
    ⟨"Userid", "amy", [("Password", "pw"), ("DataPartition", "US"), ("DataRow", "Amy,A")]⟩
    (by decide) (by decide) rfl (by decide) (by decide) (by decide) (by decide)
    (List.Perm.refl _) (Or.inr (Or.inr rfl))

end AuthServer

namespace UserServer

/-- Claim C1 at a failing input: the session table is empty, `alice` signs on, the
Token Issuer answers InternalError (with an empty token and her coordinate) and
the Data Gateway answers OK.  The reply is BadRequest, yet the session table now
holds an entry for `alice` with the empty token. -/
theorem failed_sign_on_creates_session :
    handle_post (do_request_logged issuer_fails) alice_signs_on [] [] =
      (reply status_codes.BadRequest, [("alice", ("", "US", "Alice,A"))],
        [⟨method.GET, "http://localhost:34570/GetUpdateData/alice",
            value.object [("Password", "secret")]⟩,
         ⟨method.GET, "http://localhost:34568/ReadEntityAdmin/DataTable/US/Alice,A",
            value.null⟩]) := by
  decide

/-- Claim C8: a SignOn request whose JSON body does not have exactly one property,
or whose Password property is missing or empty, or whose userid has a character
outside A-Z and a-z, is answered NotFound; no request is sent to any other
service and the session table is unchanged, whatever the other services hold. -/
theorem sign_on_rejects_malformed (respond : responder) (message : http_request)
    (userid : String) (rest : List String) (active_users : session_table)
    (log : List request_sent)
    (hpaths : message.paths = sign_on :: userid :: rest)
    (hbad : (get_json_body message).length ≠ 1 ∨
      map_index (get_json_body message) auth_table_password_prop = "" ∨
      userid.data.any not_alphabetical = true) :
    handle_post (do_request_logged respond) message active_users log =
      (reply status_codes.NotFound, active_users, log) := by
  simp only [handle_post, hpaths, sign_on_block]
  rcases hbad with h | h | h
  · simp [h]
  · simp [h]
  · simp [h]

/-- Instance of `sign_on_rejects_malformed`: a userid with digits. -/
theorem sign_on_rejects_malformed_witness :
    handle_post (do_request_logged all_fine) ⟨["SignOn", "u12345"], [("Password", "a")]⟩ [] [] =
      (reply status_codes.NotFound, [], []) :=
  sign_on_rejects_malformed all_fine _ "u12345" [] [] [] rfl (Or.inr (Or.inr (by decide)))

/-- Claim C10: for a userid that already has a session, a well-formed sign-on to
which the Token Issuer and the Data Gateway both answer OK replies OK and leaves
the session table exactly as it was: the userid keeps its one entry, with the
token and coordinate recorded before. -/
theorem sign_on_active_user_unchanged {σ : Type} (do_request : do_request_t σ)
    (message : http_request) (userid password : String) (rest : List String)
    (active_users : session_table) (w : σ) (entry : String × String × String)
    (auth_body basic_body : value)
    (hpaths : message.paths = sign_on :: userid :: rest)
    (hbody : get_json_body message = [(auth_table_password_prop, password)])
    (hne : password ≠ "")
    (hletters : userid.data.any not_alphabetical = false)
    (hsession : active_users.lookup userid = some entry)
    (hauth : (do_request method.GET (auth_url ++ get_update_data ++ "/" ++ userid)
        (build_json_value auth_table_password_prop password) w).1
        = .ok (status_codes.OK, auth_body))
    (hbasic : (do_request method.GET
        (basic_url ++ read_entity ++ "/" ++ data_table_name ++ "/"
          ++ map_index (unpack_json_object auth_body) auth_table_partition_prop ++ "/"
          ++ map_index (unpack_json_object auth_body) auth_table_row_prop)
        value.null
        (do_request method.GET (auth_url ++ get_update_data ++ "/" ++ userid)
          (build_json_value auth_table_password_prop password) w).2).1
        = .ok (status_codes.OK, basic_body)) :
    (handle_post do_request message active_users w).1 = reply status_codes.OK ∧
      (handle_post do_request message active_users w).2.1 = active_users ∧
      (handle_post do_request message active_users w).2.1.lookup userid = some entry := by
  have hidx : map_index [(auth_table_password_prop, password)] auth_table_password_prop
      = password := by
    simp [map_index, List.lookup]
  cases h1 : do_request method.GET (auth_url ++ get_update_data ++ "/" ++ userid)
      (build_json_value auth_table_password_prop password) w with
  | mk r1 w1 =>
    rw [h1] at hauth hbasic
    simp only at hauth hbasic
    subst hauth
    cases h2 : do_request method.GET
        (basic_url ++ read_entity ++ "/" ++ data_table_name ++ "/"
          ++ map_index (unpack_json_object auth_body) auth_table_partition_prop ++ "/"
          ++ map_index (unpack_json_object auth_body) auth_table_row_prop)
        value.null w1 with
    | mk r2 w2 =>
      rw [h2] at hbasic
      simp only at hbasic
      subst hbasic
      have hlen : ¬ (rest.length + 1 + 1 < 2) := by omega
      simp [handle_post, hpaths, sign_on_block, hbody, hidx, hne, hletters, h1, h2, hsession,
        hlen]

/-- Instance of `sign_on_active_user_unchanged`: `alice` signs on a second time. -/
theorem sign_on_active_user_unchanged_witness :
    (handle_post (do_request_logged all_fine) alice_signs_on
        [("alice", ("tok1", "US", "Alice,A"))] []).1 = reply status_codes.OK ∧
      (handle_post (do_request_logged all_fine) alice_signs_on
        [("alice", ("tok1", "US", "Alice,A"))] []).2.1 = [("alice", ("tok1", "US", "Alice,A"))] ∧
      (handle_post (do_request_logged all_fine) alice_signs_on
        [("alice", ("tok1", "US", "Alice,A"))] []).2.1.lookup "alice"
        = some ("tok1", "US", "Alice,A") :=
  sign_on_active_user_unchanged (do_request_logged all_fine) alice_signs_on "alice" "secret" []
    [("alice", ("tok1", "US", "Alice,A"))] [] ("tok1", "US", "Alice,A")
    (value.object [("token", "tok2"), ("DataPartition", "US"), ("DataRow", "Alice,A")])
    (value.object [("Friends", ""), ("Status", ""), ("Updates", "")])
    rfl (by decide) (by decide) (by decide) (by decide) rfl rfl

/-- Claim C7: when the session table has no entry for the userid, an AddFriend,
UnFriend, UpdateStatus or ReadFriendList request for that userid that has all its
path segments is answered Forbidden; the list of requests sent to other services
and the session table are unchanged. -/
theorem no_session_forbidden (respond : responder) (userid a b : String) (rest : List String)
    (body : List (String × String)) (active_users : session_table) (log : List request_sent)
    (hsession : active_users.lookup userid = none) :
    handle_put (do_request_logged respond) ⟨add_friend :: userid :: a :: b :: rest, body⟩
        active_users log = (reply status_codes.Forbidden, active_users, log) ∧
    handle_put (do_request_logged respond) ⟨unfriend :: userid :: a :: b :: rest, body⟩
        active_users log = (reply status_codes.Forbidden, active_users, log) ∧
    handle_put (do_request_logged respond) ⟨update_status :: userid :: a :: rest, body⟩
        active_users log = (reply status_codes.Forbidden, active_users, log) ∧
    handle_get (do_request_logged respond) ⟨read_friend_list :: userid :: rest, body⟩
        active_users log = (reply status_codes.Forbidden, active_users, log) := by
  refine ⟨?_, ?_, ?_, ?_⟩
  · simp [handle_put, add_friend_block, get_user, hsession]
  · have h : (unfriend == add_friend) = false := by decide
    simp [handle_put, unfriend_block, get_user, hsession, h]
  · have h1 : (update_status == add_friend) = false := by decide
    have h2 : (update_status == unfriend) = false := by decide
    simp [handle_put, update_status_block, get_user, hsession, h1, h2]
  · simp [handle_get, get_user, hsession]

/-- Instance of `no_session_forbidden`: nobody is signed on. -/
theorem no_session_forbidden_witness :
    handle_put (do_request_logged all_fine) ⟨add_friend :: "alice" :: "CA" :: "Bob,B" :: [], []⟩
        [] [] = (reply status_codes.Forbidden, [], []) ∧
    handle_put (do_request_logged all_fine) ⟨unfriend :: "alice" :: "CA" :: "Bob,B" :: [], []⟩
        [] [] = (reply status_codes.Forbidden, [], []) ∧
    handle_put (do_request_logged all_fine) ⟨update_status :: "alice" :: "CA" :: [], []⟩
        [] [] = (reply status_codes.Forbidden, [], []) ∧
    handle_get (do_request_logged all_fine) ⟨read_friend_list :: "alice" :: [], []⟩
        [] [] = (reply status_codes.Forbidden, [], []) :=
  no_session_forbidden all_fine "alice" "CA" "Bob,B" [] [] [] [] rfl

end UserServer

/-! ### The Session Manager with the Token Issuer behind it -/

/-- Dropping a base from a URI that starts with it leaves the rest. -/
theorem drop_base_append (base rest : List Char) :
    drop_base base (base ++ rest) = some rest := by
  induction base with
  | nil => cases rest <;> rfl
  | cons b base ih => simp [drop_base, ih]

/-- A sequence without the separator is one piece. -/
theorem split_on_no_sep (sep : Char) (u : List Char) (h : sep ∉ u) :
    split_on sep u = [u] := by
  induction u with
  | nil => rfl
  | cons c cs ih =>
    have hc : ¬ c = sep := fun e => h (by simp [e])
    have hcs : sep ∉ cs := fun e => h (by simp [e])
    simp [split_on, hc, ih hcs]

/-- The first piece ends at the first separator. -/
theorem split_on_append (sep : Char) (a u : List Char) (h : sep ∉ a) :
    split_on sep (a ++ sep :: u) = a :: split_on sep u := by
  induction a with
  | nil => simp [split_on]
  | cons c cs ih =>
    have hc : ¬ c = sep := fun e => h (by simp [e])
    have hcs : sep ∉ cs := fun e => h (by simp [e])
    simp [split_on, hc, ih hcs]

/-- A userid made of letters holds no slash. -/
theorem letters_have_no_slash (userid : String)
    (hletters : userid.data.any UserServer.not_alphabetical = false) : '/' ∉ userid.data := by
  intro hmem
  have h := List.any_eq_false.mp hletters '/' hmem
  exact h (by decide)

/-- The path segments the Token Issuer sees for the sign-on of a userid made of
letters. -/
theorem split_path_get_update_data (userid : String) (hne : userid ≠ "")
    (hletters : userid.data.any UserServer.not_alphabetical = false) :
    split_path (UserServer.get_update_data.data ++ '/' :: userid.data)
      = [UserServer.get_update_data, userid] := by
  have h1 : '/' ∉ UserServer.get_update_data.data := by decide
  have h2 := letters_have_no_slash userid hletters
  have h3 : userid.data ≠ [] := by
    intro h
    apply hne
    cases userid
    simp_all
  simp only [split_path, split_on_append _ _ _ h1, split_on_no_sep _ _ h2]
  have h4 : UserServer.get_update_data.data.isEmpty = false := by decide
  have h5 : userid.data.isEmpty = false := by
    cases hd : userid.data with
    | nil => exact absurd hd h3
    | cons c cs => rfl
  simp [List.filter, h4, h5]

/-- With a two-segment path and a password holding a byte outside 0..127, the
Token Issuer answers NotFound (a table is missing) or BadRequest. -/
theorem issuer_rejects_non_ascii (acct : storage_account) (op userid password : String)
    (hnon : AuthServer.has_non_ascii7 password = true) :
    (AuthServer.handle_get acct ⟨[op, userid], [(AuthServer.auth_table_password_prop, password)]⟩).1
        = ⟨status_codes.NotFound, value.null⟩ ∨
      (AuthServer.handle_get acct ⟨[op, userid], [(AuthServer.auth_table_password_prop, password)]⟩).1
        = ⟨status_codes.BadRequest, value.null⟩ := by
  have hbody : get_json_body ⟨[op, userid], [(AuthServer.auth_table_password_prop, password)]⟩
      = [(AuthServer.auth_table_password_prop, password)] := by
    simp [get_json_body, map_assign, List.lookup]
  have hidx : map_index [(AuthServer.auth_table_password_prop, password)]
      AuthServer.auth_table_password_prop = password := by
    simp [map_index, List.lookup]
  by_cases hauth : table_exists (lookup_table acct AuthServer.auth_table_name) = true
  swap
  · left
    simp [AuthServer.handle_get, hauth]
  by_cases hdata : table_exists (lookup_table acct AuthServer.data_table_name) = true
  swap
  · left
    simp [AuthServer.handle_get, hauth, hdata]
  right
  simp only [AuthServer.handle_get, hauth, hdata, hbody, hidx, hnon]
  simp

namespace UserServer

/-- Claim C9: for a non-empty userid made of letters and a one-property payload
whose Password holds a byte outside 7-bit ASCII, the Token Issuer does not answer
OK to the request the sign-on sends it, and the sign-on replies NotFound and
leaves the session table unchanged. -/
theorem sign_on_non_ascii_password (acct : storage_account) (others : responder)
    (message : http_request) (userid password : String) (active_users : session_table)
    (log : List request_sent)
    (hpaths : message.paths = [sign_on, userid])
    (hbody : get_json_body message = [(auth_table_password_prop, password)])
    (hne : userid ≠ "")
    (hletters : userid.data.any not_alphabetical = false)
    (hnon : AuthServer.has_non_ascii7 password = true) :
    (∃ c v, c ≠ status_codes.OK ∧
      (do_request_with_issuer acct others method.GET (auth_url ++ get_update_data ++ "/" ++ userid)
        (build_json_value auth_table_password_prop password) log).1 = .ok (c, v) ∧
      (AuthServer.handle_get acct ⟨[get_update_data, userid],
        [(auth_table_password_prop, password)]⟩).1 = ⟨c, v⟩) ∧
    (handle_post (do_request_with_issuer acct others) message active_users log).1
        = reply status_codes.NotFound ∧
    (handle_post (do_request_with_issuer acct others) message active_users log).2.1
        = active_users := by
  have hpw : password ≠ "" := by
    intro h
    subst h
    simp [AuthServer.has_non_ascii7] at hnon
  have hidx : map_index [(auth_table_password_prop, password)] auth_table_password_prop
      = password := by
    simp [map_index, List.lookup]
  have huri : (auth_url ++ get_update_data ++ "/" ++ userid).data
      = auth_url.data ++ (get_update_data.data ++ '/' :: userid.data) := by
    simp [String.data_append]
  have hsplit := split_path_get_update_data userid hne hletters
  have hcall : do_request_with_issuer acct others method.GET
      (auth_url ++ get_update_data ++ "/" ++ userid)
      (build_json_value auth_table_password_prop password) log
      = (.ok ((AuthServer.handle_get acct ⟨[get_update_data, userid],
            [(auth_table_password_prop, password)]⟩).1.status,
          (AuthServer.handle_get acct ⟨[get_update_data, userid],
            [(auth_table_password_prop, password)]⟩).1.body),
         log ++ [⟨method.GET, auth_url ++ get_update_data ++ "/" ++ userid,
            build_json_value auth_table_password_prop password⟩]) := by
    simp only [do_request_with_issuer, huri, drop_base_append, hsplit, build_json_value,
      json_members]
    simp
  rcases issuer_rejects_non_ascii acct get_update_data userid password hnon with h | h
  · refine ⟨⟨status_codes.NotFound, value.null, by decide, ?_, ?_⟩, ?_, ?_⟩
    · rw [hcall]
      simp only [show AuthServer.auth_table_password_prop = auth_table_password_prop from rfl] at h
      rw [h]
    · exact h
    · simp only [show AuthServer.auth_table_password_prop = auth_table_password_prop from rfl] at h
      simp [handle_post, hpaths, sign_on_block, hbody, hidx, hpw, hletters, hcall, h]
    · simp only [show AuthServer.auth_table_password_prop = auth_table_password_prop from rfl] at h
      simp [handle_post, hpaths, sign_on_block, hbody, hidx, hpw, hletters, hcall, h]
  · refine ⟨⟨status_codes.BadRequest, value.null, by decide, ?_, ?_⟩, ?_, ?_⟩
    · rw [hcall]
      simp only [show AuthServer.auth_table_password_prop = auth_table_password_prop from rfl] at h
      rw [h]
    · exact h
    · simp only [show AuthServer.auth_table_password_prop = auth_table_password_prop from rfl] at h
      simp [handle_post, hpaths, sign_on_block, hbody, hidx, hpw, hletters, hcall, h]
    · simp only [show AuthServer.auth_table_password_prop = auth_table_password_prop from rfl] at h
      simp [handle_post, hpaths, sign_on_block, hbody, hidx, hpw, hletters, hcall, h]

end UserServer

/-! ### Tokens presented to the Data Gateway -/

/-- No sequence of characters is below itself. -/
theorem chars_lt_irrefl (a : List Char) : chars_lt a a = false := by
  induction a with
  | nil => rfl
  | cons c cs ih => simp [chars_lt, ih]

/-- The order on sequences of characters is asymmetric. -/
theorem chars_lt_asymm (a b : List Char) (h : chars_lt a b = true) : chars_lt b a = false := by
  induction a generalizing b with
  | nil => cases b <;> simp_all [chars_lt]
  | cons c cs ih =>
    cases b with
    | nil => simp [chars_lt] at h
    | cons d ds =>
      simp only [chars_lt, Bool.or_eq_true, Bool.and_eq_true, decide_eq_true_eq, beq_iff_eq] at h
      simp only [chars_lt, Bool.or_eq_false_iff, decide_eq_false_iff_not, Bool.and_eq_false_imp,
        beq_iff_eq]
      rcases h with h | ⟨h, h'⟩
      · exact ⟨lt_asymm h, fun e => absurd h (by rw [e]; exact lt_irrefl _)⟩
      · exact ⟨by rw [h]; exact lt_irrefl _, fun _ => ih ds h'⟩

/-- Two sequences of characters neither of which is below the other are equal. -/
theorem chars_lt_connex (a b : List Char) (h1 : chars_lt a b = false)
    (h2 : chars_lt b a = false) : a = b := by
  induction a generalizing b with
  | nil => cases b <;> simp_all [chars_lt]
  | cons c cs ih =>
    cases b with
    | nil => simp [chars_lt] at h2
    | cons d ds =>
      simp only [chars_lt, Bool.or_eq_false_iff, decide_eq_false_iff_not, Bool.and_eq_false_imp,
        beq_iff_eq] at h1 h2
      have hcd : c = d := le_antisymm (not_lt.mp h2.1) (not_lt.mp h1.1)
      rw [hcd, ih ds (h1.2 hcd) (h2.2 hcd.symm)]

/-- The order on keys is antisymmetric. -/
theorem key_le_antisymm (a b : String × String) (h1 : key_le a b = true)
    (h2 : key_le b a = true) : a = b := by
  obtain ⟨a1, a2⟩ := a
  obtain ⟨b1, b2⟩ := b
  simp only [key_le, str_lt, Bool.or_eq_true, Bool.and_eq_true, beq_iff_eq,
    Bool.not_eq_true'] at h1 h2
  rcases h1 with h1 | ⟨h1, h1'⟩
  · rcases h2 with h2 | ⟨h2, _⟩
    · rw [chars_lt_asymm _ _ h1] at h2
      exact absurd h2 (by decide)
    · rw [h2, chars_lt_irrefl] at h1
      exact absurd h1 (by decide)
  · rcases h2 with h2 | ⟨_, h2'⟩
    · rw [h1, chars_lt_irrefl] at h2
      exact absurd h2 (by decide)
    · have h := chars_lt_connex _ _ h2' h1'
      rw [h1, String.ext h]

/-- A token whose policy covers the single coordinate `(P, R)` authorizes nothing
at another coordinate. -/
theorem token_not_authorized_elsewhere (acct : storage_account) (token : String)
    (sas : shared_access_signature) (permission : Nat) (pk rk : String)
    (hdec : acct.sas_decode token = some sas)
    (hstart : (sas.start_partition_key, sas.start_row_key) = (sas.end_partition_key, sas.end_row_key))
    (hother : (sas.start_partition_key, sas.start_row_key) ≠ (pk, rk)) :
    token_authorizes acct token permission pk rk = false := by
  simp only [token_authorizes, hdec]
  by_contra h
  simp only [Bool.not_eq_false, Bool.and_eq_true] at h
  obtain ⟨⟨_, h3⟩, h4⟩ := h
  rw [← hstart] at h4
  exact hother (key_le_antisymm _ _ h3 h4)

/-- A token whose policy grants read only does not authorize an update. -/
theorem read_token_not_authorized_update (acct : storage_account) (token : String)
    (sas : shared_access_signature) (pk rk : String)
    (hdec : acct.sas_decode token = some sas)
    (hperm : sas.permissions = permissions_read) :
    token_authorizes acct token permissions_update pk rk = false := by
  have hbits : (permissions_read &&& permissions_update == permissions_update) = false := by
    decide
  simp only [token_authorizes, hdec, hperm, hbits, Bool.and_false, Bool.false_and]

/-- The token-gated read replies Forbidden when the token does not authorize the
read of the coordinate. -/
theorem read_auth_forbidden (acct : storage_account) (tname token pk rk : String)
    (body : List (String × String))
    (htable : table_exists (lookup_table acct tname) = true)
    (hno : token_authorizes acct token permissions_read pk rk = false) :
    BasicServer.handle_get acct ⟨[BasicServer.read_entity_auth, tname, token, pk, rk], body⟩
      = .replied ⟨status_codes.Forbidden, value.null⟩ := by
  simp [BasicServer.handle_get, BasicServer.read_with_token, htable, hno]

/-- The token-gated update replies Forbidden and leaves the tables alone when the
token does not authorize the update of the coordinate. -/
theorem update_auth_forbidden (acct : storage_account) (tname token pk rk : String)
    (body : List (String × String))
    (htable : table_exists (lookup_table acct tname) = true)
    (hno : token_authorizes acct token permissions_update pk rk = false) :
    BasicServer.handle_put acct ⟨[BasicServer.update_entity_auth, tname, token, pk, rk], body⟩
      = (.replied ⟨status_codes.Forbidden, value.null⟩, acct) := by
  simp [BasicServer.handle_put, BasicServer.update_with_token, htable, hno]

/-- An update needs the update bit, a read the read bit: both hold of the policy
`read ||| update` and only the second of the policy `read`. -/
theorem permission_bits :
    (permissions_read ||| permissions_update) &&& permissions_update = permissions_update ∧
    (permissions_read ||| permissions_update) &&& permissions_read = permissions_read ∧
    permissions_read &&& permissions_update ≠ permissions_update := by
  decide

/-- The policy the Token Issuer asks a signature for, by operation. -/
theorem minted_token_signed (acct : storage_account) (message : http_request)
    (op userid p P R : String) (e : table_entity)
    (hauth : table_exists (lookup_table acct AuthServer.auth_table_name) = true)
    (hdata : table_exists (lookup_table acct AuthServer.data_table_name) = true)
    (hpaths : message.paths = [op, userid])
    (hbody : get_json_body message = [(AuthServer.auth_table_password_prop, p)])
    (hne : p ≠ "") (hascii : AuthServer.has_non_ascii7 p = false)
    (hrec : find_entity (lookup_table acct AuthServer.auth_table_name)
        AuthServer.auth_table_userid_partition userid = some e)
    (hprops : e.properties.Perm [(AuthServer.auth_table_password_prop, p),
      (AuthServer.auth_table_partition_prop, P), (AuthServer.auth_table_row_prop, R)])
    (hop : op = AuthServer.get_read_token_op ∨ op = AuthServer.get_update_token_op ∨
      op = AuthServer.get_update_data)
    (hok : (AuthServer.handle_get acct message).1.status = status_codes.OK) :
    acct.sas_sign
        ⟨acct.utc_now + datetime_from_days 1,
         if op = AuthServer.get_read_token_op then permissions_read
         else permissions_read ||| permissions_update, P, R, P, R⟩
      = some (map_index (unpack_json_object (AuthServer.handle_get acct message).1.body)
          "token") := by
  rw [AuthServer.handle_get_expected_record acct message op userid p P R e hauth hdata hpaths
    hbody hne hascii hrec hprops hop] at hok ⊢
  simp only at hok ⊢
  cases hs : acct.sas_sign
      ⟨acct.utc_now + datetime_from_days 1,
       if op = AuthServer.get_read_token_op then permissions_read
       else permissions_read ||| permissions_update, P, R, P, R⟩ with
  | none => simp [hs] at hok
  | some tok =>
    by_cases hd : op = AuthServer.get_update_data
    · simp [hd, unpack_json_object, map_assign, map_index, List.lookup,
        AuthServer.auth_table_partition_prop, AuthServer.auth_table_row_prop]
    · simp [hd, unpack_json_object, map_assign, map_index, List.lookup]

/-- Claim C6: take a token the Token Issuer minted for the coordinate A = (P, R)
(its reply was OK) and a storage collaborator that recognises the signatures it
issued.  Presented to the Data Gateway's token-gated read or update with the path
segments of another coordinate B, the token is answered Forbidden, and the
tables are unchanged; and a token obtained with GetReadToken is answered
Forbidden by the token-gated update at any coordinate. -/
theorem token_rejected_elsewhere (acct : storage_account) (message : http_request)
    (op userid p P R : String) (e : table_entity) (B : String × String)
    (body : List (String × String))
    (hauth : table_exists (lookup_table acct AuthServer.auth_table_name) = true)
    (hdata : table_exists (lookup_table acct AuthServer.data_table_name) = true)
    (hpaths : message.paths = [op, userid])
    (hbody : get_json_body message = [(AuthServer.auth_table_password_prop, p)])
    (hne : p ≠ "") (hascii : AuthServer.has_non_ascii7 p = false)
    (hrec : find_entity (lookup_table acct AuthServer.auth_table_name)
        AuthServer.auth_table_userid_partition userid = some e)
    (hprops : e.properties.Perm [(AuthServer.auth_table_password_prop, p),
      (AuthServer.auth_table_partition_prop, P), (AuthServer.auth_table_row_prop, R)])
    (hop : op = AuthServer.get_read_token_op ∨ op = AuthServer.get_update_token_op ∨
      op = AuthServer.get_update_data)
    (hok : (AuthServer.handle_get acct message).1.status = status_codes.OK)
    (hsound : ∀ sas tok, acct.sas_sign sas = some tok → acct.sas_decode tok = some sas) :
    ((P, R) ≠ B →
      BasicServer.handle_get acct
          ⟨[BasicServer.read_entity_auth, AuthServer.data_table_name,
            map_index (unpack_json_object (AuthServer.handle_get acct message).1.body) "token",
            B.1, B.2], body⟩
        = .replied ⟨status_codes.Forbidden, value.null⟩ ∧
      BasicServer.handle_put acct
          ⟨[BasicServer.update_entity_auth, AuthServer.data_table_name,
            map_index (unpack_json_object (AuthServer.handle_get acct message).1.body) "token",
            B.1, B.2], body⟩
        = (.replied ⟨status_codes.Forbidden, value.null⟩, acct)) ∧
    (op = AuthServer.get_read_token_op →
      BasicServer.handle_put acct
          ⟨[BasicServer.update_entity_auth, AuthServer.data_table_name,
            map_index (unpack_json_object (AuthServer.handle_get acct message).1.body) "token",
            B.1, B.2], body⟩
        = (.replied ⟨status_codes.Forbidden, value.null⟩, acct)) := by
  have hdec := hsound _ _ (minted_token_signed acct message op userid p P R e hauth hdata hpaths
    hbody hne hascii hrec hprops hop hok)
  constructor
  · intro hAB
    have hB : ((P, R) : String × String) ≠ (B.1, B.2) := by simpa using hAB
    exact ⟨read_auth_forbidden acct _ _ B.1 B.2 body hdata
        (token_not_authorized_elsewhere acct _ _ _ B.1 B.2 hdec rfl hB),
      update_auth_forbidden acct _ _ B.1 B.2 body hdata
        (token_not_authorized_elsewhere acct _ _ _ B.1 B.2 hdec rfl hB)⟩
  · intro hread
    exact update_auth_forbidden acct _ _ B.1 B.2 body hdata
      (read_token_not_authorized_update acct _ _ B.1 B.2 hdec (by simp [hread]))

/-- The collaborator of the signing account recognises what it signed. -/
theorem signing_account_sound (sas : shared_access_signature) (tok : String)
    (h : signing_account.sas_sign sas = some tok) :
    signing_account.sas_decode tok = some sas := by
  simp only [signing_account] at h ⊢
  by_cases hs : sas = amy_read_signature
  · simp [hs] at h
    simp [← h, hs]
  · simp [hs] at h

/-- Instance of `token_rejected_elsewhere`: the read token of `amy`, minted for
(US, Amy,A), presented for (CA, Bob,B). -/
theorem token_rejected_elsewhere_witness :
    (("US", "Amy,A") ≠ ("CA", "Bob,B") →
      BasicServer.handle_get signing_account
          ⟨[BasicServer.read_entity_auth, AuthServer.data_table_name,
            map_index (unpack_json_object (AuthServer.handle_get signing_account
              (AuthServer.sample_request "GetReadToken" "amy" "pw")).1.body) "token",
            "CA", "Bob,B"], []⟩
        = .replied ⟨status_codes.Forbidden, value.null⟩ ∧
      BasicServer.handle_put signing_account
          ⟨[BasicServer.update_entity_auth, AuthServer.data_table_name,
            map_index (unpack_json_object (AuthServer.handle_get signing_account
              (AuthServer.sample_request "GetReadToken" "amy" "pw")).1.body) "token",
            "CA", "Bob,B"], []⟩
        = (.replied ⟨status_codes.Forbidden, value.null⟩, signing_account)) ∧
    ("GetReadToken" = AuthServer.get_read_token_op →
      BasicServer.handle_put signing_account
          ⟨[BasicServer.update_entity_auth, AuthServer.data_table_name,
            map_index (unpack_json_object (AuthServer.handle_get signing_account
              (AuthServer.sample_request "GetReadToken" "amy" "pw")).1.body) "token",
            "CA", "Bob,B"], []⟩
        = (.replied ⟨status_codes.Forbidden, value.null⟩, signing_account)) :=
  token_rejected_elsewhere signing_account _ "GetReadToken" "amy" "pw" "US" "Amy,A"
    ⟨"Userid", "amy", [("Password", "pw"), ("DataPartition", "US"), ("DataRow", "Amy,A")]⟩
    ("CA", "Bob,B") [] (by decide) (by decide) rfl (by decide) (by decide) (by decide)
    (by decide) (List.Perm.refl _) (Or.inl rfl) (by decide) signing_account_sound

/-- The model of the collaborator does not refuse everything: the read token of
`amy` presented at her own coordinate is answered OK with her entity. -/
theorem own_token_reads_entity :
    BasicServer.handle_get signing_account
        ⟨[BasicServer.read_entity_auth, "DataTable", "tokA", "US", "Amy,A"], []⟩
      = .replied ⟨status_codes.OK,
          value.object [("Friends", ""), ("Status", ""), ("Updates", "")]⟩ := by
  decide

namespace UserServer

/-- Instance of `sign_on_non_ascii_password`: `amy` signs on with an accented
password. -/
theorem sign_on_non_ascii_password_witness :
    (∃ c v, c ≠ status_codes.OK ∧
      (do_request_with_issuer AuthServer.sample_account all_fine method.GET
        (auth_url ++ get_update_data ++ "/" ++ "amy")
        (build_json_value auth_table_password_prop "pé") []).1 = .ok (c, v) ∧
      (AuthServer.handle_get AuthServer.sample_account ⟨[get_update_data, "amy"],
        [(auth_table_password_prop, "pé")]⟩).1 = ⟨c, v⟩) ∧
    (handle_post (do_request_with_issuer AuthServer.sample_account all_fine)
        ⟨["SignOn", "amy"], [("Password", "pé")]⟩ [] []).1 = reply status_codes.NotFound ∧
    (handle_post (do_request_with_issuer AuthServer.sample_account all_fine)
        ⟨["SignOn", "amy"], [("Password", "pé")]⟩ [] []).2.1 = [] :=
  sign_on_non_ascii_password AuthServer.sample_account all_fine
    ⟨["SignOn", "amy"], [("Password", "pé")]⟩ "amy" "pé" [] [] rfl (by decide) (by decide)
    (by decide) (by decide)

end UserServer

/-! ### The session table -/

/-- A key added at the end of a map that had none is found with its value. -/
theorem lookup_append_new {β : Type} (m : List (String × β)) (k : String) (v : β)
    (h : m.lookup k = none) : (m ++ [(k, v)]).lookup k = some v := by
  induction m with
  | nil => simp [List.lookup]
  | cons p m ih =>
    obtain ⟨k1, v1⟩ := p
    simp only [List.cons_append, List.lookup_cons] at h ⊢
    cases hk : (k == k1) with
    | true => simp [hk] at h
    | false =>
      simp only [hk] at h ⊢
      exact ih h

/-- After `erase` the key is gone. -/
theorem lookup_map_erase_self {β : Type} (m : List (String × β)) (k : String) :
    (map_erase m k).lookup k = none := by
  unfold map_erase
  induction m with
  | nil => rfl
  | cons p m ih =>
    obtain ⟨k1, v1⟩ := p
    rw [List.filter_cons]
    split
    · rename_i hc
      have hk : ¬ k1 = k := by simpa using hc
      have hk2 : (k == k1) = false := by simpa using fun e => hk e.symm
      rw [List.lookup_cons, hk2]
      exact ih
    · exact ih

/-- The call `erase` leaves every other key as it was. -/
theorem lookup_map_erase_other {β : Type} (m : List (String × β)) (k k2 : String)
    (h : k2 ≠ k) : (map_erase m k).lookup k2 = m.lookup k2 := by
  unfold map_erase
  induction m with
  | nil => rfl
  | cons p m ih =>
    obtain ⟨k1, v1⟩ := p
    rw [List.filter_cons]
    split
    · rw [List.lookup_cons, List.lookup_cons, ih]
    · rename_i hc
      have hk : k1 = k := by simpa using hc
      have hk2 : (k2 == k1) = false := by simpa [hk] using h
      rw [List.lookup_cons, hk2]
      exact ih

/-- A key that is looked up without result is not among the keys. -/
theorem lookup_none_not_mem {β : Type} (m : List (String × β)) (k : String)
    (h : m.lookup k = none) : k ∉ m.map Prod.fst := by
  intro hmem
  obtain ⟨p, hp, hpk⟩ := List.mem_map.mp hmem
  have := (List.lookup_eq_none_iff.mp h) p hp
  simp [hpk] at this

/-- Reading the key just assigned gives the value assigned. -/
theorem lookup_map_assign_self {β : Type} (m : List (String × β)) (k : String) (v : β) :
    (map_assign m k v).lookup k = some v := by
  unfold map_assign
  cases h : (m.lookup k).isSome with
  | false =>
    simp only [Bool.false_eq_true, if_false]
    exact lookup_append_new m k v (by simpa using h)
  | true =>
    simp only [if_true]
    induction m with
    | nil => simp [List.lookup] at h
    | cons p m ih =>
      obtain ⟨k1, v1⟩ := p
      by_cases hk : k1 = k
      · subst hk
        simp [List.lookup_cons]
      · have hk2 : (k == k1) = false := by simpa using fun e => hk e.symm
        have hk3 : (k1 == k) = false := by simpa using hk
        simp only [List.lookup_cons, hk2] at h
        simp only [List.map_cons, hk3, Bool.false_eq_true, if_false, List.lookup_cons, hk2]
        exact ih h

/-- An assignment leaves every other key as it was. -/
theorem lookup_map_assign_other {β : Type} (m : List (String × β)) (k k2 : String) (v : β)
    (h : k2 ≠ k) : (map_assign m k v).lookup k2 = m.lookup k2 := by
  have hk : (k2 == k) = false := by simpa using h
  have hmap : ∀ l : List (String × β),
      (l.map (fun p => if p.1 == k then (k, v) else p)).lookup k2 = l.lookup k2 := by
    intro l
    induction l with
    | nil => rfl
    | cons p l ih =>
      obtain ⟨k1, v1⟩ := p
      by_cases hk1 : k1 = k
      · subst hk1
        simp only [List.map_cons, beq_self_eq_true, if_true, List.lookup_cons, hk]
        exact ih
      · have hk3 : (k1 == k) = false := by simpa using hk1
        simp only [List.map_cons, hk3, Bool.false_eq_true, if_false, List.lookup_cons]
        rw [ih]
  unfold map_assign
  split
  · exact hmap m
  · rw [List.lookup_append]
    simp [List.lookup, hk]

/-- An assignment keeps the keys distinct. -/
theorem nodup_keys_map_assign {β : Type} (m : List (String × β)) (k : String) (v : β)
    (h : (m.map Prod.fst).Nodup) : ((map_assign m k v).map Prod.fst).Nodup := by
  unfold map_assign
  split
  · have : (m.map (fun p => if p.1 == k then (k, v) else p)).map Prod.fst = m.map Prod.fst := by
      rw [List.map_map]
      apply List.map_congr_left
      intro p _
      by_cases hp : p.1 = k
      · simp [hp]
      · simp [hp]
    rw [this]
    exact h
  · rename_i hnone
    have hn : m.lookup k = none := by
      cases hl : m.lookup k with
      | none => rfl
      | some b => simp [hl] at hnone
    rw [List.map_append, List.map_cons, List.map_nil]
    exact List.Nodup.append h (List.nodup_singleton k)
      (by
        intro x hx hx2
        rw [List.mem_singleton] at hx2
        subst hx2
        exact lookup_none_not_mem m x hn hx)

/-- Filling a map from members with distinct names keeps the members as they
are. -/
theorem foldl_map_assign_nodup (props acc : List (String × String))
    (hnodup : (props.map Prod.fst).Nodup)
    (hnew : ∀ k ∈ props.map Prod.fst, acc.lookup k = none) :
    props.foldl (fun results v => map_assign results v.1 v.2) acc = acc ++ props := by
  induction props generalizing acc with
  | nil => simp
  | cons p rest ih =>
    obtain ⟨k, v⟩ := p
    rw [List.map_cons, List.nodup_cons] at hnodup
    have hk : acc.lookup k = none := hnew k (by simp)
    have hstep : map_assign acc k v = acc ++ [(k, v)] := by
      unfold map_assign
      simp [hk]
    rw [List.foldl_cons]
    simp only [hstep]
    rw [ih (acc ++ [(k, v)]) hnodup.2]
    · simp
    · intro k2 hk2
      have hne : k2 ≠ k := fun e => hnodup.1 (e ▸ hk2)
      have hkb : (k2 == k) = false := by simpa using hne
      rw [List.lookup_append, hnew k2 (List.mem_cons_of_mem _ hk2)]
      simp [List.lookup, hkb]

/-- A JSON object with distinct member names unpacks to its members. -/
theorem unpack_object_nodup (props : List (String × String))
    (hnodup : (props.map Prod.fst).Nodup) :
    unpack_json_object (value.object props) = props := by
  show props.foldl (fun results v => map_assign results v.1 v.2) [] = props
  rw [foldl_map_assign_nodup props [] hnodup (by simp)]
  rfl

namespace UserServer

/-- Claim C12: for every session table S and userid u, a SignOff of u replies
NotFound and leaves S unchanged when S has no entry for u; otherwise it replies
OK and the table becomes S without the entry of u, every other userid keeping
its token and coordinate, and a following ReadFriendList for u replies
Forbidden.  No request is sent to another service. -/
theorem sign_off_removes_session (respond : responder) (u : String) (rest : List String)
    (body : List (String × String)) (S : session_table) (log : List request_sent) :
    (S.lookup u = none →
      handle_post (do_request_logged respond) ⟨sign_off :: u :: rest, body⟩ S log
        = (reply status_codes.NotFound, S, log)) ∧
    (∀ entry, S.lookup u = some entry →
      handle_post (do_request_logged respond) ⟨sign_off :: u :: rest, body⟩ S log
        = (reply status_codes.OK, remove_user S u, log) ∧
      (remove_user S u).lookup u = none ∧
      (∀ v, v ≠ u → (remove_user S u).lookup v = S.lookup v) ∧
      handle_get (do_request_logged respond) ⟨[read_friend_list, u], []⟩ (remove_user S u) log
        = (reply status_codes.Forbidden, remove_user S u, log)) := by
  have hop : (sign_off == sign_on) = false := by decide
  constructor
  · intro h
    simp [handle_post, hop, h]
  · intro entry h
    refine ⟨?_, lookup_map_erase_self S u, fun v hv => lookup_map_erase_other S u v hv, ?_⟩
    · simp [handle_post, hop, h]
    · simp [handle_get, get_user, remove_user, lookup_map_erase_self]

/-- Claim C11 fails as stated: `alice` already has a session with the token tok1;
she signs on again, the Token Issuer returns tok2 and the reply is OK, but her
entry still holds tok1. -/
theorem sign_on_keeps_old_token :
    (handle_post (do_request_logged all_fine) alice_signs_on alice_session []).1
        = reply status_codes.OK ∧
      all_fine [] ⟨method.GET, "http://localhost:34570/GetUpdateData/alice",
          value.object [("Password", "secret")]⟩
        = .ok (status_codes.OK,
            value.object [("token", "tok2"), ("DataPartition", "US"), ("DataRow", "Alice,A")]) ∧
      (handle_post (do_request_logged all_fine) alice_signs_on alice_session []).2.1.lookup "alice"
        = some ("tok1", "US", "Alice,A") := by
  refine ⟨by decide, rfl, by decide⟩

/-- Claim C11, as amended: after a SignOn that replies OK the Token Issuer answered
OK, and the session table is the former one with the userid inserted when it had
no entry: a userid without a session is mapped to exactly the token,
DataPartition and DataRow the Token Issuer returned in that call, and a userid
that already had a session keeps its former entry. -/
theorem sign_on_records_issued {σ : Type} (do_request : do_request_t σ)
    (message : http_request) (userid : String) (rest : List String)
    (active_users : session_table) (w : σ)
    (hpaths : message.paths = sign_on :: userid :: rest)
    (hok : (handle_post do_request message active_users w).1 = reply status_codes.OK) :
    ∃ auth_body,
      (do_request method.GET (auth_url ++ get_update_data ++ "/" ++ userid)
        (build_json_value auth_table_password_prop
          (map_index (get_json_body message) auth_table_password_prop)) w).1
        = .ok (status_codes.OK, auth_body) ∧
      (active_users.lookup userid = none →
        (handle_post do_request message active_users w).2.1 =
          active_users ++ [(userid,
            (map_index (unpack_json_object auth_body) "token",
             map_index (unpack_json_object auth_body) auth_table_partition_prop,
             map_index (unpack_json_object auth_body) auth_table_row_prop))] ∧
        (handle_post do_request message active_users w).2.1.lookup userid =
          some (map_index (unpack_json_object auth_body) "token",
            map_index (unpack_json_object auth_body) auth_table_partition_prop,
            map_index (unpack_json_object auth_body) auth_table_row_prop)) ∧
      (∀ entry, active_users.lookup userid = some entry →
        (handle_post do_request message active_users w).2.1 = active_users ∧
        (handle_post do_request message active_users w).2.1.lookup userid = some entry) := by
  have hlen : ¬ (rest.length + 1 + 1 < 2) := by omega
  simp only [handle_post, hpaths, List.length_cons, hlen, if_false, List.getD_cons_zero,
    List.getD_cons_succ, beq_self_eq_true, if_true, sign_on_block] at hok ⊢
  by_cases h1 : (get_json_body message).length = 1
  swap
  · simp [h1, reply] at hok
  by_cases h2 : map_index (get_json_body message) auth_table_password_prop = ""
  · simp [h1, h2, reply] at hok
  by_cases h3 : userid.data.any not_alphabetical = true
  · simp [h1, h2, h3, reply] at hok
  simp only [h1, bne_self_eq_false, Bool.false_eq_true, if_false, h2, beq_iff_eq, h3] at hok ⊢
  cases hA : do_request method.GET (auth_url ++ get_update_data ++ "/" ++ userid)
      (build_json_value auth_table_password_prop
        (map_index (get_json_body message) auth_table_password_prop)) w with
  | mk r1 w1 =>
    rw [hA] at hok
    cases r1 with
    | error e => simp [reply] at hok
    | ok auth_result =>
      obtain ⟨c, auth_body⟩ := auth_result
      simp only at hok
      by_cases h4 : (c == status_codes.NotFound || c == status_codes.BadRequest) = true
      · simp [h4, reply] at hok
      simp only [h4, Bool.false_eq_true, if_false] at hok
      cases hB : do_request method.GET
          (basic_url ++ read_entity ++ "/" ++ data_table_name ++ "/"
            ++ map_index (unpack_json_object auth_body) auth_table_partition_prop ++ "/"
            ++ map_index (unpack_json_object auth_body) auth_table_row_prop)
          value.null w1 with
      | mk r2 w2 =>
        rw [hB] at hok
        cases r2 with
        | error e => simp [reply] at hok
        | ok basic_result =>
          obtain ⟨d, basic_body⟩ := basic_result
          simp only at hok
          by_cases h5 : d = status_codes.NotFound
          · simp [h5, reply] at hok
          by_cases h6 : c = status_codes.OK ∧ d = status_codes.OK
          swap
          · have hso : ¬ (sign_on = sign_off) := by decide
            simp [h5, h6, hso, reply] at hok
          obtain ⟨hc, hd⟩ := h6
          subst hc
          subst hd
          refine ⟨auth_body, rfl, ?_, ?_⟩
          · intro hnone
            simp [hB, hnone, add_user, map_insert, lookup_append_new]
          · intro entry hsome
            simp [hB, hsome]

/-- Instance of `sign_on_records_issued`: the first sign-on of `alice`. -/
theorem sign_on_records_issued_witness :
    ∃ auth_body,
      (do_request_logged all_fine method.GET (auth_url ++ get_update_data ++ "/" ++ "alice")
        (build_json_value auth_table_password_prop
          (map_index (get_json_body alice_signs_on) auth_table_password_prop)) []).1
        = .ok (status_codes.OK, auth_body) ∧
      (([] : session_table).lookup "alice" = none →
        (handle_post (do_request_logged all_fine) alice_signs_on [] []).2.1 =
          [] ++ [("alice",
            (map_index (unpack_json_object auth_body) "token",
             map_index (unpack_json_object auth_body) auth_table_partition_prop,
             map_index (unpack_json_object auth_body) auth_table_row_prop))] ∧
        (handle_post (do_request_logged all_fine) alice_signs_on [] []).2.1.lookup "alice" =
          some (map_index (unpack_json_object auth_body) "token",
            map_index (unpack_json_object auth_body) auth_table_partition_prop,
            map_index (unpack_json_object auth_body) auth_table_row_prop)) ∧
      (∀ entry, ([] : session_table).lookup "alice" = some entry →
        (handle_post (do_request_logged all_fine) alice_signs_on [] []).2.1 = [] ∧
        (handle_post (do_request_logged all_fine) alice_signs_on [] []).2.1.lookup "alice"
          = some entry) :=
  sign_on_records_issued (do_request_logged all_fine) alice_signs_on "alice" [] [] [] rfl
    (by decide)

/-- Instance of `sign_off_removes_session`: `bob` has no session, `alice` has one. -/
theorem sign_off_removes_session_witness :
    handle_post (do_request_logged all_fine) ⟨sign_off :: "bob" :: [], []⟩ alice_session []
        = (reply status_codes.NotFound, alice_session, []) ∧
    (handle_post (do_request_logged all_fine) ⟨sign_off :: "alice" :: [], []⟩ alice_session []
        = (reply status_codes.OK, remove_user alice_session "alice", []) ∧
      (remove_user alice_session "alice").lookup "alice" = none ∧
      (∀ v, v ≠ "alice" → (remove_user alice_session "alice").lookup v = alice_session.lookup v) ∧
      handle_get (do_request_logged all_fine) ⟨[read_friend_list, "alice"], []⟩
          (remove_user alice_session "alice") []
        = (reply status_codes.Forbidden, remove_user alice_session "alice", [])) :=
  ⟨(sign_off_removes_session all_fine "bob" [] [] alice_session []).1 rfl,
   (sign_off_removes_session all_fine "alice" [] [] alice_session []).2
     ("tok1", "US", "Alice,A") rfl⟩

end UserServer

/-! ### The friend-list codec -/

/-- The accumulator of `String.intercalate` only grows at its end. -/
theorem intercalate_go_data (x y s : String) (l : List String) :
    (String.intercalate.go (x ++ y) s l).data = x.data ++ (String.intercalate.go y s l).data := by
  induction l generalizing y with
  | nil => simp [String.intercalate.go]
  | cons a l ih =>
    simp only [String.intercalate.go]
    rw [String.append_assoc, String.append_assoc, ← String.append_assoc y, ih]

/-- The characters of the encoding of a friend list. -/
theorem friends_list_to_string_data (list : List (String × String)) :
    (friends_list_to_string list).data = encode_chars list := by
  induction list with
  | nil => rfl
  | cons p rest ih =>
    cases rest with
    | nil =>
      simp [friends_list_to_string, String.intercalate, String.intercalate.go, encode_chars,
        friend_entry]
    | cons q rest =>
      have h : friends_list_to_string (q :: rest) =
          String.intercalate.go (q.1 ++ ";" ++ q.2) "|" (rest.map (fun p => p.1 ++ ";" ++ p.2)) := by
        simp [friends_list_to_string, String.intercalate]
      rw [encode_chars, ← ih, h]
      simp only [friends_list_to_string, List.map_cons, String.intercalate,
        String.intercalate.go]
      rw [intercalate_go_data]
      simp [friend_entry]

/-- No piece of a split holds the separator. -/
theorem split_on_pieces (sep : Char) (l : List Char) :
    ∀ w ∈ split_on sep l, sep ∉ w := by
  induction l with
  | nil => simp [split_on]
  | cons c cs ih =>
    by_cases hc : c = sep
    · simp only [split_on, hc, if_true, List.mem_cons]
      rintro w (rfl | hw)
      · simp
      · exact ih w hw
    · simp only [split_on, hc, if_false]
      cases hs : split_on sep cs with
      | nil => simp [Ne.symm hc]
      | cons w ws =>
        rw [hs] at ih
        simp only [List.mem_cons]
        rintro v (rfl | hv)
        · have := ih w (by simp)
          simp [Ne.symm hc, this]
        · exact ih v (by simp [hv])

/-- An entry whose country holds no semicolon splits back into its two fields. -/
theorem decode_friend_entry (p : String × String) (h : ';' ∉ p.1.data) :
    (String.mk ((friend_entry p).takeWhile (fun c => c != ';')),
     String.mk (((friend_entry p).dropWhile (fun c => c != ';')).drop 1)) = p := by
  obtain ⟨country, name⟩ := p
  have key : ∀ (l : List Char), ';' ∉ l →
      (l ++ ';' :: name.data).takeWhile (fun c => c != ';') = l ∧
      (l ++ ';' :: name.data).dropWhile (fun c => c != ';') = ';' :: name.data := by
    intro l hl
    induction l with
    | nil => simp [List.takeWhile, List.dropWhile]
    | cons c cs ih =>
      have hc : c ≠ ';' := fun e => hl (by simp [e])
      have hcs : ';' ∉ cs := fun e => hl (by simp [e])
      have hb : (c != ';') = true := by simpa using hc
      simp [List.takeWhile, List.dropWhile, hb, ih hcs]
  obtain ⟨h1, h2⟩ := key country.data h
  simp [friend_entry, h1, h2]

/-- The encoding of a list of separator-free pairs splits at the bars into its
entries. -/
theorem split_encode_chars (list : List (String × String)) (hne : list ≠ [])
    (hfree : ∀ p ∈ list, separator_free p) :
    split_on '|' (encode_chars list) = list.map friend_entry := by
  induction list with
  | nil => exact absurd rfl hne
  | cons p rest ih =>
    have hp := hfree p (by simp)
    have hentry : '|' ∉ friend_entry p := by
      simp only [friend_entry, List.mem_append, List.mem_cons, not_or]
      exact ⟨hp.1, by decide, hp.2.2⟩
    cases rest with
    | nil => simp [encode_chars, split_on_no_sep _ _ hentry]
    | cons q rest =>
      rw [encode_chars, split_on_append _ _ _ hentry,
        ih (by simp) (fun r hr => hfree r (by simp [hr]))]
      simp

/-- The encoding of a non-empty list is not the empty string. -/
theorem friends_list_to_string_ne_empty (list : List (String × String)) (hne : list ≠ []) :
    friends_list_to_string list ≠ "" := by
  intro h
  have hd : (friends_list_to_string list).data = [] := by rw [h]
  rw [friends_list_to_string_data] at hd
  cases list with
  | nil => exact hne rfl
  | cons p rest =>
    cases rest with
    | nil => simp [encode_chars, friend_entry] at hd
    | cons q rest => simp [encode_chars, friend_entry] at hd

/-- Decoding after encoding gives the list back when its pairs are separator
free. -/
theorem parse_after_to_string (list : List (String × String))
    (hfree : ∀ p ∈ list, separator_free p) :
    parse_friends_list (friends_list_to_string list) = list := by
  by_cases hne : list = []
  · subst hne
    rfl
  · have h1 := friends_list_to_string_ne_empty list hne
    simp only [parse_friends_list, beq_iff_eq, h1, if_false, friends_list_to_string_data,
      split_encode_chars list hne hfree, List.map_map]
    conv => rhs; rw [← List.map_id list]
    apply List.map_congr_left
    intro p hp
    exact decode_friend_entry p (hfree p hp).2.1

/-- Every decoded pair is separator free. -/
theorem parse_separator_free (friends_list : String) :
    ∀ p ∈ parse_friends_list friends_list, separator_free p := by
  intro p hp
  unfold parse_friends_list at hp
  split at hp
  · simp at hp
  · simp only [List.mem_map] at hp
    obtain ⟨f, hf, rfl⟩ := hp
    have hbar := split_on_pieces '|' friends_list.data f hf
    refine ⟨?_, ?_, ?_⟩
    · intro h
      exact hbar ((List.takeWhile_sublist _).subset h)
    · intro h
      have := List.mem_takeWhile_imp h
      simp at this
    · intro h
      exact hbar ((List.dropWhile_sublist _).subset ((List.drop_sublist 1 _).subset h))

namespace UserServer

/-- The search of AddFriend finds an entry exactly when the pair is in the list. -/
theorem any_match_iff (c n : String) (l : List (String × String)) :
    l.any (fun f => f.1 == c && f.2 == n) = true ↔ (c, n) ∈ l := by
  simp only [List.any_eq_true, Bool.and_eq_true, beq_iff_eq]
  constructor
  · rintro ⟨⟨a, b⟩, hmem, h1, h2⟩
    simp only at h1 h2
    rw [← h1, ← h2]
    exact hmem
  · intro h
    exact ⟨(c, n), h, rfl, rfl⟩

/-- The loop of UnFriend erases nothing when the pair is not in the list. -/
theorem erase_first_match_absent (c n : String) (l : List (String × String))
    (h : (c, n) ∉ l) : erase_first_match c n l = none := by
  induction l with
  | nil => rfl
  | cons f rest ih =>
    obtain ⟨a, b⟩ := f
    have hf : ¬ (a = c ∧ b = n) := fun e => h (by simp [e.1, e.2])
    have hrest : (c, n) ∉ rest := fun e => h (by simp [e])
    simp [erase_first_match, hf, ih hrest]

/-- The loop of UnFriend erases the first entry equal to the pair and keeps the
entries before and after it. -/
theorem erase_first_match_split (c n : String) (pre post : List (String × String))
    (h : (c, n) ∉ pre) : erase_first_match c n (pre ++ (c, n) :: post) = some (pre ++ post) := by
  induction pre with
  | nil => simp [erase_first_match]
  | cons f rest ih =>
    obtain ⟨a, b⟩ := f
    have hf : ¬ (a = c ∧ b = n) := fun e => h (by simp [e.1, e.2])
    have hrest : (c, n) ∉ rest := fun e => h (by simp [e])
    simp [erase_first_match, hf, ih hrest]

/-- Claim C13 fails as stated for fields that hold a separator: the pair
(a;b, c) and the pair (a, b;c) have the same encoding, which decodes to the
second; and a country with a bar is decoded as two entries. -/
theorem round_trip_fails_with_separators :
    friends_list_to_string [("a;b", "c")] = friends_list_to_string [("a", "b;c")] ∧
    parse_friends_list (friends_list_to_string [("a;b", "c")]) = [("a", "b;c")] ∧
    parse_friends_list (friends_list_to_string [("a;b", "c")]) ≠ [("a;b", "c")] ∧
    parse_friends_list (friends_list_to_string [("a|b", "c")]) = [("a", ""), ("b", "c")] := by
  decide

/-- Claim C13, as amended: for every finite sequence L of (country, name) pairs in
which no country holds a semicolon or a bar and no name holds a bar, the empty
sequence and sequences with duplicate pairs included, decoding the encoding of
L gives L; the encoding is made of `country;name` entries joined by bars and
the empty sequence is encoded as the empty string. -/
theorem codec_round_trip (list : List (String × String))
    (hfree : ∀ p ∈ list, separator_free p) :
    parse_friends_list (friends_list_to_string list) = list ∧
      (friends_list_to_string list).data = encode_chars list ∧
      friends_list_to_string [] = "" :=
  ⟨parse_after_to_string list hfree, friends_list_to_string_data list, rfl⟩

/-- Instance of `codec_round_trip`: a list with a duplicate pair. -/
theorem codec_round_trip_witness :
    parse_friends_list (friends_list_to_string
        [("CA", "Bob,B"), ("US", "Amy;A"), ("CA", "Bob,B")])
        = [("CA", "Bob,B"), ("US", "Amy;A"), ("CA", "Bob,B")] ∧
      (friends_list_to_string [("CA", "Bob,B"), ("US", "Amy;A"), ("CA", "Bob,B")]).data
        = encode_chars [("CA", "Bob,B"), ("US", "Amy;A"), ("CA", "Bob,B")] ∧
      friends_list_to_string [] = "" :=
  codec_round_trip [("CA", "Bob,B"), ("US", "Amy;A"), ("CA", "Bob,B")] (by decide)

/-- The friend list read from a body that holds it. -/
theorem friends_of_body (read_body : value) :
    map_index (unpack_json_object (value.object [(friends, map_index
      (unpack_json_object read_body) friends)])) friends
      = map_index (unpack_json_object read_body) friends := by
  simp [unpack_json_object, map_assign, map_index, List.lookup]

/-- AddFriend against recorded services, once the session exists and the read
was answered with a status other than BadRequest and NotFound. -/
theorem add_friend_logged (respond : responder) (userid c n : String) (rest : List String)
    (body : List (String × String)) (active_users : session_table) (log : List request_sent)
    (user_properties : String × String × String) (s : status_code) (read_body : value)
    (hsession : active_users.lookup userid = some user_properties)
    (hread : respond log (read_request user_properties) = .ok (s, read_body))
    (hs1 : s ≠ status_codes.BadRequest) (hs2 : s ≠ status_codes.NotFound) :
    handle_put (do_request_logged respond) ⟨add_friend :: userid :: c :: n :: rest, body⟩
        active_users log =
      if (c, n) ∈ parse_friends_list (map_index (unpack_json_object read_body) friends) then
        (reply status_codes.OK, active_users, log ++ [read_request user_properties])
      else
        match respond (log ++ [read_request user_properties])
            (write_request user_properties (build_json_value friends (friends_list_to_string
              (parse_friends_list (map_index (unpack_json_object read_body) friends)
                ++ [(c, n)])))) with
        | .error _ =>
          (.raised, active_users, log ++ [read_request user_properties,
            write_request user_properties (build_json_value friends (friends_list_to_string
              (parse_friends_list (map_index (unpack_json_object read_body) friends)
                ++ [(c, n)])))])
        | .ok friend_result =>
          (if friend_result.1 = status_codes.OK then reply status_codes.OK
            else reply status_codes.BadRequest,
           active_users, log ++ [read_request user_properties,
            write_request user_properties (build_json_value friends (friends_list_to_string
              (parse_friends_list (map_index (unpack_json_object read_body) friends)
                ++ [(c, n)])))]) := by
  simp only [read_request] at hread
  simp only [handle_put, add_friend_block, get_user, read_own_entity, write_own_property,
    do_request_logged, read_request, write_request, List.getElem?_cons_zero,
    List.getElem?_cons_succ, beq_self_eq_true, if_true, hsession, hread]
  simp only [beq_iff_eq, hs1, hs2, Bool.or_self, Bool.false_eq_true, if_false, or_self,
    decide_False, Bool.decide_eq_true]
  by_cases hmem : (c, n) ∈ parse_friends_list (map_index (unpack_json_object read_body) friends)
  · have hany := (any_match_iff c n _).mpr hmem
    simp [hany, hmem, hs1, hs2]
  · have hany : (parse_friends_list (map_index (unpack_json_object read_body) friends)).any
        (fun f => f.1 == c && f.2 == n) = false := by
      rw [Bool.eq_false_iff]
      exact fun h => hmem ((any_match_iff c n _).mp h)
    simp only [hany, hmem, Bool.false_eq_true, if_false]
    cases respond _ _ with
    | error e => simp [hs1, hs2]
    | ok r =>
      by_cases hr : r.1 = status_codes.OK
      · simp [hr, hs1, hs2]
      · simp [hr, hs1, hs2]

/-- Claim C14: for a user with a session whose token-gated read returns OK with
an object in which Friends = F, and a pair (c, n) that is not in the decoded F,
AddFriend sends, after the read, exactly one write, to the coordinate of the
session, whose body is the single property Friends = encoding of (decoded F
followed by (c, n)); the session table is unchanged and the reply is OK when
that write reports OK. -/
theorem add_friend_appends (respond : responder) (userid c n F : String) (rest : List String)
    (body : List (String × String)) (active_users : session_table) (log : List request_sent)
    (user_properties : String × String × String) (props : List (String × String))
    (hsession : active_users.lookup userid = some user_properties)
    (hread : respond log (read_request user_properties)
      = .ok (status_codes.OK, value.object props))
    (hprops : (props.map Prod.fst).Nodup)
    (hF : props.lookup "Friends" = some F)
    (habsent : (c, n) ∉ parse_friends_list F) :
    (handle_put (do_request_logged respond) ⟨add_friend :: userid :: c :: n :: rest, body⟩
        active_users log).2.2
      = log ++ [read_request user_properties,
          ⟨method.PUT,
           basic_url ++ update_entity ++ "/" ++ data_table_name ++ "/" ++ user_properties.2.1
             ++ "/" ++ user_properties.2.2,
           value.object [("Friends", friends_list_to_string
             (parse_friends_list F ++ [(c, n)]))]⟩] ∧
    (handle_put (do_request_logged respond) ⟨add_friend :: userid :: c :: n :: rest, body⟩
        active_users log).2.1 = active_users ∧
    (∀ write_body,
      respond (log ++ [read_request user_properties])
          ⟨method.PUT,
           basic_url ++ update_entity ++ "/" ++ data_table_name ++ "/" ++ user_properties.2.1
             ++ "/" ++ user_properties.2.2,
           value.object [("Friends", friends_list_to_string
             (parse_friends_list F ++ [(c, n)]))]⟩
        = .ok (status_codes.OK, write_body) →
      (handle_put (do_request_logged respond) ⟨add_friend :: userid :: c :: n :: rest, body⟩
        active_users log).1 = reply status_codes.OK) := by
  have hidx : map_index (unpack_json_object (value.object props)) friends = F := by
    rw [unpack_object_nodup props hprops]
    unfold map_index
    rw [show friends = "Friends" from rfl, hF]
    rfl
  rw [add_friend_logged respond userid c n rest body active_users log user_properties
    status_codes.OK (value.object props) hsession hread (by decide) (by decide), hidx]
  simp only [habsent, if_false]
  refine ⟨?_, ?_, ?_⟩
  · cases respond _ _ <;> rfl
  · cases respond _ _ <;> rfl
  · intro write_body hwrite
    have hw : respond (log ++ [read_request user_properties])
        (write_request user_properties (build_json_value friends (friends_list_to_string
          (parse_friends_list F ++ [(c, n)])))) = .ok (status_codes.OK, write_body) := hwrite
    rw [hw]
    rfl

/-- Instance of `add_friend_appends`: the friend list of the tests.  The write
carries the old entry followed by the new pair. -/
theorem add_friend_appends_witness :
    (handle_put (do_request_logged (gateway_with_friends "fake_country;friend,fake"))
        ⟨["AddFriend", "alice", "ThePhilippines", "Fernandez,Josh"], []⟩
        alice_session []).2.2
      = [⟨method.GET, "http://localhost:34568/ReadEntityAuth/DataTable/tok1/US/Alice,A",
            value.null⟩,
         ⟨method.PUT, "http://localhost:34568/UpdateEntityAdmin/DataTable/US/Alice,A",
            value.object
              [("Friends", "fake_country;friend,fake|ThePhilippines;Fernandez,Josh")]⟩] ∧
    (handle_put (do_request_logged (gateway_with_friends "fake_country;friend,fake"))
        ⟨["AddFriend", "alice", "ThePhilippines", "Fernandez,Josh"], []⟩
        alice_session []).2.1 = alice_session ∧
    (handle_put (do_request_logged (gateway_with_friends "fake_country;friend,fake"))
        ⟨["AddFriend", "alice", "ThePhilippines", "Fernandez,Josh"], []⟩
        alice_session []).1 = reply status_codes.OK :=
  ⟨(add_friend_appends (gateway_with_friends "fake_country;friend,fake") "alice"
      "ThePhilippines" "Fernandez,Josh" "fake_country;friend,fake" [] [] alice_session []
      ("tok1", "US", "Alice,A")
      [("Friends", "fake_country;friend,fake"), ("Status", ""), ("Updates", "")]
      (by decide) rfl (by decide) (by decide) (by decide)).1.trans (by decide),
   (add_friend_appends (gateway_with_friends "fake_country;friend,fake") "alice"
      "ThePhilippines" "Fernandez,Josh" "fake_country;friend,fake" [] [] alice_session []
      ("tok1", "US", "Alice,A")
      [("Friends", "fake_country;friend,fake"), ("Status", ""), ("Updates", "")]
      (by decide) rfl (by decide) (by decide) (by decide)).2.1,
   (add_friend_appends (gateway_with_friends "fake_country;friend,fake") "alice"
      "ThePhilippines" "Fernandez,Josh" "fake_country;friend,fake" [] [] alice_session []
      ("tok1", "US", "Alice,A")
      [("Friends", "fake_country;friend,fake"), ("Status", ""), ("Updates", "")]
      (by decide) rfl (by decide) (by decide) (by decide)).2.2
      (value.object [("Friends", "fake_country;friend,fake"), ("Status", ""), ("Updates", "")])
      rfl⟩

/-- The value written in the case of the tests: the old entry followed by the new
pair. -/
theorem add_friend_appends_value :
    friends_list_to_string (parse_friends_list "fake_country;friend,fake"
      ++ [("ThePhilippines", "Fernandez,Josh")])
      = "fake_country;friend,fake|ThePhilippines;Fernandez,Josh" := by
  decide

/-- UnFriend against recorded services, once the session exists and the read was
answered with a status other than BadRequest and NotFound. -/
theorem unfriend_logged (respond : responder) (userid c n : String) (rest : List String)
    (body : List (String × String)) (active_users : session_table) (log : List request_sent)
    (user_properties : String × String × String) (s : status_code) (read_body : value)
    (hsession : active_users.lookup userid = some user_properties)
    (hread : respond log (read_request user_properties) = .ok (s, read_body))
    (hs1 : s ≠ status_codes.BadRequest) (hs2 : s ≠ status_codes.NotFound) :
    handle_put (do_request_logged respond) ⟨unfriend :: userid :: c :: n :: rest, body⟩
        active_users log =
      match erase_first_match c n
          (parse_friends_list (map_index (unpack_json_object read_body) friends)) with
      | none => (reply status_codes.OK, active_users, log ++ [read_request user_properties])
      | some friend_vector1 =>
        match respond (log ++ [read_request user_properties])
            (write_request user_properties
              (build_json_value friends (friends_list_to_string friend_vector1))) with
        | .error _ =>
          (.raised, active_users, log ++ [read_request user_properties,
            write_request user_properties
              (build_json_value friends (friends_list_to_string friend_vector1))])
        | .ok friend_result =>
          (if friend_result.1 = status_codes.OK then reply status_codes.OK
            else reply status_codes.BadRequest,
           active_users, log ++ [read_request user_properties,
            write_request user_properties
              (build_json_value friends (friends_list_to_string friend_vector1))]) := by
  have hop : (unfriend == add_friend) = false := by decide
  simp only [read_request] at hread
  simp only [handle_put, unfriend_block, get_user, read_own_entity, write_own_property,
    do_request_logged, read_request, write_request, List.getElem?_cons_zero,
    List.getElem?_cons_succ, beq_self_eq_true, if_true, hsession, hread, hop,
    Bool.false_eq_true, if_false]
  cases erase_first_match c n
      (parse_friends_list (map_index (unpack_json_object read_body) friends)) with
  | none => simp [hs1, hs2]
  | some v =>
    simp only
    cases respond _ _ with
    | error e => simp [hs1, hs2]
    | ok r =>
      by_cases hr : r.1 = status_codes.OK
      · simp [hr, hs1, hs2]
      · simp [hr, hs1, hs2]

/-- Claim C18, as amended: AddFriend and UnFriend stop at a token-gated read that
reports BadRequest or NotFound: the reply is NotFound, only the read was sent (no
write is issued) and the session table is unchanged. -/
theorem rejected_read_stops_friend_update (respond : responder) (userid c n : String) (rest : List String)
    (body : List (String × String)) (active_users : session_table) (log : List request_sent)
    (user_properties : String × String × String) (s : status_code) (read_body : value)
    (hsession : active_users.lookup userid = some user_properties)
    (hread : respond log (read_request user_properties) = .ok (s, read_body))
    (hs : s = status_codes.BadRequest ∨ s = status_codes.NotFound) :
    handle_put (do_request_logged respond) ⟨add_friend :: userid :: c :: n :: rest, body⟩
        active_users log
      = (reply status_codes.NotFound, active_users, log ++ [read_request user_properties]) ∧
    handle_put (do_request_logged respond) ⟨unfriend :: userid :: c :: n :: rest, body⟩
        active_users log
      = (reply status_codes.NotFound, active_users, log ++ [read_request user_properties]) := by
  have hop : (unfriend == add_friend) = false := by decide
  simp only [read_request] at hread
  constructor
  · simp only [handle_put, add_friend_block, get_user, read_own_entity, do_request_logged,
      read_request, List.getElem?_cons_zero, List.getElem?_cons_succ, beq_self_eq_true,
      if_true, hsession, hread]
    rcases hs with h | h <;> simp [h]
  · simp only [handle_put, unfriend_block, get_user, read_own_entity, do_request_logged,
      read_request, List.getElem?_cons_zero, List.getElem?_cons_succ, beq_self_eq_true,
      if_true, hsession, hread, hop, Bool.false_eq_true, if_false]
    rcases hs with h | h <;> simp [h]

/-- Instance of `rejected_read_stops_friend_update`: the read is answered
BadRequest. -/
theorem rejected_read_stops_friend_update_witness :
    handle_put (do_request_logged (read_answers status_codes.BadRequest))
        ⟨add_friend :: "alice" :: "CA" :: "Bob,B" :: [], []⟩ alice_session []
      = (reply status_codes.NotFound, alice_session,
          [] ++ [read_request ("tok1", "US", "Alice,A")]) ∧
    handle_put (do_request_logged (read_answers status_codes.BadRequest))
        ⟨unfriend :: "alice" :: "CA" :: "Bob,B" :: [], []⟩ alice_session []
      = (reply status_codes.NotFound, alice_session,
          [] ++ [read_request ("tok1", "US", "Alice,A")]) :=
  rejected_read_stops_friend_update (read_answers status_codes.BadRequest) "alice" "CA" "Bob,B"
    [] [] alice_session [] ("tok1", "US", "Alice,A") status_codes.BadRequest value.null
    (by decide) rfl (Or.inl rfl)

/-- Claim C18 fails as stated: when the read reports BadRequest the reply of
AddFriend and of UnFriend is NotFound, not the status of the read. -/
theorem read_status_not_propagated :
    read_answers status_codes.BadRequest [] (read_request ("tok1", "US", "Alice,A"))
        = .ok (status_codes.BadRequest, value.null) ∧
    (handle_put (do_request_logged (read_answers status_codes.BadRequest))
        ⟨["AddFriend", "alice", "CA", "Bob,B"], []⟩ alice_session []).1
      = reply status_codes.NotFound ∧
    (handle_put (do_request_logged (read_answers status_codes.BadRequest))
        ⟨["UnFriend", "alice", "CA", "Bob,B"], []⟩ alice_session []).1
      = reply status_codes.NotFound ∧
    reply status_codes.NotFound ≠ reply status_codes.BadRequest := by
  refine ⟨rfl, by decide, by decide, by decide⟩

/-- Claim C16: when the read returns OK with Friends = F, AddFriend with a pair
that is in the decoded F and UnFriend with a pair that is not in it both reply
OK after sending the read only: no write is issued, so the stored Friends value
is unchanged. -/
theorem friend_list_no_op (respond : responder) (userid c n : String) (rest : List String)
    (body : List (String × String)) (active_users : session_table) (log : List request_sent)
    (user_properties : String × String × String) (read_body : value)
    (hsession : active_users.lookup userid = some user_properties)
    (hread : respond log (read_request user_properties) = .ok (status_codes.OK, read_body)) :
    ((c, n) ∈ parse_friends_list (map_index (unpack_json_object read_body) friends) →
      handle_put (do_request_logged respond) ⟨add_friend :: userid :: c :: n :: rest, body⟩
          active_users log
        = (reply status_codes.OK, active_users, log ++ [read_request user_properties])) ∧
    ((c, n) ∉ parse_friends_list (map_index (unpack_json_object read_body) friends) →
      handle_put (do_request_logged respond) ⟨unfriend :: userid :: c :: n :: rest, body⟩
          active_users log
        = (reply status_codes.OK, active_users, log ++ [read_request user_properties])) := by
  constructor
  · intro hmem
    rw [add_friend_logged respond userid c n rest body active_users log user_properties
      status_codes.OK read_body hsession hread (by decide) (by decide)]
    simp [hmem]
  · intro habsent
    rw [unfriend_logged respond userid c n rest body active_users log user_properties
      status_codes.OK read_body hsession hread (by decide) (by decide),
      erase_first_match_absent c n _ habsent]

/-- Instance of `friend_list_no_op`: Bob is a friend already, Joe is not one. -/
theorem friend_list_no_op_witness :
    handle_put (do_request_logged (gateway_with_friends "CA;Bob,B"))
        ⟨add_friend :: "alice" :: "CA" :: "Bob,B" :: [], []⟩ alice_session []
      = (reply status_codes.OK, alice_session, [] ++ [read_request ("tok1", "US", "Alice,A")]) ∧
    handle_put (do_request_logged (gateway_with_friends "CA;Bob,B"))
        ⟨unfriend :: "alice" :: "USA" :: "Joe" :: [], []⟩ alice_session []
      = (reply status_codes.OK, alice_session, [] ++ [read_request ("tok1", "US", "Alice,A")]) :=
  ⟨(friend_list_no_op (gateway_with_friends "CA;Bob,B") "alice" "CA" "Bob,B" [] []
      alice_session [] ("tok1", "US", "Alice,A")
      (value.object [("Friends", "CA;Bob,B"), ("Status", ""), ("Updates", "")])
      (by decide) rfl).1 (by decide),
   (friend_list_no_op (gateway_with_friends "CA;Bob,B") "alice" "USA" "Joe" [] []
      alice_session [] ("tok1", "US", "Alice,A")
      (value.object [("Friends", "CA;Bob,B"), ("Status", ""), ("Updates", "")])
      (by decide) rfl).2 (by decide)⟩

/-- Claim C17: when the read returns OK with Friends = F and the pair (c, n) occurs
in the decoded F, the decoded list is `pre ++ (c, n) :: post` with no (c, n) in
`pre`, and UnFriend sends, after the read, one write whose Friends value is the
encoding of `pre ++ post`: only the first occurrence is removed, every other
entry, later duplicates of (c, n) included, is kept in its place; the reply is OK
when that write reports OK. -/
theorem unfriend_removes_first (respond : responder) (userid c n : String)
    (rest : List String) (body : List (String × String)) (active_users : session_table)
    (log : List request_sent) (user_properties : String × String × String) (read_body : value)
    (hsession : active_users.lookup userid = some user_properties)
    (hread : respond log (read_request user_properties) = .ok (status_codes.OK, read_body))
    (hmem : (c, n) ∈ parse_friends_list (map_index (unpack_json_object read_body) friends)) :
    ∃ pre post,
      parse_friends_list (map_index (unpack_json_object read_body) friends)
        = pre ++ (c, n) :: post ∧
      (c, n) ∉ pre ∧
      (handle_put (do_request_logged respond) ⟨unfriend :: userid :: c :: n :: rest, body⟩
          active_users log).2.2
        = log ++ [read_request user_properties,
            write_request user_properties
              (value.object [(friends, friends_list_to_string (pre ++ post))])] ∧
      (∀ write_body,
        respond (log ++ [read_request user_properties])
            (write_request user_properties
              (value.object [(friends, friends_list_to_string (pre ++ post))]))
          = .ok (status_codes.OK, write_body) →
        (handle_put (do_request_logged respond) ⟨unfriend :: userid :: c :: n :: rest, body⟩
          active_users log).1 = reply status_codes.OK) := by
  obtain ⟨pre, post, hsplit, hpre⟩ := List.eq_append_cons_of_mem hmem
  refine ⟨pre, post, hsplit, hpre, ?_, ?_⟩
  · rw [unfriend_logged respond userid c n rest body active_users log user_properties
      status_codes.OK read_body hsession hread (by decide) (by decide), hsplit,
      erase_first_match_split c n pre post hpre]
    simp only [build_json_value]
    cases respond _ _ <;> rfl
  · intro write_body hwrite
    rw [unfriend_logged respond userid c n rest body active_users log user_properties
      status_codes.OK read_body hsession hread (by decide) (by decide), hsplit,
      erase_first_match_split c n pre post hpre]
    simp only [build_json_value]
    rw [hwrite]
    rfl

/-- Instance of `unfriend_removes_first`: Bob is listed twice. -/
theorem unfriend_removes_first_witness :
    ∃ pre post,
      parse_friends_list (map_index (unpack_json_object (value.object
          [("Friends", "US;Joe|CA;Bob,B|KR;Song|CA;Bob,B"), ("Status", ""), ("Updates", "")]))
          friends)
        = pre ++ ("CA", "Bob,B") :: post ∧
      ("CA", "Bob,B") ∉ pre ∧
      (handle_put (do_request_logged (gateway_with_friends "US;Joe|CA;Bob,B|KR;Song|CA;Bob,B"))
          ⟨unfriend :: "alice" :: "CA" :: "Bob,B" :: [], []⟩ alice_session []).2.2
        = [] ++ [read_request ("tok1", "US", "Alice,A"),
            write_request ("tok1", "US", "Alice,A")
              (value.object [(friends, friends_list_to_string (pre ++ post))])] ∧
      (∀ write_body,
        gateway_with_friends "US;Joe|CA;Bob,B|KR;Song|CA;Bob,B"
            ([] ++ [read_request ("tok1", "US", "Alice,A")])
            (write_request ("tok1", "US", "Alice,A")
              (value.object [(friends, friends_list_to_string (pre ++ post))]))
          = .ok (status_codes.OK, write_body) →
        (handle_put (do_request_logged (gateway_with_friends "US;Joe|CA;Bob,B|KR;Song|CA;Bob,B"))
          ⟨unfriend :: "alice" :: "CA" :: "Bob,B" :: [], []⟩ alice_session []).1
          = reply status_codes.OK) :=
  unfriend_removes_first (gateway_with_friends "US;Joe|CA;Bob,B|KR;Song|CA;Bob,B") "alice" "CA"
    "Bob,B" [] [] alice_session [] ("tok1", "US", "Alice,A")
    (value.object [("Friends", "US;Joe|CA;Bob,B|KR;Song|CA;Bob,B"), ("Status", ""),
      ("Updates", "")])
    (by decide) rfl (by decide)

/-- The value written in that instance: the second Bob stays. -/
theorem unfriend_removes_first_value :
    (handle_put (do_request_logged (gateway_with_friends "US;Joe|CA;Bob,B|KR;Song|CA;Bob,B"))
        ⟨["UnFriend", "alice", "CA", "Bob,B"], []⟩ alice_session []).2.2
      = [read_request ("tok1", "US", "Alice,A"),
         write_request ("tok1", "US", "Alice,A")
           (value.object [("Friends", "US;Joe|KR;Song|CA;Bob,B")])] := by
  decide

/-- Claim C19 at a failing input: `alice` has a session and the token-gated read
is answered Forbidden (as for an expired token).  UpdateStatus goes on: it
writes Updates = the new status alone, writes Status, calls the Fanout
Dispatcher with an empty friend list, and replies OK. -/
theorem forbidden_read_update_status_proceeds :
    read_answers status_codes.Forbidden [] (read_request ("tok1", "US", "Alice,A"))
        = .ok (status_codes.Forbidden, value.null) ∧
    handle_put (do_request_logged (read_answers status_codes.Forbidden))
        ⟨["UpdateStatus", "alice", "hi"], []⟩ alice_session [] =
      (reply status_codes.OK, alice_session,
        [read_request ("tok1", "US", "Alice,A"),
         write_request ("tok1", "US", "Alice,A") (value.object [("Updates", "hi\n")]),
         write_request ("tok1", "US", "Alice,A") (value.object [("Status", "hi")]),
         push_request ("tok1", "US", "Alice,A") "hi" (value.object [("Friends", "")])]) := by
  refine ⟨rfl, by decide⟩

/-- Claim C20 fails as stated: the write of the Updates log is answered
InternalError, the write of Status and the Fanout Dispatcher answer OK, and the
reply of UpdateStatus is OK. -/
theorem update_status_ignores_updates_write :
    updates_write_fails [read_request ("tok1", "US", "Alice,A")]
        (write_request ("tok1", "US", "Alice,A") (value.object [("Updates", "hi\n")]))
        = .ok (status_codes.InternalError, value.null) ∧
    handle_put (do_request_logged updates_write_fails)
        ⟨["UpdateStatus", "alice", "hi"], []⟩ alice_session [] =
      (reply status_codes.OK, alice_session,
        [read_request ("tok1", "US", "Alice,A"),
         write_request ("tok1", "US", "Alice,A") (value.object [("Updates", "hi\n")]),
         write_request ("tok1", "US", "Alice,A") (value.object [("Status", "hi")]),
         push_request ("tok1", "US", "Alice,A") "hi" (value.object [("Friends", "CA;Bob,B")])]) := by
  refine ⟨rfl, by decide⟩

/-- Claim C20, as amended: when the three requests of UpdateStatus are answered,
the reply is OK exactly when the write of the caller's Status and the call of the
Fanout Dispatcher both reported OK; if either of the two reports another status
the reply is not OK. -/
theorem update_status_ok_iff (respond : responder) (userid status_up : String)
    (rest : List String) (body : List (String × String)) (active_users : session_table)
    (log : List request_sent) (user_properties : String × String × String)
    (s c1 c2 c3 : status_code) (read_body b1 b2 b3 : value)
    (hsession : active_users.lookup userid = some user_properties)
    (hread : respond log (read_request user_properties) = .ok (s, read_body))
    (hs1 : s ≠ status_codes.BadRequest) (hs2 : s ≠ status_codes.NotFound)
    (hw1 : respond (log ++ [read_request user_properties])
        (write_request user_properties (build_json_value updates
          (map_index (unpack_json_object read_body) updates ++ (status_up ++ "\n"))))
        = .ok (c1, b1))
    (hw2 : respond (log ++ [read_request user_properties] ++
          [write_request user_properties (build_json_value updates
            (map_index (unpack_json_object read_body) updates ++ (status_up ++ "\n")))])
        (write_request user_properties (build_json_value status status_up))
        = .ok (c2, b2))
    (hp : respond (log ++ [read_request user_properties] ++
          [write_request user_properties (build_json_value updates
            (map_index (unpack_json_object read_body) updates ++ (status_up ++ "\n")))] ++
          [write_request user_properties (build_json_value status status_up)])
        (push_request user_properties status_up
          (build_json_value friends (map_index (unpack_json_object read_body) friends)))
        = .ok (c3, b3)) :
    (handle_put (do_request_logged respond) ⟨update_status :: userid :: status_up :: rest, body⟩
        active_users log).1 = reply status_codes.OK ↔
      c2 = status_codes.OK ∧ c3 = status_codes.OK := by
  have hop1 : (update_status == add_friend) = false := by decide
  have hop2 : (update_status == unfriend) = false := by decide
  simp only [read_request] at hread
  simp only [write_request, read_request] at hw1
  simp only [write_request, read_request] at hw2
  simp only [write_request, read_request, push_request] at hp
  simp only [handle_put, update_status_block, get_user, read_own_entity, write_own_property,
    do_request_logged, List.getElem?_cons_zero, List.getElem?_cons_succ, hop1, hop2,
    Bool.false_eq_true, if_false, beq_self_eq_true, if_true, hsession, hread, hw1, hw2, hp]
  by_cases h2 : c2 = status_codes.OK
  · by_cases h3 : c3 = status_codes.OK
    · simp [h2, h3, hs1, hs2]
    · simp [h2, h3, hs1, hs2, reply]
  · simp [h2, hs1, hs2, reply]

/-- Instance of `update_status_ok_iff`: every request is answered OK. -/
theorem update_status_ok_iff_witness :
    (handle_put (do_request_logged (gateway_with_friends "CA;Bob,B"))
        ⟨update_status :: "alice" :: "hi" :: [], []⟩ alice_session []).1
        = reply status_codes.OK ↔
      status_codes.OK = status_codes.OK ∧ status_codes.OK = status_codes.OK :=
  update_status_ok_iff (gateway_with_friends "CA;Bob,B") "alice" "hi" [] [] alice_session []
    ("tok1", "US", "Alice,A") status_codes.OK status_codes.OK status_codes.OK status_codes.OK
    (value.object [("Friends", "CA;Bob,B"), ("Status", ""), ("Updates", "")])
    (value.object [("Friends", "CA;Bob,B"), ("Status", ""), ("Updates", "")])
    (value.object [("Friends", "CA;Bob,B"), ("Status", ""), ("Updates", "")])
    (value.object [("Friends", "CA;Bob,B"), ("Status", ""), ("Updates", "")])
    (by decide) rfl (by decide) (by decide) rfl rfl rfl

/-- AddFriend over the friend-list store: the reply is OK and the stored value is
kept when the pair is in the decoded list, and replaced by the encoding of the
list followed by the pair otherwise. -/
theorem add_friend_stored (userid c n : String) (active_users : session_table)
    (user_properties : String × String × String) (stored : String)
    (hsession : active_users.lookup userid = some user_properties) :
    handle_put do_request_friends_store ⟨[add_friend, userid, c, n], []⟩ active_users stored =
      (reply status_codes.OK, active_users,
        if (c, n) ∈ parse_friends_list stored then stored
        else friends_list_to_string (parse_friends_list stored ++ [(c, n)])) := by
  have hF : map_index (unpack_json_object (value.object [(friends, stored)])) friends
      = stored := by
    simp [unpack_json_object, map_assign, map_index, List.lookup]
  simp only [handle_put, add_friend_block, get_user, read_own_entity, write_own_property,
    do_request_friends_store, List.getElem?_cons_zero, List.getElem?_cons_succ,
    beq_self_eq_true, if_true, hsession, hF]
  by_cases hmem : (c, n) ∈ parse_friends_list stored
  · have hany := (any_match_iff c n _).mpr hmem
    simp [hany, hmem]
  · have hany : (parse_friends_list stored).any (fun f => f.1 == c && f.2 == n) = false := by
      rw [Bool.eq_false_iff]
      exact fun h => hmem ((any_match_iff c n _).mp h)
    simp [hany, hmem, build_json_value, json_members, List.lookup]

/-- Claim C15 fails as stated: with the country `a|b`, the name `x` and an empty
stored list, the first AddFriend stores `a|b;x`, which decodes to two other
pairs, so the second AddFriend appends the pair again. -/
theorem add_friend_twice_differs :
    (handle_put do_request_friends_store ⟨["AddFriend", "alice", "a|b", "x"], []⟩
        alice_session "").2.2 = "a|b;x" ∧
    (handle_put do_request_friends_store ⟨["AddFriend", "alice", "a|b", "x"], []⟩
        alice_session "a|b;x").2.2 = "a;|b;x|a|b;x" ∧
    parse_friends_list "a|b;x" = [("a", ""), ("b", "x")] := by
  decide

/-- Claim C15, as amended: over a store whose reads and writes succeed, for every
stored Friends value and every pair (c, n) whose country holds no semicolon or
bar and whose name holds no bar, AddFriend replies OK both times and the second
call leaves the stored value as the first one left it; if the pair was absent
before, the decoded list afterwards holds it exactly once, and if it was
present the stored value is unchanged. -/
theorem add_friend_idempotent (userid c n : String) (active_users : session_table)
    (user_properties : String × String × String) (stored : String)
    (hsession : active_users.lookup userid = some user_properties)
    (hfree : separator_free (c, n)) :
    (handle_put do_request_friends_store ⟨[add_friend, userid, c, n], []⟩ active_users
        stored).1 = reply status_codes.OK ∧
    handle_put do_request_friends_store ⟨[add_friend, userid, c, n], []⟩ active_users
        (handle_put do_request_friends_store ⟨[add_friend, userid, c, n], []⟩ active_users
          stored).2.2
      = (reply status_codes.OK, active_users,
          (handle_put do_request_friends_store ⟨[add_friend, userid, c, n], []⟩ active_users
            stored).2.2) ∧
    ((c, n) ∉ parse_friends_list stored →
      (parse_friends_list (handle_put do_request_friends_store
        ⟨[add_friend, userid, c, n], []⟩ active_users stored).2.2).count (c, n) = 1) ∧
    ((c, n) ∈ parse_friends_list stored →
      (handle_put do_request_friends_store ⟨[add_friend, userid, c, n], []⟩ active_users
        stored).2.2 = stored) := by
  have hround : parse_friends_list
      (friends_list_to_string (parse_friends_list stored ++ [(c, n)]))
      = parse_friends_list stored ++ [(c, n)] := by
    apply parse_after_to_string
    intro p hp
    rcases List.mem_append.mp hp with h | h
    · exact parse_separator_free stored p h
    · rw [List.mem_singleton.mp h]
      exact hfree
  rw [add_friend_stored userid c n active_users user_properties stored hsession]
  by_cases hmem : (c, n) ∈ parse_friends_list stored
  · simp only [hmem, if_true]
    rw [add_friend_stored userid c n active_users user_properties stored hsession]
    simp [hmem]
  · simp only [hmem, if_false]
    rw [add_friend_stored userid c n active_users user_properties _ hsession, hround]
    simp [hmem, List.count_eq_zero_of_not_mem]

/-- Instance of `add_friend_idempotent`: `alice` adds Bob to a list that holds
Joe. -/
theorem add_friend_idempotent_witness :
    (handle_put do_request_friends_store ⟨[add_friend, "alice", "CA", "Bob,B"], []⟩
        alice_session "USA;Joe").1 = reply status_codes.OK ∧
    handle_put do_request_friends_store ⟨[add_friend, "alice", "CA", "Bob,B"], []⟩ alice_session
        (handle_put do_request_friends_store ⟨[add_friend, "alice", "CA", "Bob,B"], []⟩
          alice_session "USA;Joe").2.2
      = (reply status_codes.OK, alice_session,
          (handle_put do_request_friends_store ⟨[add_friend, "alice", "CA", "Bob,B"], []⟩
            alice_session "USA;Joe").2.2) ∧
    (("CA", "Bob,B") ∉ parse_friends_list "USA;Joe" →
      (parse_friends_list (handle_put do_request_friends_store
        ⟨[add_friend, "alice", "CA", "Bob,B"], []⟩ alice_session "USA;Joe").2.2).count
          ("CA", "Bob,B") = 1) ∧
    (("CA", "Bob,B") ∈ parse_friends_list "USA;Joe" →
      (handle_put do_request_friends_store ⟨[add_friend, "alice", "CA", "Bob,B"], []⟩
        alice_session "USA;Joe").2.2 = "USA;Joe") :=
  add_friend_idempotent "alice" "CA" "Bob,B" alice_session ("tok1", "US", "Alice,A") "USA;Joe"
    (by decide) (by decide)

end UserServer

namespace UserServer

/-- Claim C22: for a user with a session whose token-gated read returns OK with
Friends = F, ReadFriendList replies OK with a body of exactly one member,
Friends = F, the string as stored (it does not go through the codec), after
sending the read only. -/
theorem read_friend_list_as_stored (respond : responder) (userid F : String)
    (rest : List String) (body : List (String × String)) (active_users : session_table)
    (log : List request_sent) (user_properties : String × String × String)
    (read_body : value)
    (hsession : active_users.lookup userid = some user_properties)
    (hread : respond log (read_request user_properties) = .ok (status_codes.OK, read_body))
    (hF : map_index (unpack_json_object read_body) friends = F) :
    handle_get (do_request_logged respond) ⟨read_friend_list :: userid :: rest, body⟩
        active_users log
      = (.replied ⟨status_codes.OK, value.object [(friends, F)]⟩, active_users,
          log ++ [read_request user_properties]) := by
  simp only [read_request] at hread
  simp only [handle_get, get_user, read_own_entity, do_request_logged, read_request,
    List.getElem?_cons_zero, List.getElem?_cons_succ, beq_self_eq_true, if_true, hsession,
    hread, hF, build_json_value]
  simp

/-- Instance of `read_friend_list_as_stored`: a stored value that no friend list
encodes to. -/
theorem read_friend_list_as_stored_witness :
    handle_get (do_request_logged (gateway_with_friends "||x;;y|"))
        ⟨read_friend_list :: "alice" :: [], []⟩ alice_session []
      = (.replied ⟨status_codes.OK, value.object [(friends, "||x;;y|")]⟩, alice_session,
          [] ++ [read_request ("tok1", "US", "Alice,A")]) :=
  read_friend_list_as_stored (gateway_with_friends "||x;;y|") "alice" "||x;;y|" [] []
    alice_session [] ("tok1", "US", "Alice,A")
    (value.object [("Friends", "||x;;y|"), ("Status", ""), ("Updates", "")])
    (by decide) rfl (by decide)

/-- Claim C21 at a failing input: `alice` has a session, the read and the two
writes are answered OK, and the Fanout Dispatcher is not listening, so the call
raises an exception that is not a `uri_exception`.  The exception leaves the
handler: there is no ServiceUnavailable reply, and both writes were made.  When
the same call raises a `uri_exception` the reply is ServiceUnavailable. -/
theorem dispatcher_down_no_reply :
    dispatcher_down
        [read_request ("tok1", "US", "Alice,A"),
         write_request ("tok1", "US", "Alice,A") (value.object [("Updates", "hi\n")]),
         write_request ("tok1", "US", "Alice,A") (value.object [("Status", "hi")])]
        (push_request ("tok1", "US", "Alice,A") "hi" (value.object [("Friends", "CA;Bob,B")]))
      = .error .http_exception ∧
    handle_put (do_request_logged dispatcher_down) ⟨["UpdateStatus", "alice", "hi"], []⟩
        alice_session [] =
      (.raised, alice_session,
        [read_request ("tok1", "US", "Alice,A"),
         write_request ("tok1", "US", "Alice,A") (value.object [("Updates", "hi\n")]),
         write_request ("tok1", "US", "Alice,A") (value.object [("Status", "hi")]),
         push_request ("tok1", "US", "Alice,A") "hi" (value.object [("Friends", "CA;Bob,B")])]) ∧
    outcome.raised ≠ reply status_codes.ServiceUnavailable ∧
    (handle_put (do_request_logged dispatcher_bad_uri) ⟨["UpdateStatus", "alice", "hi"], []⟩
        alice_session []).1 = reply status_codes.ServiceUnavailable := by
  refine ⟨rfl, by decide, by decide, by decide⟩

/-- Claim C27 fails as stated: the write of AddFriend goes to
UpdateEntityAdmin/DataTable/US/Alice,A; the request does not name
UpdateEntityAuth and the token tok1 of the session is not part of it. -/
theorem friend_write_is_admin_update :
    handle_put (do_request_logged (gateway_with_friends ""))
        ⟨["AddFriend", "alice", "CA", "Bob,B"], []⟩ alice_session [] =
      (reply status_codes.OK, alice_session,
        [⟨method.GET, "http://localhost:34568/ReadEntityAuth/DataTable/tok1/US/Alice,A",
            value.null⟩,
         ⟨method.PUT, "http://localhost:34568/UpdateEntityAdmin/DataTable/US/Alice,A",
            value.object [("Friends", "CA;Bob,B")]⟩]) ∧
    "http://localhost:34568/UpdateEntityAdmin/DataTable/US/Alice,A"
      ≠ "http://localhost:34568/UpdateEntityAuth/DataTable/tok1/US/Alice,A" := by
  refine ⟨by decide, by decide⟩

/-- Claim C27, as amended: AddFriend (pair absent) and UnFriend (pair present)
write the new Friends value through the administrative update of the Data
Gateway: the one PUT they send names UpdateEntityAdmin, then DataTable, then the
partition and the row of the session, and carries no token. -/
theorem friend_write_request (respond : responder) (userid c n : String) (rest : List String)
    (body : List (String × String)) (active_users : session_table) (log : List request_sent)
    (token partition row : String) (read_body : value)
    (hsession : active_users.lookup userid = some (token, partition, row))
    (hread : respond log (read_request (token, partition, row))
      = .ok (status_codes.OK, read_body)) :
    ((c, n) ∉ parse_friends_list (map_index (unpack_json_object read_body) friends) →
      ∃ v, (handle_put (do_request_logged respond) ⟨add_friend :: userid :: c :: n :: rest, body⟩
          active_users log).2.2
        = log ++ [read_request (token, partition, row),
            ⟨method.PUT,
             basic_url ++ "UpdateEntityAdmin" ++ "/" ++ "DataTable" ++ "/" ++ partition ++ "/"
               ++ row,
             value.object [("Friends", v)]⟩]) ∧
    ((c, n) ∈ parse_friends_list (map_index (unpack_json_object read_body) friends) →
      ∃ v, (handle_put (do_request_logged respond) ⟨unfriend :: userid :: c :: n :: rest, body⟩
          active_users log).2.2
        = log ++ [read_request (token, partition, row),
            ⟨method.PUT,
             basic_url ++ "UpdateEntityAdmin" ++ "/" ++ "DataTable" ++ "/" ++ partition ++ "/"
               ++ row,
             value.object [("Friends", v)]⟩]) := by
  constructor
  · intro habsent
    refine ⟨friends_list_to_string
      (parse_friends_list (map_index (unpack_json_object read_body) friends) ++ [(c, n)]), ?_⟩
    rw [add_friend_logged respond userid c n rest body active_users log (token, partition, row)
      status_codes.OK read_body hsession hread (by decide) (by decide)]
    simp only [habsent, if_false]
    cases respond _ _ <;> rfl
  · intro hmem
    obtain ⟨pre, post, hsplit, hpre⟩ := List.eq_append_cons_of_mem hmem
    refine ⟨friends_list_to_string (pre ++ post), ?_⟩
    rw [unfriend_logged respond userid c n rest body active_users log (token, partition, row)
      status_codes.OK read_body hsession hread (by decide) (by decide), hsplit,
      erase_first_match_split c n pre post hpre]
    simp only
    cases respond _ _ <;> rfl

/-- Instance of `friend_write_request`: `alice`, whose stored list is USA;Joe,
adds Bob and removes Joe. -/
theorem friend_write_request_witness :
    (∃ v, (handle_put (do_request_logged (gateway_with_friends "USA;Joe"))
          ⟨add_friend :: "alice" :: "CA" :: "Bob,B" :: [], []⟩ alice_session []).2.2
        = [] ++ [read_request ("tok1", "US", "Alice,A"),
            ⟨method.PUT,
             basic_url ++ "UpdateEntityAdmin" ++ "/" ++ "DataTable" ++ "/" ++ "US" ++ "/"
               ++ "Alice,A",
             value.object [("Friends", v)]⟩]) ∧
    (∃ v, (handle_put (do_request_logged (gateway_with_friends "USA;Joe"))
          ⟨unfriend :: "alice" :: "USA" :: "Joe" :: [], []⟩ alice_session []).2.2
        = [] ++ [read_request ("tok1", "US", "Alice,A"),
            ⟨method.PUT,
             basic_url ++ "UpdateEntityAdmin" ++ "/" ++ "DataTable" ++ "/" ++ "US" ++ "/"
               ++ "Alice,A",
             value.object [("Friends", v)]⟩]) :=
  ⟨(friend_write_request (gateway_with_friends "USA;Joe") "alice" "CA" "Bob,B" [] []
      alice_session [] "tok1" "US" "Alice,A"
      (value.object [("Friends", "USA;Joe"), ("Status", ""), ("Updates", "")])
      (by decide) rfl).1 (by decide),
   (friend_write_request (gateway_with_friends "USA;Joe") "alice" "USA" "Joe" [] []
      alice_session [] "tok1" "US" "Alice,A"
      (value.object [("Friends", "USA;Joe"), ("Status", ""), ("Updates", "")])
      (by decide) rfl).2 (by decide)⟩

end UserServer

/-- Claim C29 at failing inputs: each of the four too-short requests named by the
claim reaches a read of `paths[i]` beyond the end of the vector instead of a
BadRequest reply: PUT AddFriend/alice and GET ReadFriendList on the Session
Manager, GET ReadEntityAdmin/DataTable/US and a PUT with a single segment on the
Data Gateway. -/
theorem short_paths_read_out_of_range :
    (UserServer.handle_put (do_request_logged UserServer.all_fine)
        ⟨["AddFriend", "alice"], []⟩ UserServer.alice_session []).1 = .out_of_range ∧
    (UserServer.handle_get (do_request_logged UserServer.all_fine)
        ⟨["ReadFriendList"], []⟩ UserServer.alice_session []).1 = .out_of_range ∧
    BasicServer.handle_get data_account ⟨["ReadEntityAdmin", "DataTable", "US"], []⟩
        = .out_of_range ∧
    (BasicServer.handle_put data_account ⟨["UpdateEntityAdmin"], []⟩).1 = .out_of_range := by
  decide

namespace PushServer

/-- The loop over the friends ends with the counter raised by the number of
friends when no call of `do_request` raises. -/
theorem push_loop_counts (respond : responder)
    (hret : ∀ l q e, respond l q ≠ .error e) (status : String) :
    ∀ (L : List (String × String)) (cnt : Nat) (log : List request_sent),
      (push_loop (do_request_logged respond) status L cnt log).1 = some (cnt + L.length) := by
  intro L
  induction L with
  | nil => intro cnt log; simp [push_loop]
  | cons f rest ih =>
    intro cnt log
    simp only [push_loop, do_request_logged]
    split
    · rename_i e w1 heq
      exact absurd (congrArg Prod.fst heq) (hret _ _ _)
    · rename_i r w1 heq
      split
      · rename_i e2 w2 heq2
        exact absurd (congrArg Prod.fst heq2) (hret _ _ _)
      · rename_i r2 w2 heq2
        have := ih (cnt + 1) w2
        simp only [do_request_logged] at this
        rw [this, List.length_cons]
        congr 1
        omega

/-- A request with fewer than four segments, or whose first segment is not
PushStatus, is answered BadRequest and the world is left as it was. -/
theorem handle_post_rejects {σ : Type} (do_request : do_request_t σ) (message : http_request)
    (w : σ) (h : message.paths.length < 4 ∨ message.paths.head? ≠ some push_status) :
    handle_post do_request message w = (.replied ⟨status_codes.BadRequest, value.null⟩, w) := by
  unfold handle_post
  by_cases hlen : message.paths.length < 4
  · simp [hlen]
  · rcases h with h | h
    · exact absurd h hlen
    · cases hp : message.paths with
      | nil => simp [hp] at hlen
      | cons a t =>
        have hne : (a == push_status) = false := by
          simp only [hp, List.head?_cons] at h
          simpa using fun hh => h (by rw [hh])
        rw [hp] at hlen
        simp [hlen, hne]

/-- Claim C23: the reply of PushStatus is BadRequest when the path has fewer than
four segments or its first segment is not PushStatus, and then no request is sent
to the Data Gateway (the log of requests is unchanged); for every other request
the reply is OK, whatever the friend list (the Friends member may be missing) and
whatever statuses the reads and writes of the friends return. -/
theorem push_status_reply (respond : responder) (message : http_request)
    (log : List request_sent) :
    ((message.paths.length < 4 ∨ message.paths.head? ≠ some push_status) →
      handle_post (do_request_logged respond) message log
        = (.replied ⟨status_codes.BadRequest, value.null⟩, log)) ∧
    ((∀ l q e, respond l q ≠ .error e) → 4 ≤ message.paths.length →
      message.paths.head? = some push_status →
      (handle_post (do_request_logged respond) message log).1
        = .replied ⟨status_codes.OK, value.null⟩) := by
  refine ⟨handle_post_rejects (do_request_logged respond) message log, ?_⟩
  intro hret hlen hop
  have hcount := push_loop_counts respond hret (message.paths.getD 3 "")
    (parse_friends_list (map_index (get_json_body message) friends)) 0 log
  cases hp : message.paths with
  | nil => simp [hp] at hlen
  | cons a t =>
    have ha : a = push_status := by
      simp only [hp, List.head?_cons, Option.some.injEq] at hop
      exact hop
    have hlen2 : ¬ (a :: t).length < 4 := by rw [← hp]; omega
    rw [hp] at hcount
    unfold handle_post
    simp only [hp, hlen2, if_false, List.getD_cons_zero, ha, beq_self_eq_true, if_true]
    rcases hpl : push_loop (do_request_logged respond) ((push_status :: t).getD 3 "")
      (parse_friends_list (map_index (get_json_body message) friends)) 0 log with ⟨o, w1⟩
    rw [ha, hpl] at hcount
    simp only at hcount
    subst hcount
    simp only [List.length_cons] at hlen2
    simp [hlen2]

/-- Instance of `push_status_reply`: three segments are rejected without a
request; with a Data Gateway that answers Forbidden to every read and write, and
with no Friends member or with two friends, the reply is OK. -/
theorem push_status_reply_witness :
    handle_post (do_request_logged (gateway_answers status_codes.Forbidden))
        ⟨["PushStatus", "US", "Amy,A"], [("Friends", "CA;Bob,B")]⟩ []
      = (.replied ⟨status_codes.BadRequest, value.null⟩, []) ∧
    handle_post (do_request_logged (gateway_answers status_codes.Forbidden))
        ⟨["PushStatu", "US", "Amy,A", "hi"], [("Friends", "CA;Bob,B")]⟩ []
      = (.replied ⟨status_codes.BadRequest, value.null⟩, []) ∧
    (handle_post (do_request_logged (gateway_answers status_codes.Forbidden))
        ⟨["PushStatus", "US", "Amy,A", "hi"], []⟩ []).1
      = .replied ⟨status_codes.OK, value.null⟩ ∧
    (handle_post (do_request_logged (gateway_answers status_codes.Forbidden))
        ⟨["PushStatus", "US", "Amy,A", "hi"], [("Friends", "CA;Bob,B|KR;Kim")]⟩ []).1
      = .replied ⟨status_codes.OK, value.null⟩ :=
  ⟨(push_status_reply (gateway_answers status_codes.Forbidden)
      ⟨["PushStatus", "US", "Amy,A"], [("Friends", "CA;Bob,B")]⟩ []).1 (Or.inl (by decide)),
   (push_status_reply (gateway_answers status_codes.Forbidden)
      ⟨["PushStatu", "US", "Amy,A", "hi"], [("Friends", "CA;Bob,B")]⟩ []).1
      (Or.inr (by decide)),
   (push_status_reply (gateway_answers status_codes.Forbidden)
      ⟨["PushStatus", "US", "Amy,A", "hi"], []⟩ []).2
      (fun _ _ _ h => by cases h) (by decide) (by decide),
   (push_status_reply (gateway_answers status_codes.Forbidden)
      ⟨["PushStatus", "US", "Amy,A", "hi"], [("Friends", "CA;Bob,B|KR;Kim")]⟩ []).2
      (fun _ _ _ h => by cases h) (by decide) (by decide)⟩

end PushServer

namespace BasicServer

/-- Claim C25 fails as stated: when the component missing from a token-gated
request is the table, the token is taken for the table name and, no table being
so named, the reply is NotFound (GET and PUT alike), not BadRequest. -/
theorem token_path_without_table_not_found :
    handle_get data_account ⟨["ReadEntityAuth", "tok", "US", "Amy,A"], []⟩
      = .replied ⟨status_codes.NotFound, value.null⟩ ∧
    (handle_put data_account ⟨["UpdateEntityAuth", "tok", "US", "Amy,A"], [("Status", "x")]⟩).1
      = .replied ⟨status_codes.NotFound, value.null⟩ := by
  decide

/-- Claim C25, as amended: a ReadEntityAuth GET or an UpdateEntityAuth PUT that
names the operation and an existing table and has fewer than five segments (the
token, the partition or the row is missing) is answered BadRequest; the read with
the token returns BadRequest with no entity, and the PUT leaves the storage
account as it was.  When the second segment names no table (as when the table
is the component left out) the reply is NotFound for both, whatever follows, and
the PUT leaves the storage account as it was. -/
theorem token_path_too_short (acct : storage_account) (tname : String) (rest : List String)
    (body : List (String × String)) :
    (∀ tbl : List table_entity, lookup_table acct tname = some tbl → rest.length < 3 →
      handle_get acct ⟨read_entity_auth :: tname :: rest, body⟩
        = .replied ⟨status_codes.BadRequest, value.null⟩ ∧
      read_with_token acct ⟨read_entity_auth :: tname :: rest, body⟩
        = (status_codes.BadRequest, ⟨"", "", []⟩) ∧
      handle_put acct ⟨update_entity_auth :: tname :: rest, body⟩
        = (.replied ⟨status_codes.BadRequest, value.null⟩, acct)) ∧
    (lookup_table acct tname = none →
      handle_get acct ⟨read_entity_auth :: tname :: rest, body⟩
        = .replied ⟨status_codes.NotFound, value.null⟩ ∧
      handle_put acct ⟨update_entity_auth :: tname :: rest, body⟩
        = (.replied ⟨status_codes.NotFound, value.null⟩, acct)) := by
  constructor
  · intro tbl htable hrest
    have h5 : (read_entity_auth :: tname :: rest).length < 5 := by
      simp only [List.length_cons]; omega
    have h5u : (update_entity_auth :: tname :: rest).length < 5 := by
      simp only [List.length_cons]; omega
    refine ⟨?_, ?_, ?_⟩
    · unfold handle_get
      simp only [List.getD_cons_zero, List.getD_cons_succ, htable, table_exists, h5]
      simp
    · match rest, hrest with
      | [], _ => rfl
      | [_], _ => rfl
      | [_, _], _ => rfl
      | _ :: _ :: _ :: _, h => simp only [List.length_cons] at h; omega
    · unfold handle_put
      simp only [List.getElem?_cons_succ, List.getElem?_cons_zero, List.getD_cons_zero, htable,
        table_exists, h5u]
      simp
  · intro hnone
    constructor
    · unfold handle_get
      simp only [List.getD_cons_zero, List.getD_cons_succ, hnone, table_exists]
      simp
    · unfold handle_put
      simp only [List.getElem?_cons_succ, List.getElem?_cons_zero, hnone, table_exists]
      simp

/-- Instance of `token_path_too_short`: with the table named, the row is missing;
with the table left out, the token is taken for the table name. -/
theorem token_path_too_short_witness :
    (handle_get data_account ⟨read_entity_auth :: "DataTable" :: ["tok", "US"], []⟩
        = .replied ⟨status_codes.BadRequest, value.null⟩ ∧
      read_with_token data_account ⟨read_entity_auth :: "DataTable" :: ["tok", "US"], []⟩
        = (status_codes.BadRequest, ⟨"", "", []⟩) ∧
      handle_put data_account ⟨update_entity_auth :: "DataTable" :: ["tok", "US"], []⟩
        = (.replied ⟨status_codes.BadRequest, value.null⟩, data_account)) ∧
    (handle_get data_account ⟨read_entity_auth :: "tok" :: ["US", "Amy,A"], []⟩
        = .replied ⟨status_codes.NotFound, value.null⟩ ∧
      handle_put data_account ⟨update_entity_auth :: "tok" :: ["US", "Amy,A"], []⟩
        = (.replied ⟨status_codes.NotFound, value.null⟩, data_account)) :=
  ⟨(token_path_too_short data_account "DataTable" ["tok", "US"] []).1
      [⟨"US", "Amy,A", [("Friends", "CA;Bob,B"), ("Status", ""), ("Updates", "old\n")]⟩,
       ⟨"CA", "Bob,B", [("Friends", ""), ("Status", "")]⟩,
       ⟨"CA", "a", [("Updates", "")]⟩] rfl (by decide),
   (token_path_too_short data_account "tok" ["US", "Amy,A"] []).2 rfl⟩

/-- The inner loops of the query, started from `true`. -/
theorem contains_all_true (keys : List (String × String)) :
    ∀ v : List String,
      contains_all v keys true = v.all (fun name => keys.any (fun k => k.1 == name)) := by
  intro v
  induction v with
  | nil => rfl
  | cons vi rest ih =>
    unfold contains_all
    by_cases h : keys.any (fun k => k.1 == vi) = true
    · rw [if_pos h, ih, List.all_cons, h, Bool.true_and]
    · rw [if_neg h, List.all_cons]
      simp only [Bool.not_eq_true] at h
      rw [h, Bool.false_and]

/-- With at least one requested name, the flag left by the previous entity does
not matter. -/
theorem contains_all_eq (keys : List (String × String)) (v : List String) (b : Bool)
    (hv : v ≠ []) :
    contains_all v keys b = v.all (fun name => keys.any (fun k => k.1 == name)) := by
  cases v with
  | nil => exact absurd rfl hv
  | cons vi rest =>
    unfold contains_all
    by_cases h : keys.any (fun k => k.1 == vi) = true
    · rw [if_pos h, contains_all_true, List.all_cons, h, Bool.true_and]
    · rw [if_neg h, List.all_cons]
      simp only [Bool.not_eq_true] at h
      rw [h, Bool.false_and]

/-- The loop over the table keeps the entities whose rendering has every
requested name. -/
theorem collect_containing_eq (v : List String) (hv : v ≠ []) :
    ∀ (tbl : List table_entity) (b : Bool),
      collect_containing v tbl b
        = (tbl.filter (fun e =>
            v.all (fun name => (entity_keys e).any (fun k => k.1 == name)))).map entity_keys := by
  intro tbl
  induction tbl with
  | nil => intro b; rfl
  | cons e rest ih =>
    intro b
    unfold collect_containing
    simp only [contains_all_eq (entity_keys e) v b hv]
    by_cases h : v.all (fun name => (entity_keys e).any (fun k => k.1 == name)) = true
    · rw [if_pos h, ih, List.filter_cons, if_pos h, List.map_cons]
    · rw [if_neg h, ih, List.filter_cons, if_neg h]

/-- Claim C26 fails as stated: with the body Partition = * every entity of the
table is returned, though none has a property named Partition (the name is
matched against the rendering, which starts with Partition and Row); and when the
operation is ReadEntityAuth the reply is BadRequest. -/
theorem query_matches_rendered_keys :
    handle_get data_account ⟨["ReadEntityAdmin", "DataTable"], [("Partition", "*")]⟩
      = .replied ⟨status_codes.OK, value.array
          [[("Partition", "US"), ("Row", "Amy,A"), ("Friends", "CA;Bob,B"), ("Status", ""),
            ("Updates", "old\n")],
           [("Partition", "CA"), ("Row", "Bob,B"), ("Friends", ""), ("Status", "")],
           [("Partition", "CA"), ("Row", "a"), ("Updates", "")]]⟩ ∧
    handle_get data_account ⟨["ReadEntityAuth", "DataTable"], [("Updates", "*")]⟩
      = .replied ⟨status_codes.BadRequest, value.null⟩ := by
  decide

/-- Claim C26, as amended: for GET op/table with op other than ReadEntityAuth, an
existing table and a body in which at least one member has the value `*`, the
reply is OK with the array of exactly those entities of the table, in table
order, whose rendering (Partition, Row, then all of its properties) has a member
of every name given with `*`; each is rendered so. -/
theorem query_all_properties (acct : storage_account) (op tname : String)
    (body : List (String × String)) (tbl : List table_entity)
    (htable : lookup_table acct tname = some tbl) (hop : op ≠ read_entity_auth)
    (hstar : ∃ p ∈ get_json_body ⟨[op, tname], body⟩, p.2 = "*") :
    handle_get acct ⟨[op, tname], body⟩
      = .replied ⟨status_codes.OK, value.array
          ((tbl.filter (fun e =>
              (((get_json_body ⟨[op, tname], body⟩).filter (fun p => p.2 == "*")).map
                Prod.fst).all
                (fun name => (("Partition", e.partition_key) :: ("Row", e.row_key)
                    :: e.properties).any (fun k => k.1 == name)))).map
            (fun e => ("Partition", e.partition_key) :: ("Row", e.row_key)
              :: e.properties))⟩ := by
  obtain ⟨p, hp, hpstar⟩ := hstar
  have hkeys : ∀ e : table_entity,
      entity_keys e = ("Partition", e.partition_key) :: ("Row", e.row_key) :: e.properties := by
    intro e
    simp [entity_keys, get_properties]
  have hv : ((get_json_body ⟨[op, tname], body⟩).filter (fun p => p.2 == "*")).map Prod.fst
      ≠ [] := by
    intro hnil
    have hmem : p ∈ (get_json_body ⟨[op, tname], body⟩).filter (fun p => p.2 == "*") :=
      List.mem_filter.mpr ⟨hp, by simp [hpstar]⟩
    rw [List.map_eq_nil_iff] at hnil
    rw [hnil] at hmem
    cases hmem
  have hlen : 0 < (get_json_body ⟨[op, tname], body⟩).length := List.length_pos_of_mem hp
  have hopb : (op == read_entity_auth) = false := by simpa using hop
  have hfun : entity_keys = fun e : table_entity =>
      ("Partition", e.partition_key) :: ("Row", e.row_key) :: e.properties := funext hkeys
  unfold handle_get
  simp only [List.length_cons, List.length_nil, List.getD_cons_zero, List.getD_cons_succ, htable,
    table_exists, hopb, collect_containing_eq _ hv, Option.getD_some]
  simp [hlen, hfun]

/-- Instance of `query_all_properties`: of the three entities of the sample table,
the two with an Updates property are returned for the names Updates and Row. -/
theorem query_all_properties_witness :
    handle_get data_account ⟨["ReadEntityAdmin", "DataTable"], [("Updates", "*"), ("Row", "*")]⟩
      = .replied ⟨status_codes.OK, value.array
          [[("Partition", "US"), ("Row", "Amy,A"), ("Friends", "CA;Bob,B"), ("Status", ""),
            ("Updates", "old\n")],
           [("Partition", "CA"), ("Row", "a"), ("Updates", "")]]⟩ :=
  (query_all_properties data_account "ReadEntityAdmin" "DataTable"
    [("Updates", "*"), ("Row", "*")]
    [⟨"US", "Amy,A", [("Friends", "CA;Bob,B"), ("Status", ""), ("Updates", "old\n")]⟩,
     ⟨"CA", "Bob,B", [("Friends", ""), ("Status", "")]⟩,
     ⟨"CA", "a", [("Updates", "")]⟩]
    rfl (by decide) ⟨("Updates", "*"), by decide, rfl⟩).trans (by decide)

end BasicServer

/-! ### Maps and tables -/

/-- The table stored under a name is the one just set. -/
theorem lookup_table_set_table (acct : storage_account) (name : String)
    (t : List table_entity) : lookup_table (set_table acct name t) name = some t := by
  unfold lookup_table set_table
  exact lookup_map_assign_self acct.tables name t

/-- Looking for a key other than that of the entity written finds what was there
before. -/
theorem find_entity_insert_or_merge_other (t : List table_entity) (e : table_entity)
    (pk rk : String) (h : ¬ (pk = e.partition_key ∧ rk = e.row_key)) :
    find_entity (some (insert_or_merge_entity t e)) pk rk = find_entity (some t) pk rk := by
  have hmap : ∀ l : List table_entity,
      (l.map (fun x =>
          if x.partition_key == e.partition_key && x.row_key == e.row_key
          then (⟨x.partition_key, x.row_key, merge_properties x.properties e.properties⟩ :
            table_entity)
          else x)).find? (fun y => y.partition_key == pk && y.row_key == rk)
        = l.find? (fun y => y.partition_key == pk && y.row_key == rk) := by
    intro l
    induction l with
    | nil => rfl
    | cons x rest ih =>
      rw [List.map_cons, List.find?_cons, List.find?_cons]
      by_cases hx : (x.partition_key == e.partition_key && x.row_key == e.row_key) = true
      · have hx2 : x.partition_key = e.partition_key ∧ x.row_key = e.row_key := by
          simpa using hx
        have hno : (x.partition_key == pk && x.row_key == rk) = false := by
          rw [Bool.and_eq_false_iff]
          by_cases h1 : x.partition_key = pk
          · right
            simp only [beq_eq_false_iff_ne]
            intro h2
            exact h ⟨by rw [← h1, hx2.1], by rw [← h2, hx2.2]⟩
          · left
            simpa using h1
        simp only [hx, if_true, hno]
        exact ih
      · simp only [hx, Bool.false_eq_true, if_false]
        cases hm : (x.partition_key == pk && x.row_key == rk) with
        | true => rfl
        | false => exact ih
  unfold find_entity insert_or_merge_entity
  simp only [Option.getD_some]
  split
  · exact hmap t
  · rw [List.find?_append]
    have hno : (e.partition_key == pk && e.row_key == rk) = false := by
      rw [Bool.and_eq_false_iff]
      by_cases h1 : e.partition_key = pk
      · right
        simp only [beq_eq_false_iff_ne]
        intro h2
        exact h ⟨h1.symm, h2.symm⟩
      · left
        simpa using h1
    simp [List.find?_cons, hno]

/-- Writing an entity whose key is in the table merges the properties into the
entity found under the key. -/
theorem find_entity_insert_or_merge_present (t : List table_entity) (e x : table_entity)
    (h : find_entity (some t) e.partition_key e.row_key = some x) :
    find_entity (some (insert_or_merge_entity t e)) e.partition_key e.row_key
      = some ⟨x.partition_key, x.row_key, merge_properties x.properties e.properties⟩ := by
  unfold find_entity at h
  simp only [Option.getD_some] at h
  have hx : (x.partition_key == e.partition_key && x.row_key == e.row_key) = true := by
    have h2 := List.find?_some h
    exact h2
  have hany : t.any (fun y => y.partition_key == e.partition_key && y.row_key == e.row_key)
      = true := by
    rw [List.any_eq_true]
    exact ⟨x, List.mem_of_find?_eq_some h, hx⟩
  have hmap : ∀ l : List table_entity,
      l.find? (fun y => y.partition_key == e.partition_key && y.row_key == e.row_key) = some x →
      (l.map (fun x =>
          if x.partition_key == e.partition_key && x.row_key == e.row_key
          then (⟨x.partition_key, x.row_key, merge_properties x.properties e.properties⟩ :
            table_entity)
          else x)).find? (fun y => y.partition_key == e.partition_key && y.row_key == e.row_key)
        = some ⟨x.partition_key, x.row_key, merge_properties x.properties e.properties⟩ := by
    intro l
    induction l with
    | nil => intro hl; simp at hl
    | cons y rest ih =>
      intro hl
      rw [List.find?_cons] at hl
      rw [List.map_cons, List.find?_cons]
      cases hy : (y.partition_key == e.partition_key && y.row_key == e.row_key) with
      | true =>
        rw [hy] at hl
        simp only [Option.some.injEq] at hl
        subst hl
        simp only [if_true]
        have hy2 : y.partition_key = e.partition_key ∧ y.row_key = e.row_key := by
          simpa using hy
        simp [hy2.1, hy2.2]
      | false =>
        rw [hy] at hl
        simp only [Bool.false_eq_true, if_false, hy]
        exact ih hl
  unfold find_entity insert_or_merge_entity
  simp only [Option.getD_some, hany, if_true]
  exact hmap t h

/-- Writing an entity whose key is not in the table adds the entity at the end. -/
theorem insert_or_merge_absent (t : List table_entity) (e : table_entity)
    (h : find_entity (some t) e.partition_key e.row_key = none) :
    insert_or_merge_entity t e = t ++ [e] := by
  unfold find_entity at h
  simp only [Option.getD_some] at h
  have hany : t.any (fun y => y.partition_key == e.partition_key && y.row_key == e.row_key)
      = false := by
    rw [List.any_eq_false]
    intro y hy
    have := List.find?_eq_none.mp h y hy
    simpa using this
  unfold insert_or_merge_entity
  simp [hany]

/-! ### The Fanout Dispatcher with the Data Gateway behind it -/

/-- A routable segment holds no slash. -/
theorem routable_no_slash (seg : String) (h : routable seg) : '/' ∉ seg.data := by
  intro hmem
  have := h.2 '/' hmem
  revert this
  decide

/-- A routable segment has a character. -/
theorem routable_not_empty (seg : String) (h : routable seg) : seg.data.isEmpty = false := by
  cases hd : seg.data with
  | nil =>
    exfalso
    apply h.1
    cases seg
    simp_all
  | cons c cs => rfl

/-- The path the Data Gateway receives for a request on an entity. -/
theorem gateway_uri_path (op c n : String) :
    drop_base PushServer.basic_url.data
        (PushServer.basic_url ++ op ++ "/" ++ PushServer.data_table_name ++ "/" ++ c ++ "/"
          ++ n).data
      = some (op.data ++ ('/' :: (PushServer.data_table_name.data ++
          ('/' :: (c.data ++ ('/' :: n.data)))))) := by
  have h : (PushServer.basic_url ++ op ++ "/" ++ PushServer.data_table_name ++ "/" ++ c ++ "/"
        ++ n).data
      = PushServer.basic_url.data ++ (op.data ++ ('/' :: (PushServer.data_table_name.data ++
          ('/' :: (c.data ++ ('/' :: n.data)))))) := by
    simp only [String.data_append, List.append_assoc]
    rfl
  rw [h, drop_base_append]

/-- Four segments without a slash, joined by slashes, are split into the four. -/
theorem split_path_four (a b c d : String)
    (ha : '/' ∉ a.data) (hb : '/' ∉ b.data) (hc : '/' ∉ c.data) (hd : '/' ∉ d.data)
    (ha2 : a.data.isEmpty = false) (hb2 : b.data.isEmpty = false)
    (hc2 : c.data.isEmpty = false) (hd2 : d.data.isEmpty = false) :
    split_path (a.data ++ ('/' :: (b.data ++ ('/' :: (c.data ++ ('/' :: d.data))))))
      = [a, b, c, d] := by
  simp only [split_path, split_on_append _ _ _ ha, split_on_append _ _ _ hb,
    split_on_append _ _ _ hc, split_on_no_sep _ _ hd]
  simp [List.filter, ha2, hb2, hc2, hd2]

/-- The reply of the Data Gateway to the read of one entity of an existing
table. -/
theorem basic_get_entity (acct : storage_account) (tbl : List table_entity) (c n : String)
    (htable : lookup_table acct PushServer.data_table_name = some tbl) (hstar : n ≠ "*") :
    BasicServer.handle_get acct
        ⟨[PushServer.read_entity, PushServer.data_table_name, c, n], []⟩
      = (match find_entity (some tbl) c n with
        | some e =>
          .replied ⟨status_codes.OK,
            if e.properties.length > 0 then value.object e.properties else value.null⟩
        | none => .replied ⟨status_codes.NotFound, value.null⟩) := by
  have hop : (PushServer.read_entity == BasicServer.read_entity_auth) = false := by decide
  have hop2 : (PushServer.read_entity != BasicServer.read_entity) = false := by decide
  have hn : (n == "*") = false := by simpa using hstar
  have hbody : get_json_body ⟨[PushServer.read_entity, PushServer.data_table_name, c, n], []⟩
      = [] := rfl
  unfold BasicServer.handle_get
  simp only [List.length_cons, List.length_nil, List.getD_cons_zero, List.getD_cons_succ,
    htable, table_exists, hop, hop2, hn, hbody, retrieve_entity,
    List.getElem?_cons_succ, List.getElem?_cons_zero]
  cases hfind : find_entity (some tbl) c n with
  | none => simp
  | some e =>
    by_cases hlen : e.properties.length > 0
    · simp [BasicServer.get_properties, hlen]
    · simp [BasicServer.get_properties, hlen]

/-- The read the Fanout Dispatcher makes of a friend, answered by the Data
Gateway. -/
theorem gateway_read (acct : storage_account) (tbl : List table_entity) (c n : String)
    (htable : lookup_table acct PushServer.data_table_name = some tbl)
    (hc : routable c) (hn : routable n) (hstar : n ≠ "*") :
    do_request_gateway method.GET
        (PushServer.basic_url ++ PushServer.read_entity ++ "/" ++ PushServer.data_table_name
          ++ "/" ++ c ++ "/" ++ n) value.null acct
      = (match find_entity (some tbl) c n with
        | some e =>
          (.ok (status_codes.OK,
            if e.properties.length > 0 then value.object e.properties else value.null), acct)
        | none => (.ok (status_codes.NotFound, value.null), acct)) := by
  unfold do_request_gateway
  rw [gateway_uri_path]
  simp only
  rw [split_path_four _ _ _ _ (by decide) (by decide) (routable_no_slash c hc)
    (routable_no_slash n hn) (by decide) (by decide) (routable_not_empty c hc)
    (routable_not_empty n hn)]
  have hj : json_members value.null = [] := rfl
  rw [hj, basic_get_entity acct tbl c n htable hstar]
  cases find_entity (some tbl) c n <;> rfl

/-- The Updates value the Fanout Dispatcher takes from that read. -/
theorem gateway_read_updates (acct : storage_account) (tbl : List table_entity) (c n : String)
    (htable : lookup_table acct PushServer.data_table_name = some tbl)
    (hc : routable c) (hn : routable n) (hstar : n ≠ "*") :
    ∃ r, do_request_gateway method.GET
        (PushServer.basic_url ++ PushServer.read_entity ++ "/" ++ PushServer.data_table_name
          ++ "/" ++ c ++ "/" ++ n) value.null acct = (.ok r, acct) ∧
      map_index (unpack_json_object r.2) PushServer.updates = stored_updates tbl c n := by
  rw [gateway_read acct tbl c n htable hc hn hstar]
  unfold stored_updates
  cases hfind : find_entity (some tbl) c n with
  | none => exact ⟨_, rfl, rfl⟩
  | some e =>
    refine ⟨_, rfl, ?_⟩
    by_cases hlen : e.properties.length > 0
    · simp only [hlen, if_true]
    · have hnil : e.properties = [] := by
        cases hp : e.properties with
        | nil => rfl
        | cons a l => simp [hp] at hlen
      simp only [hlen, if_false, hnil]
      rfl

/-- The write the Fanout Dispatcher makes for a friend, answered by the Data
Gateway. -/
theorem gateway_write (acct : storage_account) (tbl : List table_entity) (c n u : String)
    (htable : lookup_table acct PushServer.data_table_name = some tbl)
    (hc : routable c) (hn : routable n) :
    do_request_gateway method.PUT
        (PushServer.basic_url ++ PushServer.update_entity ++ "/" ++ PushServer.data_table_name
          ++ "/" ++ c ++ "/" ++ n) (build_json_value PushServer.updates u) acct
      = (.ok (status_codes.OK, value.null),
          set_table acct PushServer.data_table_name
            (insert_or_merge_entity tbl ⟨c, n, [(PushServer.updates, u)]⟩)) := by
  unfold do_request_gateway
  rw [gateway_uri_path]
  simp only
  rw [split_path_four _ _ _ _ (by decide) (by decide) (routable_no_slash c hc)
    (routable_no_slash n hn) (by decide) (by decide) (routable_not_empty c hc)
    (routable_not_empty n hn)]
  have hj : json_members (build_json_value PushServer.updates u) = [(PushServer.updates, u)] :=
    rfl
  have hbody : get_json_body
      ⟨[PushServer.update_entity, PushServer.data_table_name, c, n], [(PushServer.updates, u)]⟩
      = [(PushServer.updates, u)] := rfl
  have hop : (PushServer.update_entity == BasicServer.update_entity_auth) = false := by decide
  have hop2 : (PushServer.update_entity == BasicServer.update_entity) = true := by decide
  have hmerge : merge_properties [] [(PushServer.updates, u)] = [(PushServer.updates, u)] := rfl
  rw [hj]
  unfold BasicServer.handle_put
  simp only [hbody, List.getElem?_cons_succ, List.getElem?_cons_zero, htable, table_exists,
    List.length_cons, List.length_nil, List.getD_cons_zero, List.getD_cons_succ, hop, hop2,
    hmerge]
  simp

/-- The loop of the Fanout Dispatcher over the Data Gateway: every friend is
processed and the table becomes `pushed_table`. -/
theorem push_loop_gateway (s : String) :
    ∀ (L : List (String × String)) (cnt : Nat) (acct : storage_account)
      (tbl : List table_entity),
      lookup_table acct PushServer.data_table_name = some tbl →
      (∀ f ∈ L, routable_friend f) →
      (PushServer.push_loop do_request_gateway s L cnt acct).1 = some (cnt + L.length) ∧
      lookup_table (PushServer.push_loop do_request_gateway s L cnt acct).2
          PushServer.data_table_name = some (pushed_table s L tbl) := by
  intro L
  induction L with
  | nil =>
    intro cnt acct tbl htable _
    exact ⟨rfl, htable⟩
  | cons f rest ih =>
    intro cnt acct tbl htable hroutable
    have hf : routable_friend f := hroutable f (List.mem_cons_self _ _)
    obtain ⟨r, hget, hupd⟩ := gateway_read_updates acct tbl f.1 f.2 htable hf.1 hf.2.1 hf.2.2
    have hput := gateway_write acct tbl f.1 f.2 (stored_updates tbl f.1 f.2 ++ s ++ "\n")
      htable hf.1 hf.2.1
    have hnext := ih (cnt + 1)
      (set_table acct PushServer.data_table_name (pushed_one s tbl f)) (pushed_one s tbl f)
      (lookup_table_set_table _ _ _) (fun g hg => hroutable g (List.mem_cons_of_mem _ hg))
    simp only [PushServer.push_loop, hget, hupd, hput, pushed_table]
    refine ⟨hnext.1.trans ?_, hnext.2⟩
    rw [List.length_cons]
    congr 1
    omega

/-- PushStatus over the Data Gateway, for friends that are routable: the reply
is OK and the data table becomes `pushed_table`. -/
theorem handle_post_gateway (acct : storage_account) (tbl : List table_entity)
    (p r s : String) (rest : List String) (body : List (String × String))
    (htable : lookup_table acct PushServer.data_table_name = some tbl)
    (hroutable : ∀ f ∈ parse_friends_list (map_index
        (get_json_body ⟨PushServer.push_status :: p :: r :: s :: rest, body⟩)
        PushServer.friends), routable_friend f) :
    (PushServer.handle_post do_request_gateway
        ⟨PushServer.push_status :: p :: r :: s :: rest, body⟩ acct).1
      = .replied ⟨status_codes.OK, value.null⟩ ∧
    lookup_table (PushServer.handle_post do_request_gateway
        ⟨PushServer.push_status :: p :: r :: s :: rest, body⟩ acct).2
        PushServer.data_table_name
      = some (pushed_table s (parse_friends_list (map_index
          (get_json_body ⟨PushServer.push_status :: p :: r :: s :: rest, body⟩)
          PushServer.friends)) tbl) := by
  have hloop := push_loop_gateway s (parse_friends_list (map_index
      (get_json_body ⟨PushServer.push_status :: p :: r :: s :: rest, body⟩)
      PushServer.friends)) 0 acct tbl htable hroutable
  have hlen : ¬ (PushServer.push_status :: p :: r :: s :: rest).length < 4 := by
    simp only [List.length_cons]; omega
  unfold PushServer.handle_post
  simp only [hlen, if_false, List.getD_cons_zero, List.getD_cons_succ, beq_self_eq_true,
    if_true]
  rcases hpl : PushServer.push_loop do_request_gateway s (parse_friends_list (map_index
      (get_json_body ⟨PushServer.push_status :: p :: r :: s :: rest, body⟩)
      PushServer.friends)) 0 acct with ⟨o, acct1⟩
  rw [hpl] at hloop
  obtain ⟨h1, h2⟩ := hloop
  simp only at h1 h2
  subst h1
  simp [h2]

/-- What `pushed_table` does to an entity of the table whose property names are
distinct: its Updates grows by the status and a newline for every occurrence of
its coordinate among the friends, and nothing else changes. -/
theorem pushed_table_entity (s : String) :
    ∀ (L : List (String × String)) (tbl : List table_entity) (pk rk : String)
      (e : table_entity),
      find_entity (some tbl) pk rk = some e →
      (e.properties.map Prod.fst).Nodup →
      ∃ e1, find_entity (some (pushed_table s L tbl)) pk rk = some e1 ∧
        map_index e1.properties PushServer.updates
          = map_index e.properties PushServer.updates ++ repeat_status s (L.count (pk, rk)) ∧
        (∀ name, name ≠ PushServer.updates →
          e1.properties.lookup name = e.properties.lookup name) ∧
        ((pk, rk) ∉ L → e1 = e) := by
  intro L
  induction L with
  | nil =>
    intro tbl pk rk e hfind _
    refine ⟨e, hfind, ?_, fun _ _ => rfl, fun _ => rfl⟩
    simp [repeat_status]
  | cons f rest ih =>
    intro tbl pk rk e hfind hnodup
    by_cases hf : f = (pk, rk)
    · subst hf
      have hstored : stored_updates tbl pk rk = map_index e.properties PushServer.updates := by
        unfold stored_updates
        rw [hfind]
        simp only
        rw [unpack_object_nodup e.properties hnodup]
      have hfind1 : find_entity (some (pushed_one s tbl (pk, rk))) pk rk
          = some ⟨e.partition_key, e.row_key,
              map_assign e.properties PushServer.updates
                (map_index e.properties PushServer.updates ++ s ++ "\n")⟩ := by
        unfold pushed_one
        rw [hstored]
        exact find_entity_insert_or_merge_present tbl
          ⟨pk, rk, [(PushServer.updates,
            map_index e.properties PushServer.updates ++ s ++ "\n")]⟩ e hfind
      obtain ⟨e1, h1, h2, h3, _⟩ := ih (pushed_one s tbl (pk, rk)) pk rk _ hfind1
        (nodup_keys_map_assign e.properties _ _ hnodup)
      refine ⟨e1, h1, ?_, ?_, ?_⟩
      · rw [h2, List.count_cons_self]
        simp only [map_index, lookup_map_assign_self, Option.getD_some, repeat_status,
          String.append_assoc]
      · intro name hname
        rw [h3 name hname]
        exact lookup_map_assign_other e.properties _ name _ hname
      · intro hmem
        exact absurd (List.mem_cons_self _ _) hmem
    · have hne : ¬ (pk = f.1 ∧ rk = f.2) := by
        intro h
        apply hf
        obtain ⟨f1, f2⟩ := f
        simp only at h
        rw [h.1, h.2]
      have hfind1 : find_entity (some (pushed_one s tbl f)) pk rk = some e := by
        unfold pushed_one
        rw [find_entity_insert_or_merge_other tbl _ pk rk hne]
        exact hfind
      obtain ⟨e1, h1, h2, h3, h4⟩ := ih (pushed_one s tbl f) pk rk e hfind1 hnodup
      refine ⟨e1, h1, ?_, h3, ?_⟩
      · rw [h2, List.count_cons_of_ne (fun h => hf h.symm)]
      · intro hmem
        exact h4 (fun h => hmem (List.mem_cons_of_mem _ h))

/-- Claim C24 fails as stated: the decoded friend list holds the single pair
(CA, a/b), the table has an entity at (CA, a), which is not in the list, and
after PushStatus with the status hi the Updates of that entity has changed from
the empty string to hi and a newline. -/
theorem push_reaches_other_entity :
    parse_friends_list "CA;a/b" = [("CA", "a/b")] ∧
    find_entity (lookup_table data_account "DataTable") "CA" "a"
      = some ⟨"CA", "a", [("Updates", "")]⟩ ∧
    find_entity (lookup_table (PushServer.handle_post do_request_gateway
        ⟨["PushStatus", "US", "Amy,A", "hi"], [("Friends", "CA;a/b")]⟩ data_account).2
        "DataTable") "CA" "a"
      = some ⟨"CA", "a", [("Updates", "hi\n")]⟩ := by
  decide

/-- Claim C24, as amended: PushStatus over the Data Gateway, with a status s and
a decoded friend list L whose countries and names are path segments (not empty,
made of characters that stand for themselves in a URI path, the name not being
the wildcard).  The reply is OK, and every entity that was in DataTable, with
distinct property names, is found afterwards under the same coordinate with
Updates equal to its previous Updates followed by s and a newline once for each
occurrence of the coordinate in L; its other properties are as before, and an
entity whose coordinate is not in L is unchanged. -/
theorem push_status_effect (acct : storage_account) (tbl : List table_entity)
    (p r s : String) (rest : List String) (body : List (String × String))
    (L : List (String × String))
    (htable : lookup_table acct PushServer.data_table_name = some tbl)
    (hL : parse_friends_list (map_index
        (get_json_body ⟨PushServer.push_status :: p :: r :: s :: rest, body⟩)
        PushServer.friends) = L)
    (hroutable : ∀ f ∈ L, routable_friend f) :
    (PushServer.handle_post do_request_gateway
        ⟨PushServer.push_status :: p :: r :: s :: rest, body⟩ acct).1
      = .replied ⟨status_codes.OK, value.null⟩ ∧
    ∃ tbl1, lookup_table (PushServer.handle_post do_request_gateway
        ⟨PushServer.push_status :: p :: r :: s :: rest, body⟩ acct).2
        PushServer.data_table_name = some tbl1 ∧
      ∀ (pk rk : String) (e : table_entity),
        find_entity (some tbl) pk rk = some e → (e.properties.map Prod.fst).Nodup →
        ∃ e1, find_entity (some tbl1) pk rk = some e1 ∧
          map_index e1.properties PushServer.updates
            = map_index e.properties PushServer.updates
                ++ repeat_status s (L.count (pk, rk)) ∧
          (∀ name, name ≠ PushServer.updates →
            e1.properties.lookup name = e.properties.lookup name) ∧
          ((pk, rk) ∉ L → e1 = e) := by
  subst hL
  obtain ⟨h1, h2⟩ := handle_post_gateway acct tbl p r s rest body htable hroutable
  exact ⟨h1, _, h2, fun pk rk e hfind hnodup => pushed_table_entity s _ tbl pk rk e hfind hnodup⟩

/-- Instance of `push_status_effect`: Amy is twice among the four friends; her
Updates grows by two copies of the status, her Friends stays. -/
theorem push_status_effect_witness :
    (∀ f ∈ [("US", "Amy,A"), ("CA", "Bob,B"), ("KR", "Kim"), ("US", "Amy,A")],
      routable_friend f) ∧
    (PushServer.handle_post do_request_gateway
        ⟨["PushStatus", "CA", "Bob,B", "hi"],
          [("Friends", "US;Amy,A|CA;Bob,B|KR;Kim|US;Amy,A")]⟩ data_account).1
      = .replied ⟨status_codes.OK, value.null⟩ ∧
    ∃ tbl1 e1, lookup_table (PushServer.handle_post do_request_gateway
        ⟨["PushStatus", "CA", "Bob,B", "hi"],
          [("Friends", "US;Amy,A|CA;Bob,B|KR;Kim|US;Amy,A")]⟩ data_account).2
        "DataTable" = some tbl1 ∧
      find_entity (some tbl1) "US" "Amy,A" = some e1 ∧
      map_index e1.properties "Updates" = "old\n" ++ repeat_status "hi" 2 ∧
      e1.properties.lookup "Friends" = some "CA;Bob,B" := by
  have hroutable : ∀ f ∈ [("US", "Amy,A"), ("CA", "Bob,B"), ("KR", "Kim"), ("US", "Amy,A")],
      routable_friend f := by decide
  obtain ⟨h1, tbl1, h2, h3⟩ := push_status_effect data_account
    [⟨"US", "Amy,A", [("Friends", "CA;Bob,B"), ("Status", ""), ("Updates", "old\n")]⟩,
     ⟨"CA", "Bob,B", [("Friends", ""), ("Status", "")]⟩,
     ⟨"CA", "a", [("Updates", "")]⟩]
    "CA" "Bob,B" "hi" [] [("Friends", "US;Amy,A|CA;Bob,B|KR;Kim|US;Amy,A")]
    [("US", "Amy,A"), ("CA", "Bob,B"), ("KR", "Kim"), ("US", "Amy,A")]
    rfl (by decide) hroutable
  obtain ⟨e1, h4, h5, h6, _⟩ := h3 "US" "Amy,A"
    ⟨"US", "Amy,A", [("Friends", "CA;Bob,B"), ("Status", ""), ("Updates", "old\n")]⟩
    (by decide) (by decide)
  exact ⟨hroutable, h1, tbl1, e1, h2, h4, h5, h6 "Friends" (by decide)⟩

/-- Claim C30: PushStatus over the Data Gateway with a single friend whose
coordinate has no entity in DataTable.  The read of the friend is answered
NotFound with no body (so its Updates reads as empty), the reply is OK, and the
table afterwards is the table before followed by a new entity at the coordinate
whose only property is Updates, equal to the status and a newline. -/
theorem push_creates_missing_entity (acct : storage_account) (tbl : List table_entity)
    (p r s c n : String) (rest : List String) (body : List (String × String))
    (htable : lookup_table acct PushServer.data_table_name = some tbl)
    (hL : parse_friends_list (map_index
        (get_json_body ⟨PushServer.push_status :: p :: r :: s :: rest, body⟩)
        PushServer.friends) = [(c, n)])
    (hroutable : routable_friend (c, n))
    (habsent : find_entity (some tbl) c n = none) :
    do_request_gateway method.GET
        (PushServer.basic_url ++ PushServer.read_entity ++ "/" ++ PushServer.data_table_name
          ++ "/" ++ c ++ "/" ++ n) value.null acct
      = (.ok (status_codes.NotFound, value.null), acct) ∧
    (PushServer.handle_post do_request_gateway
        ⟨PushServer.push_status :: p :: r :: s :: rest, body⟩ acct).1
      = .replied ⟨status_codes.OK, value.null⟩ ∧
    lookup_table (PushServer.handle_post do_request_gateway
        ⟨PushServer.push_status :: p :: r :: s :: rest, body⟩ acct).2
        PushServer.data_table_name
      = some (tbl ++ [⟨c, n, [(PushServer.updates, s ++ "\n")]⟩]) := by
  have hall : ∀ f ∈ parse_friends_list (map_index
      (get_json_body ⟨PushServer.push_status :: p :: r :: s :: rest, body⟩)
      PushServer.friends), routable_friend f := by
    rw [hL]
    intro f hf
    rw [List.mem_singleton] at hf
    rw [hf]
    exact hroutable
  obtain ⟨h1, h2⟩ := handle_post_gateway acct tbl p r s rest body htable hall
  refine ⟨?_, h1, ?_⟩
  · rw [gateway_read acct tbl c n htable hroutable.1 hroutable.2.1 hroutable.2.2, habsent]
  · rw [h2, hL]
    have hstored : stored_updates tbl c n = "" := by
      unfold stored_updates
      rw [habsent]
    simp only [pushed_table, pushed_one, hstored, String.empty_append]
    rw [insert_or_merge_absent tbl _ habsent]

/-- Instance of `push_creates_missing_entity`: Kim has no entity in the sample
table and gets one. -/
theorem push_creates_missing_entity_witness :
    do_request_gateway method.GET
        (PushServer.basic_url ++ PushServer.read_entity ++ "/" ++ PushServer.data_table_name
          ++ "/" ++ "KR" ++ "/" ++ "Kim") value.null data_account
      = (.ok (status_codes.NotFound, value.null), data_account) ∧
    (PushServer.handle_post do_request_gateway
        ⟨PushServer.push_status :: "US" :: "Amy,A" :: "hi" :: [], [("Friends", "KR;Kim")]⟩
        data_account).1
      = .replied ⟨status_codes.OK, value.null⟩ ∧
    lookup_table (PushServer.handle_post do_request_gateway
        ⟨PushServer.push_status :: "US" :: "Amy,A" :: "hi" :: [], [("Friends", "KR;Kim")]⟩
        data_account).2 PushServer.data_table_name
      = some ([⟨"US", "Amy,A", [("Friends", "CA;Bob,B"), ("Status", ""), ("Updates", "old\n")]⟩,
          ⟨"CA", "Bob,B", [("Friends", ""), ("Status", "")]⟩,
          ⟨"CA", "a", [("Updates", "")]⟩]
        ++ [⟨"KR", "Kim", [(PushServer.updates, "hi" ++ "\n")]⟩]) :=
  push_creates_missing_entity data_account _ "US" "Amy,A" "hi" "KR" "Kim" [] [("Friends", "KR;Kim")]
    rfl (by decide) (by decide) (by decide)

end SocialNetwork
